import Mathlib

/-!
# ML service API: remote-service router and management RPC facade

A shallow embedding of

* `c/src/ml-api-remote-service.c`       (service-type parsing and the service router),
* `c/src/ml-api-service-agent-client.c` (the management facade on top of D-Bus),
* `daemon/ml-agent-dbus-interface.c`    (endpoint discovery and the D-Bus calls).

Conventions of the embedding.

* A nullable C string (`gchar *`) is an `Option String`; the characters of the
  `String` are the bytes before the terminator.
* An out-parameter is a field of the returned record; `none` means "not written".
  Where the source guards an out-pointer against `NULL`, a `Bool` argument of the
  same name tells whether the pointer is non-null.
* What a function does to its collaborators (error reports, D-Bus probes and
  requests, creation and destruction of option stores) is recorded, in program
  order, in a trace of `Event`s.
* What the collaborators answer (the bus, the daemon, the JSON parser, the
  allocator) is read from an `Env`, so every theorem quantifies over all answers.
* `g_return_val_if_fail` / `g_return_val_if_reached` are embedded with GLib checks
  compiled in (the default build).
* The answers of the edge transport library are read from a `Transport`, those of
  the file system from a `FileSystem`; what a cast of the private data of a service
  handle to the struct of the other variant reads is given by `Casts`.
-/

namespace MlApi

/-! ## Error codes -/

/-- Value of `EINVAL` (errno.h). -/
def EINVAL : Int := 22
/-- Value of `EIO` (errno.h). -/
def EIO : Int := 5
/-- Value of `ENOMEM` (errno.h). -/
def ENOMEM : Int := 12

/-- Success code of the ML API. -/
def ML_ERROR_NONE : Int := 0
/-- The ML API code for an invalid parameter, `-EINVAL`. -/
def ML_ERROR_INVALID_PARAMETER : Int := -EINVAL
/-- The ML API code for an allocation failure, `-ENOMEM`. -/
def ML_ERROR_OUT_OF_MEMORY : Int := -ENOMEM
/-- Value of `EACCES` (errno.h). -/
def EACCES : Int := 13
/-- The ML API code for a denied permission, `-EACCES`. -/
def ML_ERROR_PERMISSION_DENIED : Int := -EACCES
/-- Success code of the edge transport. -/
def NNS_EDGE_ERROR_NONE : Int := 0

/-! ## ASCII case-insensitive comparison (GLib) -/

/-- GLib `TOLOWER` on a byte value: `ISUPPER (c) ? c - 'A' + 'a' : c`. -/
def TOLOWER (c : Nat) : Nat :=
  if 65 ≤ c ∧ c ≤ 90 then c - 65 + 97 else c

/-- The byte a C string pointer points at: the terminator `0` at the end. -/
def deref : List Char → Nat
  | [] => 0
  | c :: _ => c.toNat

/-- The loop of `g_ascii_strcasecmp`:
`while (*s1 && *s2) { c1 = TOLOWER (*s1); c2 = TOLOWER (*s2);
   if (c1 != c2) return c1 - c2; s1++; s2++; }
 return *s1 - *s2;` -/
def g_ascii_strcasecmp_loop : List Char → List Char → Int
  | c1 :: s1, c2 :: s2 =>
    if c1.toNat ≠ 0 ∧ c2.toNat ≠ 0 then
      if TOLOWER c1.toNat ≠ TOLOWER c2.toNat then
        (TOLOWER c1.toNat : Int) - (TOLOWER c2.toNat : Int)
      else g_ascii_strcasecmp_loop s1 s2
    else (c1.toNat : Int) - (c2.toNat : Int)
  | s1, s2 => (deref s1 : Int) - (deref s2 : Int)

/-- GLib `g_ascii_strcasecmp` on two non-null C strings. -/
def g_ascii_strcasecmp (s1 s2 : String) : Int :=
  g_ascii_strcasecmp_loop s1.data s2.data

/-- A `String` that is the content of a C string holds no terminator byte. -/
def IsCString (s : String) : Prop := ∀ c ∈ s.data, c.toNat ≠ 0

instance (s : String) : Decidable (IsCString s) := by
  unfold IsCString; infer_instance

/-- Equality of two strings under ASCII case-insensitive comparison, stated with
the library lower-casing of characters (independent of `g_ascii_strcasecmp`). -/
def AsciiCaseEq (s t : String) : Prop :=
  s.data.map Char.toLower = t.data.map Char.toLower

instance (s t : String) : Decidable (AsciiCaseEq s t) := by
  unfold AsciiCaseEq; infer_instance

/-! ## Trace of effects -/

/-- Remote service types (`ml_remote_service_type_e`). -/
inductive ml_remote_service_type_e where
  | ML_REMOTE_SERVICE_TYPE_UNKNOWN
  | ML_REMOTE_SERVICE_TYPE_MODEL_RAW
  | ML_REMOTE_SERVICE_TYPE_MODEL_URL
  | ML_REMOTE_SERVICE_TYPE_PIPELINE_RAW
  | ML_REMOTE_SERVICE_TYPE_PIPELINE_URL
  | ML_REMOTE_SERVICE_TYPE_MAX
  deriving DecidableEq, Repr

open ml_remote_service_type_e

/-- One argument of a formatted error report. -/
inductive ReportArg where
  | str (s : Option String)
  | svc (t : ml_remote_service_type_e)
  | num (n : Int)
  deriving DecidableEq, Repr

/-- Bus scopes of GDBus (`GBusType`) that the discovery table uses. -/
inductive GBusType where
  | G_BUS_TYPE_SYSTEM
  | G_BUS_TYPE_SESSION
  deriving DecidableEq, Repr

/-- The daemon services (`ml_agent_dbus_service_type_e`). -/
inductive ml_agent_dbus_service_type_e where
  | ML_AGENT_DBUS_SERVICE_PIPELINE
  | ML_AGENT_DBUS_SERVICE_MODEL
  | ML_AGENT_DBUS_SERVICE_END
  deriving DecidableEq, Repr

/-- A GLib error object. -/
structure GError where
  message : String
  deriving DecidableEq, Repr

/-- A live proxy connection (`ml_agent_dbus_proxy_h`), identified by a number. -/
abbrev ml_agent_dbus_proxy_h := Nat

/-- A D-Bus method call of the generated pipeline / model interfaces, with the
input arguments the source passes. -/
inductive Request where
  | set_pipeline (name pipeline_desc : String)
  | get_pipeline (name : String)
  | delete_pipeline (name : String)
  | launch_pipeline (name : String)
  | start_pipeline (id : Int)
  | stop_pipeline (id : Int)
  | destroy_pipeline (id : Int)
  | get_state (id : Int)
  | model_register (name path : Option String) (activate : Bool) (description : String)
  | model_update_description (name : Option String) (version : Nat)
      (description : Option String)
  | model_activate (name : Option String) (version : Nat)
  | model_get (name : Option String) (version : Nat)
  | model_get_activated (name : Option String)
  | model_get_all (name : Option String)
  | model_delete (name : Option String) (version : Nat)
  deriving DecidableEq, Repr

/-- A call of a public Management RPC Facade operation made by the router. -/
inductive FacadeCall where
  | ml_service_set_pipeline (name pipeline_desc : Option String)
  deriving DecidableEq, Repr

/-- Connection kinds of the edge transport (`nns_edge_connect_type_e`, declared in
nnstreamer-edge.h), in header order: `NNS_EDGE_CONNECT_TYPE_TCP` has the value 0. -/
inductive nns_edge_connect_type_e where
  | NNS_EDGE_CONNECT_TYPE_TCP
  | NNS_EDGE_CONNECT_TYPE_HYBRID
  | NNS_EDGE_CONNECT_TYPE_MQTT
  | NNS_EDGE_CONNECT_TYPE_AITT
  | NNS_EDGE_CONNECT_TYPE_UNKNOWN
  deriving DecidableEq, Repr

/-- Node types of the edge transport (`nns_edge_node_type_e`, declared in
nnstreamer-edge.h), in header order: `NNS_EDGE_NODE_TYPE_QUERY_CLIENT` has the
value 0. `PUB` is the sender role, `SUB` the receiver role. -/
inductive nns_edge_node_type_e where
  | NNS_EDGE_NODE_TYPE_QUERY_CLIENT
  | NNS_EDGE_NODE_TYPE_QUERY_SERVER
  | NNS_EDGE_NODE_TYPE_PUB
  | NNS_EDGE_NODE_TYPE_SUB
  | NNS_EDGE_NODE_TYPE_UNKNOWN
  deriving DecidableEq, Repr

/-- An edge handle (`nns_edge_h`), identified by a number. -/
abbrev nns_edge_h := Nat

/-- A call into the edge transport library, with the arguments the source passes. -/
inductive EdgeCall where
  | nns_edge_create_handle (topic : Option String) (conn_type : nns_edge_connect_type_e)
      (node_type : nns_edge_node_type_e)
  | nns_edge_set_event_callback (edge_h : nns_edge_h)
  | nns_edge_set_info (edge_h : nns_edge_h) (key : String) (value : Option String)
  | nns_edge_start (edge_h : nns_edge_h)
  | nns_edge_connect (edge_h : nns_edge_h) (dest_host : Option String) (dest_port : Nat)
  | nns_edge_release_handle (edge_h : nns_edge_h)
  | nns_edge_data_create
  | nns_edge_data_set_info (key : String) (value : String)
  | nns_edge_data_add (data : String) (data_len : Nat)
  | nns_edge_data_destroy
  | nns_edge_send (edge_h : nns_edge_h)
  deriving DecidableEq, Repr

/-- Observable effects, in program order. -/
inductive Event where
  /-- The call `_ml_error_report (fmt, args)`. -/
  | report (fmt : String) (args : List ReportArg)
  /-- A call of a facade operation. -/
  | call (c : FacadeCall)
  /-- One probe `..._proxy_new_for_bus_sync (bus, ...)`. -/
  | probe (svc : ml_agent_dbus_service_type_e) (bus : GBusType)
  /-- One synchronous D-Bus method call on a proxy. -/
  | request (p : ml_agent_dbus_proxy_h) (r : Request)
  /-- The call `g_object_unref (proxy)`. -/
  | unref (p : ml_agent_dbus_proxy_h)
  /-- A successful `ml_option_create`; `k` names the created store. -/
  | option_create (k : Nat)
  /-- The call `ml_option_destroy` on store `k`. -/
  | option_destroy (k : Nat)
  /-- A call into the edge transport library. -/
  | edge (c : EdgeCall)
  deriving DecidableEq, Repr

/-- Events that reach the Management RPC Facade or the daemon behind it. -/
def Event.isRpc : Event → Bool
  | .call _ => true
  | .probe _ _ => true
  | .request _ _ => true
  | _ => false

/-- The facade calls, probes and requests of a trace. -/
def rpcEvents (tr : List Event) : List Event := tr.filter Event.isRpc

/-- Events that are error reports. -/
def Event.isReport : Event → Bool
  | .report _ _ => true
  | _ => false

/-! ## Service-type parsing -/

/-- Embedding of `_mlrs_get_service_type (gchar * service_str)`: the resolved
type and the reports made. -/
def _mlrs_get_service_type (service_str : Option String) :
    ml_remote_service_type_e × List Event :=
  match service_str with
  | none => (ML_REMOTE_SERVICE_TYPE_UNKNOWN, [])
  | some s =>
    if g_ascii_strcasecmp s "model_raw" = 0 then
      (ML_REMOTE_SERVICE_TYPE_MODEL_RAW, [])
    else if g_ascii_strcasecmp s "model_url" = 0 then
      (ML_REMOTE_SERVICE_TYPE_MODEL_URL, [])
    else if g_ascii_strcasecmp s "pipeline_raw" = 0 then
      (ML_REMOTE_SERVICE_TYPE_PIPELINE_RAW, [])
    else if g_ascii_strcasecmp s "pipeline_url" = 0 then
      (ML_REMOTE_SERVICE_TYPE_PIPELINE_URL, [])
    else
      (ML_REMOTE_SERVICE_TYPE_UNKNOWN,
        [.report "Invalid service type: %s, Please check service type." [.str (some s)]])

/-! ## JSON documents (json-glib) -/

/-- A scalar JSON value held by a value node. -/
inductive JsonValue where
  | string (s : String)
  | int (n : Int)
  | double (mantissa : Int) (exponent : Int)
  | boolean (b : Bool)
  deriving DecidableEq, Repr

/-- A parsed JSON node (`JsonNode`): a null node, a value node, an object with
its members in document order, or an array. -/
inductive JsonNode where
  | null
  | value (v : JsonValue)
  | object (members : List (String × JsonNode))
  | array (elements : List JsonNode)

/-- A JSON object: its members in insertion order. -/
abbrev JsonObject := List (String × JsonNode)

/-- json-glib `json_node_get_object`: the object of an object node, `NULL`
(after a failed `g_return_val_if_fail`) for every other node. -/
def json_node_get_object : JsonNode → Option JsonObject
  | .object members => some members
  | _ => none

/-- json-glib `json_node_get_array` on a possibly null node: the array of an array
node, `NULL` otherwise. -/
def json_node_get_array : Option JsonNode → Option (List JsonNode)
  | some (.array elements) => some elements
  | _ => none

/-- json-glib `json_array_get_object_element (array, i)`: the object held by the
element, `NULL` when the element is not an object node. -/
def json_array_get_object_element (array : List JsonNode) (i : Nat) : Option JsonObject :=
  match array.get? i with
  | some (.object members) => some members
  | _ => none

/-- The member names that `json_object_iter_init_ordered` followed by repeated
`json_object_iter_next_ordered` yields. On a `NULL` object the initialisation
returns at its guard and `next` returns `FALSE` at its own: no member is yielded. -/
def json_object_iter_ordered : Option JsonObject → List String
  | some members => members.map Prod.fst
  | none => []

/-- json-glib `json_object_get_string_member (object, name)`: the string of the
member when it is a string value node, `NULL` otherwise. -/
def json_object_get_string_member (object : Option JsonObject) (member_name : String) :
    Option String :=
  match object with
  | none => none
  | some members =>
    match members.lookup member_name with
    | some (.value (.string s)) => some s
    | _ => none

/-! ## Option Store -/

/-- Modelled from the spec: the Option Store (`ml_option_h`, whose implementation
`ml_option_create` / `ml_option_set` / `ml_option_destroy` is outside the given
sources) is an ordered string-keyed map; here with the string values the decoders
store. -/
abbrev ml_option := List (String × String)

/-- Modelled from the spec: `ml_option_set (option, key, value, destroy)` on the
ordered map. A null value is an invalid parameter and leaves the store as it
is; a key already present keeps its place and takes the new value; a new key
is appended. -/
def ml_option_set (option : ml_option) (key : String) (value : Option String) :
    Int × ml_option :=
  match value with
  | none => (ML_ERROR_INVALID_PARAMETER, option)
  | some v =>
    if key ∈ option.map Prod.fst then
      (ML_ERROR_NONE, option.map (fun e => if e.1 = key then (key, v) else e))
    else (ML_ERROR_NONE, option ++ [(key, v)])

/-! ## The environment -/

/-- Features guarded by `check_feature_state`. -/
inductive ml_feature_e where
  | ML_FEATURE_SERVICE
  | ML_FEATURE_INFERENCE
  deriving DecidableEq, Repr

/-- What a generated `..._call_<method>_sync` leaves behind. -/
structure CallOutcome where
  /-- The returned `gboolean`: whether the transport call succeeded. -/
  result : Bool
  /-- The value of the status out-argument after the call: the status the daemon
  reported when `result` is true, and whatever the caller's uninitialised
  variable held when the call failed and wrote nothing. -/
  status : Int
  /-- The string out-argument (description), `NULL` when not written. -/
  out_str : Option String
  /-- The number the daemon answers for the numeric out-argument (id, state or
  version). The generated call stores it through the out-pointer only when
  `result` is true; a call that fails writes nothing. -/
  out_num : Int
  /-- The `GError` set by the call, if any. -/
  err : Option GError
  deriving DecidableEq, Repr

/-- The answers of the collaborators. -/
structure Env where
  /-- Outcome of `check_feature_state (feature)`: the macro is declared outside the
  given sources; `ML_ERROR_NONE` lets the operation continue, every other value
  is reported and returned. -/
  check_feature_state : ml_feature_e → Int
  /-- Outcome of `machinelearning_service_<svc>_proxy_new_for_bus_sync (bus, ...)`:
  a proxy, or `NULL` with the error set. -/
  proxy_new_for_bus_sync : ml_agent_dbus_service_type_e → GBusType →
    Except GError ml_agent_dbus_proxy_h
  /-- Outcome of a D-Bus method call on a proxy. -/
  call_sync : ml_agent_dbus_proxy_h → Request → CallOutcome
  /-- Whether `json_parser_new ()` returns a parser. -/
  json_parser_new : Bool
  /-- Outcome of `json_parser_load_from_data` followed by `json_parser_get_root`:
  a parse error, or the root node (`NULL` for an empty document). -/
  json_parser_load_from_data : String → Except GError (Option JsonNode)
  /-- Return value of the `k`-th `ml_option_create` of a call (counted from 0). -/
  ml_option_create : Nat → Int
  /-- Whether `g_new0 (ml_option_h, n)` returns a block. -/
  g_new0 : Nat → Bool

/-! ## Endpoint discovery (`daemon/ml-agent-dbus-interface.c`) -/

/-- The static table `bus_types`. -/
def bus_types : List GBusType := [.G_BUS_TYPE_SYSTEM, .G_BUS_TYPE_SESSION]

/-- Result of `_get_proxy_new_for_bus_sync`. -/
structure ProxyResult where
  /-- The returned proxy, `none` for `NULL`. -/
  proxy : Option ml_agent_dbus_proxy_h
  /-- The error written to `*err`, `none` when `*err` is not written. -/
  err : Option GError
  trace : List Event
  deriving DecidableEq, Repr

/-- The probing loop `for (i = 0; i < num_bus_types; ++i)` over the scopes still
to try; the second argument is the local `_err` on entry. Each round clears
`_err`, probes, and breaks on a proxy. -/
def probe_loop (env : Env) (type : ml_agent_dbus_service_type_e) :
    List GBusType → Option GError → ProxyResult
  | [], _err => ⟨none, _err, []⟩
  | bus :: rest, _ =>
    match env.proxy_new_for_bus_sync type bus with
    | .ok p => ⟨some p, none, [.probe type bus]⟩
    | .error e =>
      let r := probe_loop env type rest (some e)
      ⟨r.proxy, r.err, .probe type bus :: r.trace⟩

/-- Embedding of `_get_proxy_new_for_bus_sync (type, err)`. -/
def _get_proxy_new_for_bus_sync (env : Env) (type : ml_agent_dbus_service_type_e) :
    ProxyResult :=
  match type with
  | .ML_AGENT_DBUS_SERVICE_PIPELINE => probe_loop env type bus_types none
  | .ML_AGENT_DBUS_SERVICE_MODEL => probe_loop env type bus_types none
  | .ML_AGENT_DBUS_SERVICE_END => ⟨none, none, []⟩

/-! ## The D-Bus calls (`daemon/ml-agent-dbus-interface.c`) -/

/-- Result of an `ml_agent_dbus_interface_*` function. -/
structure RpcResult where
  /-- The returned `gint`. -/
  ret : Int
  /-- The string out-argument, `none` when `NULL` or not written. -/
  out_str : Option String
  /-- The numeric out-argument, `none` when no call wrote it. -/
  out_num : Option Int
  /-- The error left in `*err`. -/
  err : Option GError
  trace : List Event
  deriving DecidableEq, Repr

/-- The closing lines `g_return_val_if_fail (ret == 0 && result, ret); return 0;`
shared by every call that reads a daemon status. -/
def status_return (c : CallOutcome) : Int :=
  if c.status = 0 ∧ c.result = true then 0 else c.status

/-- Embedding of `ml_agent_dbus_interface_set_pipeline`. The status out-argument of
the generated call is passed as `NULL`, so the daemon status is not read:
`g_return_val_if_fail (result, - EIO); return 0;`. -/
def ml_agent_dbus_interface_set_pipeline (env : Env) (name pipeline_desc : Option String) :
    RpcResult :=
  match name, pipeline_desc with
  | some name, some pipeline_desc =>
    let pr := _get_proxy_new_for_bus_sync env .ML_AGENT_DBUS_SERVICE_PIPELINE
    match pr.proxy with
    | none => ⟨- EIO, none, none, pr.err, pr.trace⟩
    | some mlsp =>
      let c := env.call_sync mlsp (.set_pipeline name pipeline_desc)
      ⟨if c.result = true then 0 else - EIO, none, none, c.err,
        pr.trace ++ [.request mlsp (.set_pipeline name pipeline_desc), .unref mlsp]⟩
  | _, _ => ⟨-EINVAL, none, none, none, []⟩

/-- Embedding of `ml_agent_dbus_interface_get_pipeline`; `pipeline_desc` tells whether
the out-pointer is non-null. -/
def ml_agent_dbus_interface_get_pipeline (env : Env) (name : Option String)
    (pipeline_desc : Bool) : RpcResult :=
  match name, pipeline_desc with
  | none, _ => ⟨-EINVAL, none, none, none, []⟩
  | _, false => ⟨-EINVAL, none, none, none, []⟩
  | some name, true =>
    let pr := _get_proxy_new_for_bus_sync env .ML_AGENT_DBUS_SERVICE_PIPELINE
    match pr.proxy with
    | none => ⟨- EIO, none, none, pr.err, pr.trace⟩
    | some proxy =>
      let c := env.call_sync proxy (.get_pipeline name)
      ⟨status_return c, c.out_str, none, c.err,
        pr.trace ++ [.request proxy (.get_pipeline name), .unref proxy]⟩

/-- Embedding of `ml_agent_dbus_interface_delete_pipeline`. -/
def ml_agent_dbus_interface_delete_pipeline (env : Env) (name : Option String) : RpcResult :=
  match name with
  | none => ⟨-EINVAL, none, none, none, []⟩
  | some name =>
    let pr := _get_proxy_new_for_bus_sync env .ML_AGENT_DBUS_SERVICE_PIPELINE
    match pr.proxy with
    | none => ⟨- EIO, none, none, pr.err, pr.trace⟩
    | some proxy =>
      let c := env.call_sync proxy (.delete_pipeline name)
      ⟨status_return c, none, none, c.err,
        pr.trace ++ [.request proxy (.delete_pipeline name), .unref proxy]⟩

/-- Embedding of `ml_agent_dbus_interface_launch_pipeline`. -/
def ml_agent_dbus_interface_launch_pipeline (env : Env) (name : Option String) : RpcResult :=
  match name with
  | none => ⟨-EINVAL, none, none, none, []⟩
  | some name =>
    let pr := _get_proxy_new_for_bus_sync env .ML_AGENT_DBUS_SERVICE_PIPELINE
    match pr.proxy with
    | none => ⟨- EIO, none, none, pr.err, pr.trace⟩
    | some proxy =>
      let c := env.call_sync proxy (.launch_pipeline name)
      ⟨status_return c, none, if c.result = true then some c.out_num else none, c.err,
        pr.trace ++ [.request proxy (.launch_pipeline name), .unref proxy]⟩

/-- Embedding of `ml_agent_dbus_interface_start_pipeline`. -/
def ml_agent_dbus_interface_start_pipeline (env : Env) (id : Int) : RpcResult :=
  let pr := _get_proxy_new_for_bus_sync env .ML_AGENT_DBUS_SERVICE_PIPELINE
  match pr.proxy with
  | none => ⟨- EIO, none, none, pr.err, pr.trace⟩
  | some proxy =>
    let c := env.call_sync proxy (.start_pipeline id)
    ⟨status_return c, none, none, c.err,
      pr.trace ++ [.request proxy (.start_pipeline id), .unref proxy]⟩

/-- Embedding of `ml_agent_dbus_interface_stop_pipeline`. -/
def ml_agent_dbus_interface_stop_pipeline (env : Env) (id : Int) : RpcResult :=
  let pr := _get_proxy_new_for_bus_sync env .ML_AGENT_DBUS_SERVICE_PIPELINE
  match pr.proxy with
  | none => ⟨- EIO, none, none, pr.err, pr.trace⟩
  | some proxy =>
    let c := env.call_sync proxy (.stop_pipeline id)
    ⟨status_return c, none, none, c.err,
      pr.trace ++ [.request proxy (.stop_pipeline id), .unref proxy]⟩

/-- Embedding of `ml_agent_dbus_interface_destroy_pipeline`. -/
def ml_agent_dbus_interface_destroy_pipeline (env : Env) (id : Int) : RpcResult :=
  let pr := _get_proxy_new_for_bus_sync env .ML_AGENT_DBUS_SERVICE_PIPELINE
  match pr.proxy with
  | none => ⟨- EIO, none, none, pr.err, pr.trace⟩
  | some proxy =>
    let c := env.call_sync proxy (.destroy_pipeline id)
    ⟨status_return c, none, none, c.err,
      pr.trace ++ [.request proxy (.destroy_pipeline id), .unref proxy]⟩

/-- Embedding of `ml_agent_dbus_interface_get_pipeline_state`. The caller's `state` is
written by the generated call only when the call succeeded; after a failed call
it keeps the value the caller gave it (`out_num = none`). -/
def ml_agent_dbus_interface_get_pipeline_state (env : Env) (id : Int) : RpcResult :=
  let pr := _get_proxy_new_for_bus_sync env .ML_AGENT_DBUS_SERVICE_PIPELINE
  match pr.proxy with
  | none => ⟨- EIO, none, none, pr.err, pr.trace⟩
  | some proxy =>
    let c := env.call_sync proxy (.get_state id)
    ⟨status_return c, none, if c.result = true then some c.out_num else none, c.err,
      pr.trace ++ [.request proxy (.get_state id), .unref proxy]⟩

/-- Embedding of `ml_agent_dbus_interface_model_register`; a `NULL` description is sent
as the empty string. -/
def ml_agent_dbus_interface_model_register (env : Env) (name path : Option String) (activate : Bool)
    (description : Option String) : RpcResult :=
  let pr := _get_proxy_new_for_bus_sync env .ML_AGENT_DBUS_SERVICE_MODEL
  match pr.proxy with
  | none => ⟨- EIO, none, none, pr.err, pr.trace⟩
  | some proxy =>
    let c := env.call_sync proxy (.model_register name path activate (description.getD ""))
    ⟨status_return c, none, if c.result = true then some c.out_num else none, c.err,
      pr.trace ++ [.request proxy (.model_register name path activate (description.getD "")), .unref proxy]⟩

/-- Embedding of `ml_agent_dbus_interface_model_update_description`. -/
def ml_agent_dbus_interface_model_update_description (env : Env) (name : Option String)
    (version : Nat) (description : Option String) : RpcResult :=
  let pr := _get_proxy_new_for_bus_sync env .ML_AGENT_DBUS_SERVICE_MODEL
  match pr.proxy with
  | none => ⟨- EIO, none, none, pr.err, pr.trace⟩
  | some proxy =>
    let c := env.call_sync proxy (.model_update_description name version description)
    ⟨status_return c, none, none, c.err,
      pr.trace ++ [.request proxy (.model_update_description name version description), .unref proxy]⟩

/-- Embedding of `ml_agent_dbus_interface_model_activate`. -/
def ml_agent_dbus_interface_model_activate (env : Env) (name : Option String) (version : Nat) : RpcResult :=
  let pr := _get_proxy_new_for_bus_sync env .ML_AGENT_DBUS_SERVICE_MODEL
  match pr.proxy with
  | none => ⟨- EIO, none, none, pr.err, pr.trace⟩
  | some proxy =>
    let c := env.call_sync proxy (.model_activate name version)
    ⟨status_return c, none, none, c.err,
      pr.trace ++ [.request proxy (.model_activate name version), .unref proxy]⟩

/-- Embedding of `ml_agent_dbus_interface_model_get`. -/
def ml_agent_dbus_interface_model_get (env : Env) (name : Option String) (version : Nat) : RpcResult :=
  let pr := _get_proxy_new_for_bus_sync env .ML_AGENT_DBUS_SERVICE_MODEL
  match pr.proxy with
  | none => ⟨- EIO, none, none, pr.err, pr.trace⟩
  | some proxy =>
    let c := env.call_sync proxy (.model_get name version)
    ⟨status_return c, c.out_str, none, c.err,
      pr.trace ++ [.request proxy (.model_get name version), .unref proxy]⟩

/-- Embedding of `ml_agent_dbus_interface_model_get_activated`. -/
def ml_agent_dbus_interface_model_get_activated (env : Env) (name : Option String) : RpcResult :=
  let pr := _get_proxy_new_for_bus_sync env .ML_AGENT_DBUS_SERVICE_MODEL
  match pr.proxy with
  | none => ⟨- EIO, none, none, pr.err, pr.trace⟩
  | some proxy =>
    let c := env.call_sync proxy (.model_get_activated name)
    ⟨status_return c, c.out_str, none, c.err,
      pr.trace ++ [.request proxy (.model_get_activated name), .unref proxy]⟩

/-- Embedding of `ml_agent_dbus_interface_model_get_all`. -/
def ml_agent_dbus_interface_model_get_all (env : Env) (name : Option String) : RpcResult :=
  let pr := _get_proxy_new_for_bus_sync env .ML_AGENT_DBUS_SERVICE_MODEL
  match pr.proxy with
  | none => ⟨- EIO, none, none, pr.err, pr.trace⟩
  | some proxy =>
    let c := env.call_sync proxy (.model_get_all name)
    ⟨status_return c, c.out_str, none, c.err,
      pr.trace ++ [.request proxy (.model_get_all name), .unref proxy]⟩

/-- Embedding of `ml_agent_dbus_interface_model_delete`. -/
def ml_agent_dbus_interface_model_delete (env : Env) (name : Option String) (version : Nat) : RpcResult :=
  let pr := _get_proxy_new_for_bus_sync env .ML_AGENT_DBUS_SERVICE_MODEL
  match pr.proxy with
  | none => ⟨- EIO, none, none, pr.err, pr.trace⟩
  | some proxy =>
    let c := env.call_sync proxy (.model_delete name version)
    ⟨status_return c, none, none, c.err,
      pr.trace ++ [.request proxy (.model_delete name version), .unref proxy]⟩

/-! ## The management facade (`c/src/ml-api-service-agent-client.c`) -/

/-- Result of a facade operation without out-arguments. -/
structure ApiResult where
  ret : Int
  trace : List Event
  deriving DecidableEq, Repr

/-- The text `err ? err->message : "Unknown error"`. -/
def err_message (err : Option GError) : ReportArg :=
  match err with
  | some e => .str (some e.message)
  | none => .str (some "Unknown error")

/-- The report made by a failed `check_feature_state`. -/
def feature_report (feature_ret : Int) : Event :=
  .report "check_feature_state" [.num feature_ret]

/-- Embedding of `ml_service_set_pipeline (name, pipeline_desc)`. -/
def ml_service_set_pipeline (env : Env) (name pipeline_desc : Option String) : ApiResult :=
  if env.check_feature_state .ML_FEATURE_SERVICE ≠ ML_ERROR_NONE then
    ⟨env.check_feature_state .ML_FEATURE_SERVICE,
      [feature_report (env.check_feature_state .ML_FEATURE_SERVICE)]⟩
  else if name = none then
    ⟨ML_ERROR_INVALID_PARAMETER,
      [.report "The parameter, 'name' is NULL. It should be a valid string." []]⟩
  else if pipeline_desc = none then
    ⟨ML_ERROR_INVALID_PARAMETER,
      [.report "The parameter, 'pipeline_desc' is NULL. It should be a valid string." []]⟩
  else
    let r := ml_agent_dbus_interface_set_pipeline env name pipeline_desc
    if r.ret < 0 then
      ⟨r.ret, r.trace ++
        [.report "Failed to invoke the method set_pipeline (%s)." [err_message r.err]]⟩
    else ⟨r.ret, r.trace⟩

/-- Result of `ml_service_model_get` / `ml_service_model_get_activated`. -/
structure ModelGetResult where
  ret : Int
  /-- The store written to `*info`, `none` when `*info` is not written. -/
  info : Option ml_option
  trace : List Event
  deriving DecidableEq, Repr

/-- The decoding loop
`json_object_iter_init_ordered (&iter, object);
 while (json_object_iter_next_ordered (&iter, &member_name, &member_node)) {
   value = json_object_get_string_member (object, member_name);
   ml_option_set (info, member_name, g_strdup (value), g_free); }`. -/
def decode_members (object : Option JsonObject) (info : ml_option) : ml_option :=
  (json_object_iter_ordered object).foldl
    (fun o member_name =>
      (ml_option_set o member_name (json_object_get_string_member object member_name)).2)
    info

/-- The part of `ml_service_model_get` and `ml_service_model_get_activated` after
the D-Bus call, which the two functions share line for line: `r` is the result
of the call. -/
def model_get_decode (env : Env) (r : RpcResult) : ModelGetResult :=
  if r.ret < 0 then
    ⟨r.ret, none, r.trace ++
      [.report "Failed to invoke the method get_activated (%s)." [err_message r.err]]⟩
  else if r.ret ≠ ML_ERROR_NONE then ⟨r.ret, none, r.trace⟩
  else
    match r.out_str with
    | none => ⟨r.ret, none, r.trace⟩
    | some description =>
      if env.ml_option_create 0 ≠ ML_ERROR_NONE then
        ⟨env.ml_option_create 0, none, r.trace⟩
      else if env.json_parser_new = false then
        ⟨ML_ERROR_OUT_OF_MEMORY, none, r.trace ++
          [.option_create 0,
           .report "Failed to allocate memory for JsonParser. Out of memory?" [],
           .option_destroy 0]⟩
      else
        match env.json_parser_load_from_data description with
        | .error e =>
          ⟨ML_ERROR_INVALID_PARAMETER, none, r.trace ++
            [.option_create 0,
             .report "Failed to parse the json string. %s" [.str (some e.message)],
             .option_destroy 0]⟩
        | .ok none =>
          ⟨ML_ERROR_INVALID_PARAMETER, none, r.trace ++
            [.option_create 0,
             .report "Failed to get the root node of json string." [],
             .option_destroy 0]⟩
        | .ok (some root_node) =>
          ⟨ML_ERROR_NONE, some (decode_members (json_node_get_object root_node) []),
            r.trace ++ [.option_create 0]⟩

/-- Embedding of `ml_service_model_get (name, version, info)`. -/
def ml_service_model_get (env : Env) (name : Option String) (version : Nat) (info : Bool) :
    ModelGetResult :=
  if env.check_feature_state .ML_FEATURE_SERVICE ≠ ML_ERROR_NONE then
    ⟨env.check_feature_state .ML_FEATURE_SERVICE, none,
      [feature_report (env.check_feature_state .ML_FEATURE_SERVICE)]⟩
  else if name = none then
    ⟨ML_ERROR_INVALID_PARAMETER, none,
      [.report "The parameter, 'name' is NULL. It should be a valid string" []]⟩
  else if info = false then
    ⟨ML_ERROR_INVALID_PARAMETER, none,
      [.report "The parameter, 'info' is NULL. It should be a valid pointer to ml_info_h" []]⟩
  else model_get_decode env (ml_agent_dbus_interface_model_get env name version)

/-- Embedding of `ml_service_model_get_activated (name, info)`. -/
def ml_service_model_get_activated (env : Env) (name : Option String) (info : Bool) :
    ModelGetResult :=
  if env.check_feature_state .ML_FEATURE_SERVICE ≠ ML_ERROR_NONE then
    ⟨env.check_feature_state .ML_FEATURE_SERVICE, none,
      [feature_report (env.check_feature_state .ML_FEATURE_SERVICE)]⟩
  else if name = none then
    ⟨ML_ERROR_INVALID_PARAMETER, none,
      [.report "The parameter, 'name' is NULL. It should be a valid string" []]⟩
  else if info = false then
    ⟨ML_ERROR_INVALID_PARAMETER, none,
      [.report "The parameter, 'info' is NULL. It should be a valid pointer to ml_info_h" []]⟩
  else model_get_decode env (ml_agent_dbus_interface_model_get_activated env name)

/-- Result of `ml_service_model_get_all`. -/
structure ModelGetAllResult where
  ret : Int
  /-- The list written to `*info_list`, `none` when it is not written. -/
  info_list : Option (List ml_option)
  /-- The value written to `*num`, `none` when it is not written. -/
  num : Option Nat
  trace : List Event
  deriving DecidableEq, Repr

/-- Outcome of the element loop of `ml_service_model_get_all`. -/
structure ElementLoop where
  /-- The index `i` at which `ml_option_create` failed, if it did. -/
  failed : Option Nat
  /-- The stores `_info_list[0 .. i-1]` filled so far. -/
  list : List ml_option
  trace : List Event
  deriving DecidableEq, Repr

/-- The rounds `i, i+1, ..., i+k-1` of
`for (i = 0; i < n; i++) { if (ml_option_create (&_info_list[i]) != ML_ERROR_NONE)
   { report; n = i; ret = ML_ERROR_OUT_OF_MEMORY; goto error; }
   object = json_array_get_object_element (array, i); <decode the members> }`,
entered with the stores and the trace built before round `i`. -/
def element_loop (env : Env) (array : List JsonNode) :
    Nat → Nat → List ml_option → List Event → ElementLoop
  | 0, _, list, tr => ⟨none, list, tr⟩
  | k + 1, i, list, tr =>
    if env.ml_option_create i ≠ ML_ERROR_NONE then
      ⟨some i, list, tr ++
        [.report "Failed to allocate memory for ml_option_h. Out of memory?" []]⟩
    else
      element_loop env array k (i + 1)
        (list ++ [decode_members (json_array_get_object_element array i) []])
        (tr ++ [.option_create i])

/-- The cleanup `for (i = 0; i < n; i++) if (_info_list[i]) ml_option_destroy (...)`
over the `n` stores created. -/
def destroy_list (n : Nat) : List Event :=
  (List.range n).map Event.option_destroy

/-- Embedding of `ml_service_model_get_all (name, info_list, num)`. -/
def ml_service_model_get_all (env : Env) (name : Option String) (info_list num : Bool) :
    ModelGetAllResult :=
  if env.check_feature_state .ML_FEATURE_SERVICE ≠ ML_ERROR_NONE then
    ⟨env.check_feature_state .ML_FEATURE_SERVICE, none, none,
      [feature_report (env.check_feature_state .ML_FEATURE_SERVICE)]⟩
  else if name = none then
    ⟨ML_ERROR_INVALID_PARAMETER, none, none,
      [.report "The parameter, 'name' is NULL. It should be a valid string" []]⟩
  else if info_list = false then
    ⟨ML_ERROR_INVALID_PARAMETER, none, none,
      [.report "The parameter, 'info' is NULL. It should be a valid pointer to array of ml_info_h" []]⟩
  else if num = false then
    ⟨ML_ERROR_INVALID_PARAMETER, none, none,
      [.report "The parameter, 'num' is NULL. It should be a valid pointer to unsigned int" []]⟩
  else
    -- *num = 0;
    let r := ml_agent_dbus_interface_model_get_all env name
    if r.ret < 0 then
      ⟨r.ret, none, some 0, r.trace ++
        [.report "Failed to invoke the method get_activated (%s)." [err_message r.err]]⟩
    else if r.ret ≠ ML_ERROR_NONE then ⟨r.ret, none, some 0, r.trace⟩
    else
      match r.out_str with
      | none => ⟨r.ret, none, some 0, r.trace⟩
      | some description =>
        if env.json_parser_new = false then
          ⟨ML_ERROR_OUT_OF_MEMORY, none, some 0, r.trace ++
            [.report "Failed to allocate memory for JsonParser. Out of memory?" []]⟩
        else
          match env.json_parser_load_from_data description with
          | .error e =>
            ⟨ML_ERROR_INVALID_PARAMETER, none, some 0, r.trace ++
              [.report "Failed to parse the json string. %s" [.str (some e.message)]]⟩
          | .ok root =>
            match json_node_get_array root with
            | none =>
              ⟨ML_ERROR_INVALID_PARAMETER, none, some 0, r.trace ++
                [.report "Failed to get array from json string." []]⟩
            | some array =>
              if array.length = 0 then
                ⟨ML_ERROR_INVALID_PARAMETER, none, some 0, r.trace ++
                  [.report "Failed to get array from json string." []]⟩
              else if env.g_new0 array.length = false then
                ⟨ML_ERROR_OUT_OF_MEMORY, none, some 0, r.trace ++
                  [.report "Failed to allocate memory for list of ml_info_h. Out of memory?" []]⟩
              else
                let l := element_loop env array array.length 0 [] r.trace
                match l.failed with
                | some i =>
                  ⟨ML_ERROR_OUT_OF_MEMORY, none, some 0, l.trace ++ destroy_list i⟩
                | none => ⟨ML_ERROR_NONE, some l.list, some array.length, l.trace⟩

/-! ## The service router (`c/src/ml-api-remote-service.c`) -/

/-- A received edge data handle (`nns_edge_data_h`) as the nnstreamer-edge
accessors show it. -/
structure nns_edge_data_h where
  /-- Outcome of `nns_edge_data_get (data_h, index, &data, &data_len)`: the return
  code and the payload. -/
  nns_edge_data_get : Nat → Int × Option String
  /-- Outcome of `nns_edge_data_get_info (data_h, key, &value)`: the return code
  and the value. -/
  nns_edge_data_get_info : String → Int × Option String

/-- Embedding of `_mlrs_process_remote_service (data_h)`. -/
def _mlrs_process_remote_service (env : Env) (data_h : nns_edge_data_h) : ApiResult :=
  if (data_h.nns_edge_data_get 0).1 ≠ NNS_EDGE_ERROR_NONE then
    ⟨(data_h.nns_edge_data_get 0).1,
      [.report "Failed to get data while processing the ml-remote service." []]⟩
  else if (data_h.nns_edge_data_get_info "service-type").1 ≠ NNS_EDGE_ERROR_NONE then
    ⟨(data_h.nns_edge_data_get_info "service-type").1,
      [.report "Failed to get service type while processing the ml-remote service." []]⟩
  else
    let data := (data_h.nns_edge_data_get 0).2
    let service_str := (data_h.nns_edge_data_get_info "service-type").2
    let st := _mlrs_get_service_type service_str
    let ret := (data_h.nns_edge_data_get_info "service-key").1
    let service_key := (data_h.nns_edge_data_get_info "service-key").2
    if ret ≠ NNS_EDGE_ERROR_NONE then
      ⟨ret, st.2 ++
        [.report "Failed to get service key while processing the ml-remote service." []]⟩
    else
      match st.1 with
      | ML_REMOTE_SERVICE_TYPE_MODEL_URL => ⟨ret, st.2⟩
      | ML_REMOTE_SERVICE_TYPE_MODEL_RAW => ⟨ret, st.2⟩
      | ML_REMOTE_SERVICE_TYPE_PIPELINE_URL =>
        ⟨ret, st.2 ++ .call (.ml_service_set_pipeline service_key data) ::
          (ml_service_set_pipeline env service_key data).trace⟩
      | ML_REMOTE_SERVICE_TYPE_PIPELINE_RAW =>
        ⟨ret, st.2 ++ .call (.ml_service_set_pipeline service_key data) ::
          (ml_service_set_pipeline env service_key data).trace⟩
      | service_type =>
        ⟨ret, st.2 ++
          [.report "Unknown service type or not supported yet. Service num: %d"
            [.svc service_type]]⟩

/-- The facade calls of a trace. -/
def facadeCalls (tr : List Event) : List Event :=
  tr.filter (fun e => match e with
    | .call _ => true
    | _ => false)

/-- The report of the router for a type it has no branch for. -/
def unsupported_report (t : ml_remote_service_type_e) : Event :=
  .report "Unknown service type or not supported yet. Service num: %d" [.svc t]

/-- The report of `_mlrs_get_service_type` for a string it does not know. -/
def invalid_type_report (s : String) : Event :=
  .report "Invalid service type: %s, Please check service type." [.str (some s)]

/-- A received envelope with the given payload, service type and service key,
all readable. -/
def envelope (payload service_type service_key : String) : nns_edge_data_h where
  nns_edge_data_get := fun i =>
    if i = 0 then (NNS_EDGE_ERROR_NONE, some payload) else (ML_ERROR_INVALID_PARAMETER, none)
  nns_edge_data_get_info := fun key =>
    if key = "service-type" then (NNS_EDGE_ERROR_NONE, some service_type)
    else if key = "service-key" then (NNS_EDGE_ERROR_NONE, some service_key)
    else (ML_ERROR_INVALID_PARAMETER, none)

/-- An environment in which no bus is reachable: every probe fails. -/
def env_no_bus : Env where
  check_feature_state := fun _ => ML_ERROR_NONE
  proxy_new_for_bus_sync := fun _ bus =>
    match bus with
    | .G_BUS_TYPE_SYSTEM => .error ⟨"system bus unreachable"⟩
    | .G_BUS_TYPE_SESSION => .error ⟨"session bus unreachable"⟩
  call_sync := fun _ _ => ⟨false, 0, none, 0, none⟩
  json_parser_new := true
  json_parser_load_from_data := fun _ => .error ⟨"not json"⟩
  ml_option_create := fun _ => ML_ERROR_NONE
  g_new0 := fun _ => true

/-- An environment in which the bus is reachable (proxy 1) but every method call
fails in transport, writes nothing, and the status variable of the caller holds 0. -/
def env_transport_failure : Env where
  check_feature_state := fun _ => ML_ERROR_NONE
  proxy_new_for_bus_sync := fun _ _ => .ok 1
  call_sync := fun _ _ => ⟨false, 0, none, 0, some ⟨"transport failure"⟩⟩
  json_parser_new := true
  json_parser_load_from_data := fun _ => .error ⟨"not json"⟩
  ml_option_create := fun _ => ML_ERROR_NONE
  g_new0 := fun _ => true

/-- An environment in which the bus is reachable (proxy 1) and the daemon answers
every method call with the status `-EINVAL` (the call itself succeeds). -/
def env_daemon_rejects : Env where
  check_feature_state := fun _ => ML_ERROR_NONE
  proxy_new_for_bus_sync := fun _ _ => .ok 1
  call_sync := fun _ _ => ⟨true, - EINVAL, none, 0, none⟩
  json_parser_new := true
  json_parser_load_from_data := fun _ => .error ⟨"not json"⟩
  ml_option_create := fun _ => ML_ERROR_NONE
  g_new0 := fun _ => true

/-- An environment in which the system bus is unreachable and the session bus
yields proxy 2. -/
def env_session_only : Env where
  check_feature_state := fun _ => ML_ERROR_NONE
  proxy_new_for_bus_sync := fun _ bus =>
    match bus with
    | .G_BUS_TYPE_SYSTEM => .error ⟨"system bus unreachable"⟩
    | .G_BUS_TYPE_SESSION => .ok 2
  call_sync := fun _ _ => ⟨true, 0, some "description", 0, none⟩
  json_parser_new := true
  json_parser_load_from_data := fun _ => .error ⟨"not json"⟩
  ml_option_create := fun _ => ML_ERROR_NONE
  g_new0 := fun _ => true

/-- Every operation of the D-Bus interface, with the service it talks to and its
result on non-null names. -/
def all_operations (env : Env) (name desc : String) (path description : Option String)
    (id : Int) (version : Nat) (activate : Bool) :
    List (ml_agent_dbus_service_type_e × RpcResult) :=
  [(.ML_AGENT_DBUS_SERVICE_PIPELINE,
      ml_agent_dbus_interface_set_pipeline env (some name) (some desc)),
   (.ML_AGENT_DBUS_SERVICE_PIPELINE, ml_agent_dbus_interface_get_pipeline env (some name) true),
   (.ML_AGENT_DBUS_SERVICE_PIPELINE, ml_agent_dbus_interface_delete_pipeline env (some name)),
   (.ML_AGENT_DBUS_SERVICE_PIPELINE, ml_agent_dbus_interface_launch_pipeline env (some name)),
   (.ML_AGENT_DBUS_SERVICE_PIPELINE, ml_agent_dbus_interface_start_pipeline env id),
   (.ML_AGENT_DBUS_SERVICE_PIPELINE, ml_agent_dbus_interface_stop_pipeline env id),
   (.ML_AGENT_DBUS_SERVICE_PIPELINE, ml_agent_dbus_interface_destroy_pipeline env id),
   (.ML_AGENT_DBUS_SERVICE_PIPELINE, ml_agent_dbus_interface_get_pipeline_state env id),
   (.ML_AGENT_DBUS_SERVICE_MODEL,
      ml_agent_dbus_interface_model_register env (some name) path activate description),
   (.ML_AGENT_DBUS_SERVICE_MODEL,
      ml_agent_dbus_interface_model_update_description env (some name) version description),
   (.ML_AGENT_DBUS_SERVICE_MODEL, ml_agent_dbus_interface_model_activate env (some name) version),
   (.ML_AGENT_DBUS_SERVICE_MODEL, ml_agent_dbus_interface_model_get env (some name) version),
   (.ML_AGENT_DBUS_SERVICE_MODEL, ml_agent_dbus_interface_model_get_activated env (some name)),
   (.ML_AGENT_DBUS_SERVICE_MODEL, ml_agent_dbus_interface_model_get_all env (some name)),
   (.ML_AGENT_DBUS_SERVICE_MODEL, ml_agent_dbus_interface_model_delete env (some name) version)]

/-- The JSON object whose members are the given strings, in the given order. -/
def json_string_object (members : List (String × String)) : JsonNode :=
  .object (members.map (fun m => (m.1, .value (.string m.2))))

/-- An environment with a reachable system bus (proxy 1) in which the daemon
answers every call with status 0 and the given description, and in which the
parser reads that description as the given root node. -/
def env_answer (description : String) (root : JsonNode) : Env where
  check_feature_state := fun _ => ML_ERROR_NONE
  proxy_new_for_bus_sync := fun _ _ => .ok 1
  call_sync := fun _ _ => ⟨true, 0, some description, 0, none⟩
  json_parser_new := true
  json_parser_load_from_data := fun d =>
    if d = description then .ok (some root) else .error ⟨"unexpected text"⟩
  ml_option_create := fun _ => ML_ERROR_NONE
  g_new0 := fun _ => true

/-- The text of the JSON object with the members a = "1" and b = "2". -/
def text_ab : String := "\x7b\"a\":\"1\",\"b\":\"2\"\x7d"

/-- The text of a JSON array of three objects. -/
def text_three : String :=
  "[\x7b\"a\":\"1\",\"b\":\"2\"\x7d,\x7b\"c\":\"3\"\x7d,\x7b\"b\":\"5\",\"a\":\"4\"\x7d]"

/-- An environment with a reachable system bus (proxy 1) in which the daemon
answers get and getActivated with `text_ab` and getAll with `text_three`, and in
which the parser reads these two texts. -/
def env_registry : Env where
  check_feature_state := fun _ => ML_ERROR_NONE
  proxy_new_for_bus_sync := fun _ _ => .ok 1
  call_sync := fun _ r =>
    match r with
    | .model_get_all _ => ⟨true, 0, some text_three, 0, none⟩
    | _ => ⟨true, 0, some text_ab, 0, none⟩
  json_parser_new := true
  json_parser_load_from_data := fun d =>
    if d = text_ab then .ok (some (json_string_object [("a", "1"), ("b", "2")]))
    else if d = text_three then
      .ok (some (.array [json_string_object [("a", "1"), ("b", "2")],
        json_string_object [("c", "3")], json_string_object [("b", "5"), ("a", "4")]]))
    else .error ⟨"unexpected text"⟩
  ml_option_create := fun _ => ML_ERROR_NONE
  g_new0 := fun _ => true

/-! ## The option bag of a remote service (`c/src/ml-api-remote-service.c`) -/

/-- A value held by an option bag: a `void *`. The source reads it through a cast,
either as a C string (`g_strdup (value)`) or as an unsigned integer
(`*((guint *) value)`); the two fields are these two readings. -/
structure ml_option_value where
  /-- What `(gchar *) value` reads. -/
  as_string : String
  /-- What `*((guint *) value)` reads. -/
  as_guint : Nat
  deriving DecidableEq, Repr

/-- Modelled from the spec: an option bag given to the remote service (`ml_option_h`,
whose implementation is outside the given sources), an ordered string-keyed map. -/
abbrev ml_option_bag := List (String × ml_option_value)

/-- Modelled from the spec: `ml_option_get (option, key, &value)` on the ordered map:
the value stored under the key with `ML_ERROR_NONE`, and an invalid-parameter
error with no value for a key that is not set. -/
def ml_option_get (option : ml_option_bag) (key : String) : Int × Option ml_option_value :=
  match option.lookup key with
  | some v => (ML_ERROR_NONE, some v)
  | none => (ML_ERROR_INVALID_PARAMETER, none)

/-- The local `edge_info_s` of the remote service. -/
structure edge_info_s where
  host : Option String
  port : Nat
  topic : Option String
  dest_host : Option String
  dest_port : Nat
  conn_type : nns_edge_connect_type_e
  node_type : nns_edge_node_type_e
  deriving DecidableEq, Repr

open nns_edge_connect_type_e nns_edge_node_type_e

/-- Embedding of `_mlrs_get_node_type (const gchar * value)`: the node type and the
reports made. -/
def _mlrs_get_node_type (value : Option String) : nns_edge_node_type_e × List Event :=
  match value with
  | none => (NNS_EDGE_NODE_TYPE_UNKNOWN, [])
  | some v =>
    if g_ascii_strcasecmp v "remote_sender" = 0 then (NNS_EDGE_NODE_TYPE_PUB, [])
    else if g_ascii_strcasecmp v "remote_receiver" = 0 then (NNS_EDGE_NODE_TYPE_SUB, [])
    else
      (NNS_EDGE_NODE_TYPE_UNKNOWN,
        [.report "Invalid node type: %s, Please check ml_option." [.str (some v)]])

/-- Embedding of `_mlrs_get_conn_type (const gchar * value)`. The function makes no
report on any branch. -/
def _mlrs_get_conn_type (value : Option String) : nns_edge_connect_type_e :=
  match value with
  | none => NNS_EDGE_CONNECT_TYPE_UNKNOWN
  | some v =>
    if 0 = g_ascii_strcasecmp v "TCP" then NNS_EDGE_CONNECT_TYPE_TCP
    else if 0 = g_ascii_strcasecmp v "HYBRID" then NNS_EDGE_CONNECT_TYPE_HYBRID
    else if 0 = g_ascii_strcasecmp v "MQTT" then NNS_EDGE_CONNECT_TYPE_MQTT
    else if 0 = g_ascii_strcasecmp v "AITT" then NNS_EDGE_CONNECT_TYPE_AITT
    else NNS_EDGE_CONNECT_TYPE_UNKNOWN

/-- Embedding of `_mlrs_get_edge_info (option, edge_info)`: the updated `edge_info`
and the reports made. Each `if (ML_ERROR_NONE == ml_option_get (option, key, &value))`
is one step, in source order. -/
def _mlrs_get_edge_info (option : ml_option_bag) (edge_info : edge_info_s) :
    edge_info_s × List Event :=
  let e1 : edge_info_s :=
    match ml_option_get option "host" with
    | (0, some value) => { edge_info with host := some value.as_string }
    | _ => edge_info
  let e2 : edge_info_s :=
    match ml_option_get option "port" with
    | (0, some value) => { e1 with port := value.as_guint }
    | _ => e1
  let e3 : edge_info_s :=
    match ml_option_get option "dest-host" with
    | (0, some value) => { e2 with dest_host := some value.as_string }
    | _ => e2
  let e4 : edge_info_s :=
    match ml_option_get option "dest-port" with
    | (0, some value) => { e3 with dest_port := value.as_guint }
    | _ => e3
  let e5 : edge_info_s :=
    match ml_option_get option "connect-type" with
    | (0, some value) => { e4 with conn_type := _mlrs_get_conn_type (some value.as_string) }
    | _ => e4
  let e6 : edge_info_s :=
    match ml_option_get option "topic" with
    | (0, some value) => { e5 with topic := some value.as_string }
    | _ => e5
  match ml_option_get option "node-type" with
  | (0, some value) =>
    ({ e6 with node_type := (_mlrs_get_node_type (some value.as_string)).1 },
      (_mlrs_get_node_type (some value.as_string)).2)
  | _ => (e6, [])

/-- The answers of the edge transport library (nnstreamer-edge). -/
structure Transport where
  /-- Outcome of `nns_edge_create_handle (topic, conn_type, node_type, &edge_h)`: the
  return code and the handle written. -/
  nns_edge_create_handle : Option String → nns_edge_connect_type_e → nns_edge_node_type_e →
    Int × nns_edge_h
  /-- Return code of `nns_edge_set_event_callback (edge_h, cb, NULL)`. -/
  nns_edge_set_event_callback : nns_edge_h → Int
  /-- Return code of `nns_edge_start (edge_h)`. -/
  nns_edge_start : nns_edge_h → Int
  /-- Return code of `nns_edge_connect (edge_h, dest_host, dest_port)`. -/
  nns_edge_connect : nns_edge_h → Option String → Nat → Int
  /-- Return code of `nns_edge_data_create (&data_h)`. -/
  nns_edge_data_create : Int
  /-- Return code of `nns_edge_data_add (data_h, data, data_len, NULL)`. -/
  nns_edge_data_add : String → Nat → Int
  /-- Return code of `nns_edge_send (edge_h, data_h)`. -/
  nns_edge_send : nns_edge_h → Int
  /-- Return code of `nns_edge_set_info (edge_h, key, value)`. The sources call the
  function and never read this code. -/
  nns_edge_set_info : nns_edge_h → String → Option String → Int

/-- The local `char port[6]` of `_mlrs_set_edge_info` after `sprintf (port, "%u", n)`:
the decimal text of `n` when the text and its terminating byte fit into the six
bytes, that is when the text has fewer than six digits; `none` when `sprintf`
writes past the end of the array, which C leaves undefined. -/
def sprintf_port (n : Nat) : Option String :=
  if (toString n).length < 6 then some (toString n) else none

/-- Result of `_mlrs_set_edge_info`. -/
structure SetEdgeInfoResult where
  /-- The calls made, in order. -/
  trace : List Event
  /-- Whether a `sprintf` wrote past the end of `port`. The behaviour of the program
  is undefined from there on: the function is not said to return, and `trace`
  holds the calls made before that `sprintf`. -/
  undefined : Bool
  deriving DecidableEq, Repr

/-- Embedding of `_mlrs_set_edge_info (edge_info, edge_h)`. The return codes of
`nns_edge_set_info` are not read. Each of the two `sprintf (port, "%u", ...)` writes
into `char port[6]`; a port of six or more digits ends the defined behaviour at
that statement. -/
def _mlrs_set_edge_info (edge_info : edge_info_s) (edge_h : nns_edge_h) :
    SetEdgeInfoResult :=
  let t1 : List Event := [.edge (.nns_edge_set_info edge_h "HOST" edge_info.host)]
  match sprintf_port edge_info.port with
  | none => ⟨t1, true⟩
  | some port =>
    let t2 : List Event :=
      t1 ++ [.edge (.nns_edge_set_info edge_h "PORT" (some port))] ++
      (match edge_info.topic with
        | some topic => [.edge (.nns_edge_set_info edge_h "TOPIC" (some topic))]
        | none => []) ++
      [.edge (.nns_edge_set_info edge_h "DEST_HOST" edge_info.dest_host)]
    match sprintf_port edge_info.dest_port with
    | none => ⟨t2, true⟩
    | some dest_port =>
      ⟨t2 ++ [.edge (.nns_edge_set_info edge_h "DEST_PORT" (some dest_port))], false⟩

/-- Result of `_mlrs_create_edge_handle`. -/
structure EdgeHandleResult where
  ret : Int
  /-- The handle left in `*edge_h`. -/
  edge_h : Option nns_edge_h
  trace : List Event
  /-- Whether the run left defined behaviour inside `_mlrs_set_edge_info`. The
  function is then not said to return: `trace` ends at the overflowing `sprintf`,
  and `ret` and `edge_h` hold the values of the variables at that point. -/
  undefined : Bool
  deriving DecidableEq, Repr

/-- Embedding of `_mlrs_create_edge_handle (&edge_h, edge_info)`. -/
def _mlrs_create_edge_handle (edge : Transport) (edge_info : edge_info_s) : EdgeHandleResult :=
  let c := edge.nns_edge_create_handle edge_info.topic edge_info.conn_type edge_info.node_type
  let t0 : List Event :=
    [.edge (.nns_edge_create_handle edge_info.topic edge_info.conn_type edge_info.node_type)]
  if c.1 ≠ NNS_EDGE_ERROR_NONE then
    ⟨c.1, none, t0 ++ [.report "nns_edge_create_handle failed." []], false⟩
  else
    let edge_h := c.2
    let t1 := t0 ++ [.edge (.nns_edge_set_event_callback edge_h)]
    if edge.nns_edge_set_event_callback edge_h ≠ NNS_EDGE_ERROR_NONE then
      ⟨edge.nns_edge_set_event_callback edge_h, some edge_h, t1 ++
        [.report "nns_edge_set_event_callback failed." [],
         .edge (.nns_edge_release_handle edge_h)], false⟩
    else
      let s := _mlrs_set_edge_info edge_info edge_h
      if s.undefined = true then
        ⟨edge.nns_edge_set_event_callback edge_h, some edge_h, t1 ++ s.trace, true⟩
      else
        let t2 := t1 ++ s.trace ++ [.edge (.nns_edge_start edge_h)]
        if edge.nns_edge_start edge_h ≠ NNS_EDGE_ERROR_NONE then
          ⟨edge.nns_edge_start edge_h, some edge_h, t2 ++
            [.report "nns_edge_start failed." [], .edge (.nns_edge_release_handle edge_h)],
            false⟩
        else if edge_info.node_type = NNS_EDGE_NODE_TYPE_SUB then
          let t3 := t2 ++
            [.edge (.nns_edge_connect edge_h edge_info.dest_host edge_info.dest_port)]
          if edge.nns_edge_connect edge_h edge_info.dest_host edge_info.dest_port
              ≠ NNS_EDGE_ERROR_NONE then
            ⟨edge.nns_edge_connect edge_h edge_info.dest_host edge_info.dest_port, some edge_h,
              t3 ++ [.report "nns_edge_connect failed." [],
                .edge (.nns_edge_release_handle edge_h)], false⟩
          else ⟨NNS_EDGE_ERROR_NONE, some edge_h, t3, false⟩
        else ⟨NNS_EDGE_ERROR_NONE, some edge_h, t2, false⟩

/-! ## Service handles -/

/-- The variants of a service handle (`ml_service_type_e`). -/
inductive ml_service_type_e where
  | ML_SERVICE_TYPE_SERVER_PIPELINE
  | ML_SERVICE_TYPE_REMOTE
  deriving DecidableEq, Repr

/-- Private data of a remote service handle (`_ml_remote_service_s`). -/
structure _ml_remote_service_s where
  edge_h : nns_edge_h
  node_type : nns_edge_node_type_e
  deriving DecidableEq, Repr

/-- Private data of a pipeline server handle (`_ml_service_server_s`). -/
structure _ml_service_server_s where
  id : Int
  service_name : Option String
  deriving DecidableEq, Repr

/-- What `mls->priv` points to. -/
inductive ml_service_priv where
  | remote (r : _ml_remote_service_s)
  | server (s : _ml_service_server_s)
  deriving DecidableEq, Repr

/-- A service handle (`ml_service_s`): the variant tag and the private data. -/
structure ml_service_s where
  type : ml_service_type_e
  priv : ml_service_priv
  deriving DecidableEq, Repr

/-- What a cast of `mls->priv` to the struct of the other variant reads; the layout
of the two structs in memory is not part of the sources and is taken as given. -/
structure Casts where
  /-- What `((_ml_service_server_s *) priv)->id` reads when `priv` points to a
  `_ml_remote_service_s`. -/
  id_of_remote : _ml_remote_service_s → Int
  /-- What `((_ml_remote_service_s *) priv)->edge_h` reads when `priv` points to a
  `_ml_service_server_s`. -/
  edge_h_of_server : _ml_service_server_s → nns_edge_h

/-- The read `((_ml_service_server_s *) mls->priv)->id`. -/
def server_id (casts : Casts) (mls : ml_service_s) : Int :=
  match mls.priv with
  | .server s => s.id
  | .remote r => casts.id_of_remote r

/-- The read `((_ml_remote_service_s *) mls->priv)->edge_h`. -/
def remote_edge_h (casts : Casts) (mls : ml_service_s) : nns_edge_h :=
  match mls.priv with
  | .remote r => r.edge_h
  | .server s => casts.edge_h_of_server s

/-! ## Creating and using a remote service (`c/src/ml-api-remote-service.c`) -/

/-- The `edge_info` of `ml_remote_service_create` before the option bag is read:
`g_new0 (edge_info_s, 1)` (every field zero) followed by the assignments to
`topic`, `host`, `port`, `dest_host`, `dest_port` and `conn_type`. No statement
assigns `node_type`, which keeps the value 0 of `g_new0`. -/
def edge_info_defaults : edge_info_s where
  topic := none
  host := some "localhost"
  port := 0
  dest_host := some "localhost"
  dest_port := 0
  conn_type := NNS_EDGE_CONNECT_TYPE_UNKNOWN
  node_type := NNS_EDGE_NODE_TYPE_QUERY_CLIENT

/-- Result of `ml_remote_service_create`. -/
structure ServiceCreateResult where
  ret : Int
  /-- The handle written to `*handle`, `none` when it is not written. -/
  handle : Option ml_service_s
  trace : List Event
  /-- Whether the run left defined behaviour inside `_mlrs_set_edge_info` (a `sprintf`
  past the end of `char port[6]`). The function is then not said to return:
  `trace` ends at that `sprintf`, `ret` holds its initial value and `*handle` has
  not been written. -/
  undefined : Bool
  deriving DecidableEq, Repr

/-- Embedding of `ml_remote_service_create (option, handle)`. -/
def ml_remote_service_create (env : Env) (edge : Transport) (option : Option ml_option_bag)
    (handle : Bool) : ServiceCreateResult :=
  if env.check_feature_state .ML_FEATURE_SERVICE ≠ ML_ERROR_NONE then
    ⟨env.check_feature_state .ML_FEATURE_SERVICE, none,
      [feature_report (env.check_feature_state .ML_FEATURE_SERVICE)], false⟩
  else if env.check_feature_state .ML_FEATURE_INFERENCE ≠ ML_ERROR_NONE then
    ⟨env.check_feature_state .ML_FEATURE_INFERENCE, none,
      [feature_report (env.check_feature_state .ML_FEATURE_INFERENCE)], false⟩
  else
    match option with
    | none =>
      ⟨ML_ERROR_INVALID_PARAMETER, none,
        [.report "The parameter, 'option' is NULL. It should be a valid ml_option_h, which should be created by ml_option_create()." []],
        false⟩
    | some option =>
      if handle = false then
        ⟨ML_ERROR_INVALID_PARAMETER, none,
          [.report "The parameter, 'handle' (ml_service_h), is NULL. It should be a valid ml_service_h." []],
          false⟩
      else
        let g := _mlrs_get_edge_info option edge_info_defaults
        let edge_info := g.1
        let c := _mlrs_create_edge_handle edge edge_info
        if c.undefined = true then ⟨ML_ERROR_NONE, none, g.2 ++ c.trace, true⟩
        else if c.ret ≠ ML_ERROR_NONE then ⟨c.ret, none, g.2 ++ c.trace, false⟩
        else
          match c.edge_h with
          | none => ⟨c.ret, none, g.2 ++ c.trace, false⟩
          | some edge_h =>
            ⟨c.ret,
              some ⟨.ML_SERVICE_TYPE_REMOTE, .remote ⟨edge_h, edge_info.node_type⟩⟩,
              g.2 ++ c.trace, false⟩

/-- Embedding of `ml_remote_service_register (handle, option, data, data_len)`. -/
def ml_remote_service_register (env : Env) (edge : Transport) (casts : Casts)
    (handle : Option ml_service_s) (option : Option ml_option_bag) (data : Option String)
    (data_len : Nat) : ApiResult :=
  if env.check_feature_state .ML_FEATURE_SERVICE ≠ ML_ERROR_NONE then
    ⟨env.check_feature_state .ML_FEATURE_SERVICE,
      [feature_report (env.check_feature_state .ML_FEATURE_SERVICE)]⟩
  else if env.check_feature_state .ML_FEATURE_INFERENCE ≠ ML_ERROR_NONE then
    ⟨env.check_feature_state .ML_FEATURE_INFERENCE,
      [feature_report (env.check_feature_state .ML_FEATURE_INFERENCE)]⟩
  else
    match handle, option, data with
    | none, _, _ =>
      ⟨ML_ERROR_INVALID_PARAMETER,
        [.report "The parameter, 'handle' is NULL. It should be a valid ml_service_h." []]⟩
    | some _, none, _ =>
      ⟨ML_ERROR_INVALID_PARAMETER,
        [.report "The parameter, 'option' is NULL. It should be a valid ml_option_h, which should be created by ml_option_create()." []]⟩
    | some _, some _, none =>
      ⟨ML_ERROR_INVALID_PARAMETER,
        [.report "The parameter, 'data' is NULL. It should be a valid pointer." []]⟩
    | some mls, some option, some data =>
      if data_len ≤ 0 then
        ⟨ML_ERROR_INVALID_PARAMETER,
          [.report "The parameter, 'data_len' should be greater than 0." []]⟩
      else
        match ml_option_get option "service-type", ml_option_get option "service-key" with
        | (0, some service_str), (0, some service_key) =>
          if edge.nns_edge_data_create ≠ NNS_EDGE_ERROR_NONE then
            ⟨edge.nns_edge_data_create,
              [.edge .nns_edge_data_create, .report "Failed to create an edge data." []]⟩
          else
            let t1 : List Event :=
              [.edge .nns_edge_data_create,
               .edge (.nns_edge_data_set_info "service-type" service_str.as_string),
               .edge (.nns_edge_data_set_info "service-key" service_key.as_string),
               .edge (.nns_edge_data_add data data_len)]
            let t2 : List Event :=
              if edge.nns_edge_data_add data data_len ≠ NNS_EDGE_ERROR_NONE then
                t1 ++ [.report "Failed to add camera data to the edge data.\n" [],
                  .edge .nns_edge_data_destroy]
              else t1
            let t3 := t2 ++ [.edge (.nns_edge_send (remote_edge_h casts mls))]
            if edge.nns_edge_send (remote_edge_h casts mls) ≠ NNS_EDGE_ERROR_NONE then
              ⟨edge.nns_edge_send (remote_edge_h casts mls), t3 ++
                [.report "Failed to publish the data to register the remote service." [],
                 .edge .nns_edge_data_destroy]⟩
            else ⟨edge.nns_edge_send (remote_edge_h casts mls), t3⟩
        | (0, some _), r =>
          ⟨r.1, [.report
            "Failed to get ml-remote service key. It should be set by ml_option_set()." []]⟩
        | r, _ =>
          ⟨r.1, [.report
            "Failed to get ml-remote service type. It should be set by ml_option_set()." []]⟩

/-! ## Pipeline handles and model registration (`c/src/ml-api-service-agent-client.c`) -/

/-- Embedding of `ml_service_start_pipeline (h)`. -/
def ml_service_start_pipeline (env : Env) (casts : Casts) (h : Option ml_service_s) :
    ApiResult :=
  if env.check_feature_state .ML_FEATURE_SERVICE ≠ ML_ERROR_NONE then
    ⟨env.check_feature_state .ML_FEATURE_SERVICE,
      [feature_report (env.check_feature_state .ML_FEATURE_SERVICE)]⟩
  else
    match h with
    | none =>
      ⟨ML_ERROR_INVALID_PARAMETER,
        [.report "The parameter, 'h' is NULL. It should be a valid ml_service_h" []]⟩
    | some mls =>
      let r := ml_agent_dbus_interface_start_pipeline env (server_id casts mls)
      if r.ret < 0 then
        ⟨r.ret, r.trace ++
          [.report "Failed to invoke the method start_pipeline (%s)." [err_message r.err]]⟩
      else ⟨r.ret, r.trace⟩

/-- Embedding of `ml_service_stop_pipeline (h)`. -/
def ml_service_stop_pipeline (env : Env) (casts : Casts) (h : Option ml_service_s) :
    ApiResult :=
  if env.check_feature_state .ML_FEATURE_SERVICE ≠ ML_ERROR_NONE then
    ⟨env.check_feature_state .ML_FEATURE_SERVICE,
      [feature_report (env.check_feature_state .ML_FEATURE_SERVICE)]⟩
  else
    match h with
    | none =>
      ⟨ML_ERROR_INVALID_PARAMETER,
        [.report "The parameter, 'h' is NULL. It should be a valid ml_service_h" []]⟩
    | some mls =>
      let r := ml_agent_dbus_interface_stop_pipeline env (server_id casts mls)
      if r.ret < 0 then
        ⟨r.ret, r.trace ++
          [.report "Failed to invoke the method stop_pipeline (%s)." [err_message r.err]]⟩
      else ⟨r.ret, r.trace⟩

/-- The value of `ML_PIPELINE_STATE_UNKNOWN` (`ml_pipeline_state_e`, declared in the
public header outside the given sources). -/
def ML_PIPELINE_STATE_UNKNOWN : Int := 0
/-- The value of `ML_PIPELINE_STATE_NULL`. -/
def ML_PIPELINE_STATE_NULL : Int := 1
/-- The value of `ML_PIPELINE_STATE_READY`. -/
def ML_PIPELINE_STATE_READY : Int := 2
/-- The value of `ML_PIPELINE_STATE_PAUSED`. -/
def ML_PIPELINE_STATE_PAUSED : Int := 3
/-- The value of `ML_PIPELINE_STATE_PLAYING`. -/
def ML_PIPELINE_STATE_PLAYING : Int := 4

/-- The values of the members of `ml_pipeline_state_e`. -/
def ml_pipeline_state_members : List Int :=
  [ML_PIPELINE_STATE_UNKNOWN, ML_PIPELINE_STATE_NULL, ML_PIPELINE_STATE_READY,
   ML_PIPELINE_STATE_PAUSED, ML_PIPELINE_STATE_PLAYING]

/-- Result of `ml_service_get_pipeline_state`. -/
structure PipelineStateResult where
  ret : Int
  /-- The value written to `*state` (an `ml_pipeline_state_e`, a C `int`), `none` when
  it is not written. -/
  state : Option Int
  trace : List Event
  deriving DecidableEq, Repr

/-- Embedding of `ml_service_get_pipeline_state (h, state)`. The local `_state` starts
as `ML_PIPELINE_STATE_UNKNOWN`, is overwritten by the D-Bus call, and is stored
with the cast `*state = (ml_pipeline_state_e) _state`. -/
def ml_service_get_pipeline_state (env : Env) (casts : Casts) (h : Option ml_service_s)
    (state : Bool) : PipelineStateResult :=
  if env.check_feature_state .ML_FEATURE_SERVICE ≠ ML_ERROR_NONE then
    ⟨env.check_feature_state .ML_FEATURE_SERVICE, none,
      [feature_report (env.check_feature_state .ML_FEATURE_SERVICE)]⟩
  else
    match h with
    | none =>
      ⟨ML_ERROR_INVALID_PARAMETER, none,
        [.report "The parameter, 'h' is NULL. It should be a valid ml_service_h" []]⟩
    | some mls =>
      if state = false then
        ⟨ML_ERROR_INVALID_PARAMETER, none,
          [.report "The parameter, 'state' is NULL. It should be a valid ml_pipeline_state_e pointer" []]⟩
      else
        let r := ml_agent_dbus_interface_get_pipeline_state env (server_id casts mls)
        let _state := r.out_num.getD ML_PIPELINE_STATE_UNKNOWN
        if r.ret < 0 then
          ⟨r.ret, some _state, r.trace ++
            [.report "Failed to invoke the method get_state (%s)." [err_message r.err]]⟩
        else ⟨r.ret, some _state, r.trace⟩

/-- The tests of GLib `g_file_test` (`GFileTest`). -/
inductive GFileTest where
  | G_FILE_TEST_IS_REGULAR
  | G_FILE_TEST_IS_SYMLINK
  | G_FILE_TEST_IS_DIR
  | G_FILE_TEST_IS_EXECUTABLE
  | G_FILE_TEST_EXISTS
  deriving DecidableEq, Repr

/-- The answers of the file system. -/
structure FileSystem where
  /-- GLib `g_path_get_dirname (path)`. -/
  g_path_get_dirname : String → String
  /-- Return value of `g_stat (file, &statbuf)`: 0 on success. -/
  g_stat : String → Int
  /-- Whether one single test of `GFileTest` holds of a path. -/
  file_test : String → GFileTest → Bool

/-- GLib `g_file_test (path, tests)` for a bit field of tests: it returns `TRUE` when
any of the tests in the bit field is `TRUE` (GLib reference manual). The bit
field `A | B` is the list of its tests. -/
def g_file_test (fs : FileSystem) (path : String) (tests : List GFileTest) : Bool :=
  tests.any (fs.file_test path)

/-- GLib `g_path_is_absolute (path)` on a system with `/` as directory separator:
whether the first byte is the separator. -/
def g_path_is_absolute (path : String) : Bool :=
  match path.data with
  | c :: _ => c = '/'
  | [] => false

/-- Result of `ml_service_model_register`. -/
structure ModelRegisterResult where
  ret : Int
  /-- The value written to `*version`, `none` when it is not written. -/
  version : Option Int
  trace : List Event
  deriving DecidableEq, Repr

/-- Embedding of `ml_service_model_register (name, path, activate, description,
version)`. -/
def ml_service_model_register (env : Env) (fs : FileSystem) (name path : Option String)
    (activate : Bool) (description : Option String) (version : Bool) : ModelRegisterResult :=
  if env.check_feature_state .ML_FEATURE_SERVICE ≠ ML_ERROR_NONE then
    ⟨env.check_feature_state .ML_FEATURE_SERVICE, none,
      [feature_report (env.check_feature_state .ML_FEATURE_SERVICE)]⟩
  else
    match name, path with
    | none, _ =>
      ⟨ML_ERROR_INVALID_PARAMETER, none,
        [.report "The parameter, 'name' is NULL. It should be a valid string" []]⟩
    | some _, none =>
      ⟨ML_ERROR_INVALID_PARAMETER, none,
        [.report "The parameter, 'path' is NULL. It should be a valid string" []]⟩
    | some name, some path =>
      if version = false then
        ⟨ML_ERROR_INVALID_PARAMETER, none,
          [.report "The parameter, 'version' is NULL. It should be a valid unsigned int pointer" []]⟩
      else if fs.g_stat (fs.g_path_get_dirname path) ≠ 0 then
        ⟨ML_ERROR_PERMISSION_DENIED, none,
          [.report "Failed to get the information of the model file '%s'." [.str (some path)]]⟩
      else if !g_path_is_absolute path ||
          !g_file_test fs path [.G_FILE_TEST_EXISTS, .G_FILE_TEST_IS_REGULAR] ||
          g_file_test fs path [.G_FILE_TEST_IS_SYMLINK] then
        ⟨ML_ERROR_INVALID_PARAMETER, none,
          [.report "The model file '%s' is not a regular file." [.str (some path)]]⟩
      else
        let r := ml_agent_dbus_interface_model_register env (some name) (some path) activate
          (some (description.getD ""))
        if r.ret < 0 then
          ⟨r.ret, r.out_num, r.trace ++
            [.report "Failed to invoke the method register (%s)." [err_message r.err]]⟩
        else ⟨r.ret, r.out_num, r.trace⟩

/-! ## Sample collaborators and trace projections for the later theorems -/

/-- The stores created in a trace, in order. -/
def createdStores (tr : List Event) : List Nat :=
  tr.filterMap (fun e => match e with
    | .option_create k => some k
    | _ => none)

/-- The stores destroyed in a trace, in order. -/
def destroyedStores (tr : List Event) : List Nat :=
  tr.filterMap (fun e => match e with
    | .option_destroy k => some k
    | _ => none)

/-- The calls into the edge transport of a trace, in order. -/
def edgeCalls (tr : List Event) : List EdgeCall :=
  tr.filterMap (fun e => match e with
    | .edge c => some c
    | _ => none)

/-- The D-Bus requests of a trace, in order. -/
def requests (tr : List Event) : List Request :=
  tr.filterMap (fun e => match e with
    | .request _ r => some r
    | _ => none)

/-- An environment like `env_registry` in which the third `ml_option_create` of a
call (index 2) fails with `ML_ERROR_OUT_OF_MEMORY`. -/
def env_third_create_fails : Env where
  check_feature_state := fun _ => ML_ERROR_NONE
  proxy_new_for_bus_sync := fun _ _ => .ok 1
  call_sync := fun _ _ => ⟨true, 0, some text_three, 0, none⟩
  json_parser_new := true
  json_parser_load_from_data := fun d =>
    if d = text_three then
      .ok (some (.array [json_string_object [("a", "1"), ("b", "2")],
        json_string_object [("c", "3")], json_string_object [("b", "5"), ("a", "4")]]))
    else .error ⟨"unexpected text"⟩
  ml_option_create := fun k => if k = 2 then ML_ERROR_OUT_OF_MEMORY else ML_ERROR_NONE
  g_new0 := fun _ => true

/-- An environment with a reachable system bus (proxy 1) in which the daemon
answers every call with status 0 and the given number (id, state or version). -/
def env_number (n : Int) : Env where
  check_feature_state := fun _ => ML_ERROR_NONE
  proxy_new_for_bus_sync := fun _ _ => .ok 1
  call_sync := fun _ _ => ⟨true, 0, none, n, none⟩
  json_parser_new := true
  json_parser_load_from_data := fun _ => .error ⟨"not json"⟩
  ml_option_create := fun _ => ML_ERROR_NONE
  g_new0 := fun _ => true

/-- A transport in which every step succeeds; the handle created is number 1. -/
def edge_ok : Transport where
  nns_edge_create_handle := fun _ _ _ => (NNS_EDGE_ERROR_NONE, 1)
  nns_edge_set_event_callback := fun _ => NNS_EDGE_ERROR_NONE
  nns_edge_start := fun _ => NNS_EDGE_ERROR_NONE
  nns_edge_connect := fun _ _ _ => NNS_EDGE_ERROR_NONE
  nns_edge_data_create := NNS_EDGE_ERROR_NONE
  nns_edge_data_add := fun _ _ => NNS_EDGE_ERROR_NONE
  nns_edge_send := fun _ => NNS_EDGE_ERROR_NONE
  nns_edge_set_info := fun _ _ _ => NNS_EDGE_ERROR_NONE

/-- A transport that refuses to create a handle of unknown connection kind or
unknown node type (invalid parameter) and succeeds in every other step. -/
def edge_strict : Transport where
  nns_edge_create_handle := fun _ conn_type node_type =>
    if conn_type = NNS_EDGE_CONNECT_TYPE_UNKNOWN ∨ node_type = NNS_EDGE_NODE_TYPE_UNKNOWN then
      (ML_ERROR_INVALID_PARAMETER, 0)
    else (NNS_EDGE_ERROR_NONE, 1)
  nns_edge_set_event_callback := fun _ => NNS_EDGE_ERROR_NONE
  nns_edge_start := fun _ => NNS_EDGE_ERROR_NONE
  nns_edge_connect := fun _ _ _ => NNS_EDGE_ERROR_NONE
  nns_edge_data_create := NNS_EDGE_ERROR_NONE
  nns_edge_data_add := fun _ _ => NNS_EDGE_ERROR_NONE
  nns_edge_send := fun _ => NNS_EDGE_ERROR_NONE
  nns_edge_set_info := fun _ _ _ => NNS_EDGE_ERROR_NONE

/-- Casts that read the first member of the other struct: the edge handle as an id
and the id as an edge handle. -/
def casts_first_member : Casts where
  id_of_remote := fun r => (r.edge_h : Int)
  edge_h_of_server := fun s => s.id.toNat

/-- A string value of an option bag. -/
def string_value (s : String) : ml_option_value := ⟨s, 0⟩

/-- A file system in which "/tmp" is an existing directory (not a regular file, not a
symbolic link) inside the directory "/", and nothing else exists. -/
def fs_tmp_directory : FileSystem where
  g_path_get_dirname := fun path => if path = "/tmp" then "/" else "."
  g_stat := fun file => if file = "/" ∨ file = "/tmp" then 0 else -1
  file_test := fun path test =>
    path = "/tmp" &&
      (test = .G_FILE_TEST_EXISTS || test = .G_FILE_TEST_IS_DIR ||
        test = .G_FILE_TEST_IS_EXECUTABLE)

/-! ## The event dispatcher (`c/src/ml-api-remote-service.c`) -/

/-- Event kinds of the edge transport (`nns_edge_event_e`, declared in
nnstreamer-edge.h). -/
inductive nns_edge_event_e where
  | NNS_EDGE_EVENT_UNKNOWN
  | NNS_EDGE_EVENT_CAPABILITY
  | NNS_EDGE_EVENT_NEW_DATA_RECEIVED
  | NNS_EDGE_EVENT_CALLBACK_RELEASED
  | NNS_EDGE_EVENT_CONNECTION_CLOSED
  | NNS_EDGE_EVENT_CONNECTION_COMPLETED
  | NNS_EDGE_EVENT_CONNECTION_FAILURE
  | NNS_EDGE_EVENT_CUSTOM
  deriving DecidableEq, Repr

/-- A delivered event (`nns_edge_event_h`) as the nnstreamer-edge accessors show it. -/
structure nns_edge_event_h where
  /-- Outcome of `nns_edge_event_get_type (event_h, &event)`: the return code and the
  kind written. -/
  nns_edge_event_get_type : Int × nns_edge_event_e
  /-- Outcome of `nns_edge_event_parse_new_data (event_h, &data_h)`: the return code
  and the (non-null) data handle written on success. -/
  nns_edge_event_parse_new_data : Int × nns_edge_data_h

/-- Embedding of `_mlrs_edge_event_cb (event_h, user_data)`. After a successful parse
`data_h` is non-null, so the closing `if (data_h) nns_edge_data_destroy (data_h)`
runs exactly on the path that leaves the new-data case through `break`. -/
def _mlrs_edge_event_cb (env : Env) (event_h : nns_edge_event_h) : ApiResult :=
  if event_h.nns_edge_event_get_type.1 ≠ NNS_EDGE_ERROR_NONE then
    ⟨event_h.nns_edge_event_get_type.1, []⟩
  else
    match event_h.nns_edge_event_get_type.2 with
    | .NNS_EDGE_EVENT_NEW_DATA_RECEIVED =>
      if event_h.nns_edge_event_parse_new_data.1 ≠ NNS_EDGE_ERROR_NONE then
        ⟨event_h.nns_edge_event_parse_new_data.1, []⟩
      else
        let r := _mlrs_process_remote_service env event_h.nns_edge_event_parse_new_data.2
        if r.ret ≠ NNS_EDGE_ERROR_NONE then ⟨r.ret, r.trace⟩
        else ⟨r.ret, r.trace ++ [.edge .nns_edge_data_destroy]⟩
    | _ => ⟨event_h.nns_edge_event_get_type.1, []⟩

/-- A new-data event that parses to the given data handle. -/
def new_data_event (data_h : nns_edge_data_h) : nns_edge_event_h where
  nns_edge_event_get_type := (NNS_EDGE_ERROR_NONE, .NNS_EDGE_EVENT_NEW_DATA_RECEIVED)
  nns_edge_event_parse_new_data := (NNS_EDGE_ERROR_NONE, data_h)

/-- An envelope with a readable payload and service type whose service key cannot
be read (invalid parameter). -/
def envelope_without_key (payload service_type : String) : nns_edge_data_h where
  nns_edge_data_get := fun i =>
    if i = 0 then (NNS_EDGE_ERROR_NONE, some payload) else (ML_ERROR_INVALID_PARAMETER, none)
  nns_edge_data_get_info := fun key =>
    if key = "service-type" then (NNS_EDGE_ERROR_NONE, some service_type)
    else (ML_ERROR_INVALID_PARAMETER, none)

/-- A transport in which `nns_edge_data_add` fails with `ML_ERROR_OUT_OF_MEMORY` and
`nns_edge_send` answers with the given code; every other step succeeds. -/
def edge_add_fails (send : Int) : Transport where
  nns_edge_create_handle := fun _ _ _ => (NNS_EDGE_ERROR_NONE, 1)
  nns_edge_set_event_callback := fun _ => NNS_EDGE_ERROR_NONE
  nns_edge_start := fun _ => NNS_EDGE_ERROR_NONE
  nns_edge_connect := fun _ _ _ => NNS_EDGE_ERROR_NONE
  nns_edge_data_create := NNS_EDGE_ERROR_NONE
  nns_edge_data_add := fun _ _ => ML_ERROR_OUT_OF_MEMORY
  nns_edge_send := fun _ => send
  nns_edge_set_info := fun _ _ _ => NNS_EDGE_ERROR_NONE

/-- An environment with a reachable system bus (proxy 1) in which every method call
fails in transport: the call returns `FALSE` with an error and stores nothing
through its out-pointers, whatever number `n` the daemon would have answered;
the status variable of the caller holds `-EIO`. -/
def env_call_fails (n : Int) : Env where
  check_feature_state := fun _ => ML_ERROR_NONE
  proxy_new_for_bus_sync := fun _ _ => .ok 1
  call_sync := fun _ _ => ⟨false, - EIO, none, n, some ⟨"transport failure"⟩⟩
  json_parser_new := true
  json_parser_load_from_data := fun _ => .error ⟨"not json"⟩
  ml_option_create := fun _ => ML_ERROR_NONE
  g_new0 := fun _ => true

/-- An environment with a reachable system bus (proxy 1) in which the daemon
answers get with status 0 and `text_ab`, which the parser reads, and in which
every other call fails in transport (status variable `-EIO`, nothing written). -/
def env_get_only : Env where
  check_feature_state := fun _ => ML_ERROR_NONE
  proxy_new_for_bus_sync := fun _ _ => .ok 1
  call_sync := fun _ r =>
    match r with
    | .model_get _ _ => ⟨true, 0, some text_ab, 0, none⟩
    | _ => ⟨false, - EIO, none, 0, some ⟨"transport failure"⟩⟩
  json_parser_new := true
  json_parser_load_from_data := fun d =>
    if d = text_ab then .ok (some (json_string_object [("a", "1"), ("b", "2")]))
    else .error ⟨"unexpected text"⟩
  ml_option_create := fun _ => ML_ERROR_NONE
  g_new0 := fun _ => true

theorem toNat_ofNat_of_lt (n : Nat) (h : n < 55296) : (Char.ofNat n).toNat = n := by
  have hv : n.isValidChar := Or.inl h
  simp only [Char.ofNat, hv, dite_true]
  simp [Char.ofNatAux, Char.toNat, UInt32.toNat]

theorem toLower_toNat (c : Char) : (Char.toLower c).toNat = TOLOWER c.toNat := by
  unfold Char.toLower TOLOWER
  simp only [ge_iff_le]
  split
  · rename_i h
    rw [toNat_ofNat_of_lt _ (by omega)]
    omega
  · rfl

theorem char_eq_of_toNat_eq (a b : Char) (h : a.toNat = b.toNat) : a = b := by
  apply Char.ext
  apply UInt32.ext
  simpa [Char.toNat, UInt32.toNat] using h

theorem TOLOWER_eq_zero (n : Nat) : TOLOWER n = 0 ↔ n = 0 := by
  unfold TOLOWER
  split <;> omega

theorem loop_eq_zero_iff (s t : List Char) (hs : ∀ c ∈ s, c.toNat ≠ 0)
    (ht : ∀ c ∈ t, c.toNat ≠ 0) :
    g_ascii_strcasecmp_loop s t = 0 ↔ s.map Char.toLower = t.map Char.toLower := by
  induction s generalizing t with
  | nil =>
    cases t with
    | nil => simp [g_ascii_strcasecmp_loop, deref]
    | cons c t =>
      have := ht c (by simp)
      simp [g_ascii_strcasecmp_loop, deref]
      omega
  | cons a s ih =>
    cases t with
    | nil =>
      have := hs a (by simp)
      simp [g_ascii_strcasecmp_loop, deref]
      omega
    | cons b t =>
      have ha := hs a (by simp)
      have hb := ht b (by simp)
      have hs2 : ∀ c ∈ s, c.toNat ≠ 0 := fun c hc => hs c (by simp [hc])
      have ht2 : ∀ c ∈ t, c.toNat ≠ 0 := fun c hc => ht c (by simp [hc])
      rw [g_ascii_strcasecmp_loop]
      simp only [ha, hb, ne_eq, not_false_eq_true, and_self, if_true, List.map_cons,
        List.cons.injEq]
      by_cases hl : TOLOWER a.toNat = TOLOWER b.toNat
      · have hab : Char.toLower a = Char.toLower b :=
          char_eq_of_toNat_eq _ _ (by rw [toLower_toNat, toLower_toNat, hl])
        simp [hl, hab, ih t hs2 ht2]
      · have hab : Char.toLower a ≠ Char.toLower b := by
          intro h
          apply hl
          rw [← toLower_toNat, ← toLower_toNat, h]
        simp [hl, hab]
        omega

/-- On C strings `g_ascii_strcasecmp` returns 0 exactly for strings equal up to
ASCII letter case. -/
theorem strcasecmp_eq_zero_iff (s t : String) (hs : IsCString s) (ht : IsCString t) :
    g_ascii_strcasecmp s t = 0 ↔ AsciiCaseEq s t :=
  loop_eq_zero_iff s.data t.data hs ht

/-- A string equal to a C string up to letter case is a C string. -/
theorem isCString_of_caseEq (s t : String) (h : AsciiCaseEq s t) (ht : IsCString t) :
    IsCString s := by
  intro c hc h0
  have hmem : Char.toLower c ∈ t.data.map Char.toLower := by
    rw [← h]
    exact List.mem_map_of_mem _ hc
  obtain ⟨d, hd, hdc⟩ := List.mem_map.1 hmem
  have h1 : TOLOWER d.toNat = TOLOWER c.toNat := by
    rw [← toLower_toNat, ← toLower_toNat, hdc]
  rw [h0] at h1
  exact ht d hd ((TOLOWER_eq_zero _).1 (by simpa [TOLOWER] using h1))

/-- The if-chain of `_mlrs_get_service_type` in terms of case-insensitive equality. -/
theorem get_service_type_some (s : String) (hs : IsCString s) :
    _mlrs_get_service_type (some s) =
      if AsciiCaseEq s "model_raw" then (ML_REMOTE_SERVICE_TYPE_MODEL_RAW, [])
      else if AsciiCaseEq s "model_url" then (ML_REMOTE_SERVICE_TYPE_MODEL_URL, [])
      else if AsciiCaseEq s "pipeline_raw" then (ML_REMOTE_SERVICE_TYPE_PIPELINE_RAW, [])
      else if AsciiCaseEq s "pipeline_url" then (ML_REMOTE_SERVICE_TYPE_PIPELINE_URL, [])
      else (ML_REMOTE_SERVICE_TYPE_UNKNOWN, [invalid_type_report s]) := by
  simp only [_mlrs_get_service_type, invalid_type_report,
    strcasecmp_eq_zero_iff s "model_raw" hs (by decide),
    strcasecmp_eq_zero_iff s "model_url" hs (by decide),
    strcasecmp_eq_zero_iff s "pipeline_raw" hs (by decide),
    strcasecmp_eq_zero_iff s "pipeline_url" hs (by decide)]

/-- Two different lower-case names are never both matched. -/
theorem caseEq_exclusive (s a b : String) (ha : AsciiCaseEq s a) (hb : AsciiCaseEq s b) :
    a.data.map Char.toLower = b.data.map Char.toLower := by
  unfold AsciiCaseEq at ha hb
  rw [← ha, ← hb]

/-- The result of `_mlrs_get_service_type` on a string matching one literal. -/
theorem get_service_type_cases (s : String) (hs : IsCString s) :
    (AsciiCaseEq s "model_raw" ∧
      _mlrs_get_service_type (some s) = (ML_REMOTE_SERVICE_TYPE_MODEL_RAW, [])) ∨
    (AsciiCaseEq s "model_url" ∧
      _mlrs_get_service_type (some s) = (ML_REMOTE_SERVICE_TYPE_MODEL_URL, [])) ∨
    (AsciiCaseEq s "pipeline_raw" ∧
      _mlrs_get_service_type (some s) = (ML_REMOTE_SERVICE_TYPE_PIPELINE_RAW, [])) ∨
    (AsciiCaseEq s "pipeline_url" ∧
      _mlrs_get_service_type (some s) = (ML_REMOTE_SERVICE_TYPE_PIPELINE_URL, [])) ∨
    ((¬ AsciiCaseEq s "model_raw" ∧ ¬ AsciiCaseEq s "model_url" ∧
        ¬ AsciiCaseEq s "pipeline_raw" ∧ ¬ AsciiCaseEq s "pipeline_url") ∧
      _mlrs_get_service_type (some s) =
        (ML_REMOTE_SERVICE_TYPE_UNKNOWN, [invalid_type_report s])) := by
  rw [get_service_type_some s hs]
  by_cases h1 : AsciiCaseEq s "model_raw"
  · simp [h1]
  by_cases h2 : AsciiCaseEq s "model_url"
  · simp [h1, h2]
  by_cases h3 : AsciiCaseEq s "pipeline_raw"
  · simp [h1, h2, h3]
  by_cases h4 : AsciiCaseEq s "pipeline_url"
  · simp [h1, h2, h3, h4]
  · simp [h1, h2, h3, h4]

/-- The four names are pairwise different up to letter case. -/
theorem names_exclusive (s : String) :
    ¬ (AsciiCaseEq s "model_raw" ∧ AsciiCaseEq s "model_url") ∧
    ¬ (AsciiCaseEq s "model_raw" ∧ AsciiCaseEq s "pipeline_raw") ∧
    ¬ (AsciiCaseEq s "model_raw" ∧ AsciiCaseEq s "pipeline_url") ∧
    ¬ (AsciiCaseEq s "model_url" ∧ AsciiCaseEq s "pipeline_raw") ∧
    ¬ (AsciiCaseEq s "model_url" ∧ AsciiCaseEq s "pipeline_url") ∧
    ¬ (AsciiCaseEq s "pipeline_raw" ∧ AsciiCaseEq s "pipeline_url") := by
  refine ⟨?_, ?_, ?_, ?_, ?_, ?_⟩ <;> rintro ⟨ha, hb⟩ <;>
    exact absurd (caseEq_exclusive s _ _ ha hb) (by decide)

/-- C4. `_mlrs_get_service_type` is total, and on every C string (and on `NULL`) it
returns MODEL_RAW, MODEL_URL, PIPELINE_RAW, PIPELINE_URL exactly when the string
equals "model_raw", "model_url", "pipeline_raw", "pipeline_url" under ASCII
case-insensitive comparison, and UNKNOWN exactly for every other string and for
`NULL`. -/
theorem get_service_type_characterisation (service_str : Option String)
    (hs : ∀ s, service_str = some s → IsCString s) :
    ((_mlrs_get_service_type service_str).1 = ML_REMOTE_SERVICE_TYPE_MODEL_RAW ↔
      ∃ s, service_str = some s ∧ AsciiCaseEq s "model_raw") ∧
    ((_mlrs_get_service_type service_str).1 = ML_REMOTE_SERVICE_TYPE_MODEL_URL ↔
      ∃ s, service_str = some s ∧ AsciiCaseEq s "model_url") ∧
    ((_mlrs_get_service_type service_str).1 = ML_REMOTE_SERVICE_TYPE_PIPELINE_RAW ↔
      ∃ s, service_str = some s ∧ AsciiCaseEq s "pipeline_raw") ∧
    ((_mlrs_get_service_type service_str).1 = ML_REMOTE_SERVICE_TYPE_PIPELINE_URL ↔
      ∃ s, service_str = some s ∧ AsciiCaseEq s "pipeline_url") ∧
    ((_mlrs_get_service_type service_str).1 = ML_REMOTE_SERVICE_TYPE_UNKNOWN ↔
      ∀ s, service_str = some s →
        ¬ AsciiCaseEq s "model_raw" ∧ ¬ AsciiCaseEq s "model_url" ∧
        ¬ AsciiCaseEq s "pipeline_raw" ∧ ¬ AsciiCaseEq s "pipeline_url") ∧
    (_mlrs_get_service_type service_str).1 ≠ ML_REMOTE_SERVICE_TYPE_MAX := by
  cases service_str with
  | none => simp [_mlrs_get_service_type]
  | some s =>
    have hc := hs s rfl
    obtain ⟨e1, e2, e3, e4, e5, e6⟩ := names_exclusive s
    simp only [not_and] at e1 e2 e3 e4 e5 e6
    simp only [Option.some.injEq, exists_eq_left', forall_eq']
    rcases get_service_type_cases s hc with h | h | h | h | h
    · obtain ⟨h, hr⟩ := h
      simp [hr, h, e1 h, e2 h, e3 h]
    · obtain ⟨h, hr⟩ := h
      have n1 : ¬ AsciiCaseEq s "model_raw" := fun x => e1 x h
      simp [hr, h, n1, e4 h, e5 h]
    · obtain ⟨h, hr⟩ := h
      have n1 : ¬ AsciiCaseEq s "model_raw" := fun x => e2 x h
      have n2 : ¬ AsciiCaseEq s "model_url" := fun x => e4 x h
      simp [hr, h, n1, n2, e6 h]
    · obtain ⟨h, hr⟩ := h
      have n1 : ¬ AsciiCaseEq s "model_raw" := fun x => e3 x h
      have n2 : ¬ AsciiCaseEq s "model_url" := fun x => e5 x h
      have n3 : ¬ AsciiCaseEq s "pipeline_raw" := fun x => e6 x h
      simp [hr, h, n1, n2, n3]
    · obtain ⟨⟨n1, n2, n3, n4⟩, hr⟩ := h
      simp [hr, n1, n2, n3, n4]

/-- C4 at the input "Model_RAW": a C string, resolved to MODEL_RAW. -/
theorem get_service_type_characterisation_witness :
    (_mlrs_get_service_type (some "Model_RAW")).1 = ML_REMOTE_SERVICE_TYPE_MODEL_RAW :=
  (get_service_type_characterisation (some "Model_RAW")
    (by intro s h; cases h; decide)).1.2 ⟨"Model_RAW", rfl, by decide⟩

/-! ## Lemmas on traces -/

theorem probe_loop_trace (env : Env) (type : ml_agent_dbus_service_type_e)
    (l : List GBusType) (e0 : Option GError) :
    ∀ e ∈ (probe_loop env type l e0).trace, ∃ b, e = .probe type b := by
  induction l generalizing e0 with
  | nil => simp [probe_loop]
  | cons b rest ih =>
    intro e he
    unfold probe_loop at he
    cases hb : env.proxy_new_for_bus_sync type b with
    | ok p =>
      rw [hb] at he
      simp at he
      exact ⟨b, he⟩
    | error err =>
      rw [hb] at he
      simp at he
      rcases he with he | he
      · exact ⟨b, he⟩
      · exact ih _ e he

theorem get_proxy_trace (env : Env) (type : ml_agent_dbus_service_type_e) :
    ∀ e ∈ (_get_proxy_new_for_bus_sync env type).trace, ∃ b, e = .probe type b := by
  cases type <;> simp only [_get_proxy_new_for_bus_sync]
  · exact probe_loop_trace _ _ _ _
  · exact probe_loop_trace _ _ _ _
  · simp

/-- Every event of `ml_service_set_pipeline (name, desc)` is the feature report, the
failed-invocation report, a probe of the pipeline service, the set-pipeline
request for `(name, desc)`, or an unref. -/
theorem set_pipeline_trace (env : Env) (name desc : String) :
    ∀ e ∈ (ml_service_set_pipeline env (some name) (some desc)).trace,
      (∃ f a, e = .report f a ∧
        (f = "check_feature_state" ∨ f = "Failed to invoke the method set_pipeline (%s).")) ∨
      (∃ b, e = .probe .ML_AGENT_DBUS_SERVICE_PIPELINE b) ∨
      (∃ h, e = .request h (.set_pipeline name desc)) ∨ (∃ h, e = .unref h) := by
  intro e he
  have hp := get_proxy_trace env .ML_AGENT_DBUS_SERVICE_PIPELINE
  unfold ml_service_set_pipeline at he
  split at he
  · simp [feature_report] at he
    exact Or.inl ⟨_, _, he, Or.inl rfl⟩
  · simp only [reduceCtorEq, if_false, ml_agent_dbus_interface_set_pipeline] at he
    cases hpr : (_get_proxy_new_for_bus_sync env .ML_AGENT_DBUS_SERVICE_PIPELINE).proxy with
    | none =>
      simp only [hpr] at he
      split at he
      · simp at he
        rcases he with he | he
        · exact Or.inr (Or.inl (hp e he))
        · exact Or.inl ⟨_, _, he, Or.inr rfl⟩
      · exact Or.inr (Or.inl (hp e he))
    | some mlsp =>
      simp only [hpr] at he
      split at he
      · simp at he
        rcases he with he | he | he
        · exact Or.inr (Or.inl (hp e he))
        · exact Or.inr (Or.inr (Or.inl ⟨_, he⟩))
        · exact Or.inr (Or.inr (Or.inr ⟨_, he⟩))
      · simp [ EIO] at he
        rcases he with he | he | he | he
        · exact Or.inr (Or.inl (hp e he))
        · exact Or.inr (Or.inr (Or.inl ⟨_, he⟩))
        · exact Or.inr (Or.inr (Or.inr ⟨_, he⟩))
        · exact Or.inl ⟨_, _, he, Or.inr rfl⟩

theorem set_pipeline_no_facade_call (env : Env) (name desc : String) :
    facadeCalls (ml_service_set_pipeline env (some name) (some desc)).trace = [] := by
  unfold facadeCalls
  rw [List.filter_eq_nil_iff]
  intro e he
  rcases set_pipeline_trace env name desc e he with ⟨f, a, h, _⟩ | ⟨b, h⟩ | ⟨q, h⟩ | ⟨q, h⟩ <;>
    simp [h]

/-- What `_mlrs_get_service_type` returns on a string matching each name. -/
theorem service_type_of_name (s : String) (hs : IsCString s) :
    (AsciiCaseEq s "model_raw" →
      _mlrs_get_service_type (some s) = (ML_REMOTE_SERVICE_TYPE_MODEL_RAW, [])) ∧
    (AsciiCaseEq s "model_url" →
      _mlrs_get_service_type (some s) = (ML_REMOTE_SERVICE_TYPE_MODEL_URL, [])) ∧
    (AsciiCaseEq s "pipeline_raw" →
      _mlrs_get_service_type (some s) = (ML_REMOTE_SERVICE_TYPE_PIPELINE_RAW, [])) ∧
    (AsciiCaseEq s "pipeline_url" →
      _mlrs_get_service_type (some s) = (ML_REMOTE_SERVICE_TYPE_PIPELINE_URL, [])) ∧
    (¬ AsciiCaseEq s "model_raw" → ¬ AsciiCaseEq s "model_url" →
      ¬ AsciiCaseEq s "pipeline_raw" → ¬ AsciiCaseEq s "pipeline_url" →
      _mlrs_get_service_type (some s) =
        (ML_REMOTE_SERVICE_TYPE_UNKNOWN, [invalid_type_report s])) := by
  obtain ⟨e1, e2, e3, e4, e5, e6⟩ := names_exclusive s
  simp only [not_and] at e1 e2 e3 e4 e5 e6
  rw [get_service_type_some s hs]
  refine ⟨?_, ?_, ?_, ?_, ?_⟩
  · intro h
    simp [h]
  · intro h
    have n1 : ¬ AsciiCaseEq s "model_raw" := fun x => e1 x h
    simp [h, n1]
  · intro h
    have n1 : ¬ AsciiCaseEq s "model_raw" := fun x => e2 x h
    have n2 : ¬ AsciiCaseEq s "model_url" := fun x => e4 x h
    simp [h, n1, n2]
  · intro h
    have n1 : ¬ AsciiCaseEq s "model_raw" := fun x => e3 x h
    have n2 : ¬ AsciiCaseEq s "model_url" := fun x => e5 x h
    have n3 : ¬ AsciiCaseEq s "pipeline_raw" := fun x => e6 x h
    simp [h, n1, n2, n3]
  · intro n1 n2 n3 n4
    simp [n1, n2, n3, n4]

/-! ## The service router -/

/-- The router on an envelope whose three parts are readable, by resolved type. -/
theorem router_readable (env : Env) (data_h : nns_edge_data_h)
    (payload service_str service_key : Option String)
    (h0 : data_h.nns_edge_data_get 0 = (NNS_EDGE_ERROR_NONE, payload))
    (h1 : data_h.nns_edge_data_get_info "service-type" = (NNS_EDGE_ERROR_NONE, service_str))
    (h2 : data_h.nns_edge_data_get_info "service-key" = (NNS_EDGE_ERROR_NONE, service_key)) :
    _mlrs_process_remote_service env data_h =
      match (_mlrs_get_service_type service_str).1 with
      | ML_REMOTE_SERVICE_TYPE_MODEL_URL =>
        ⟨NNS_EDGE_ERROR_NONE, (_mlrs_get_service_type service_str).2⟩
      | ML_REMOTE_SERVICE_TYPE_MODEL_RAW =>
        ⟨NNS_EDGE_ERROR_NONE, (_mlrs_get_service_type service_str).2⟩
      | ML_REMOTE_SERVICE_TYPE_PIPELINE_URL =>
        ⟨NNS_EDGE_ERROR_NONE, (_mlrs_get_service_type service_str).2 ++
          .call (.ml_service_set_pipeline service_key payload) ::
            (ml_service_set_pipeline env service_key payload).trace⟩
      | ML_REMOTE_SERVICE_TYPE_PIPELINE_RAW =>
        ⟨NNS_EDGE_ERROR_NONE, (_mlrs_get_service_type service_str).2 ++
          .call (.ml_service_set_pipeline service_key payload) ::
            (ml_service_set_pipeline env service_key payload).trace⟩
      | service_type =>
        ⟨NNS_EDGE_ERROR_NONE, (_mlrs_get_service_type service_str).2 ++
          [unsupported_report service_type]⟩ := by
  simp only [_mlrs_process_remote_service, h0, h1, h2, ne_eq, not_true_eq_false, if_false,
    unsupported_report]

/-- C2. On an envelope whose payload, service type and service key are readable and
whose type is pipeline_raw (any letter case), the router returns success and its
trace is one `ml_service_set_pipeline (service_key, payload)` call followed by
the effects of that call: it is the only facade call, and every D-Bus request
in the trace is the set-pipeline request for `(service_key, payload)`. -/
theorem router_pipeline_raw (env : Env) (data_h : nns_edge_data_h)
    (payload service_str service_key : String)
    (h0 : data_h.nns_edge_data_get 0 = (NNS_EDGE_ERROR_NONE, some payload))
    (h1 : data_h.nns_edge_data_get_info "service-type" =
      (NNS_EDGE_ERROR_NONE, some service_str))
    (h2 : data_h.nns_edge_data_get_info "service-key" =
      (NNS_EDGE_ERROR_NONE, some service_key))
    (ht : AsciiCaseEq service_str "pipeline_raw") :
    (_mlrs_process_remote_service env data_h).trace =
      .call (.ml_service_set_pipeline (some service_key) (some payload)) ::
        (ml_service_set_pipeline env (some service_key) (some payload)).trace ∧
    facadeCalls (_mlrs_process_remote_service env data_h).trace =
      [.call (.ml_service_set_pipeline (some service_key) (some payload))] ∧
    (∀ h q, Event.request h q ∈ (_mlrs_process_remote_service env data_h).trace →
      q = .set_pipeline service_key payload) ∧
    (_mlrs_process_remote_service env data_h).ret = NNS_EDGE_ERROR_NONE := by
  have hc : IsCString service_str := isCString_of_caseEq _ _ ht (by decide)
  have hr : _mlrs_get_service_type (some service_str) =
      (ML_REMOTE_SERVICE_TYPE_PIPELINE_RAW, []) :=
    ((service_type_of_name service_str hc).2.2.1 ht)
  rw [router_readable env data_h _ _ _ h0 h1 h2, hr]
  refine ⟨by simp, ?_, ?_, rfl⟩
  · have := set_pipeline_no_facade_call env service_key payload
    simp only [facadeCalls] at this ⊢
    simp [List.filter_cons, this]
  · intro h q hq
    simp only [List.nil_append, List.mem_cons, reduceCtorEq, false_or] at hq
    rcases set_pipeline_trace env service_key payload _ hq with
      ⟨f, a, he, _⟩ | ⟨b, he⟩ | ⟨x, he⟩ | ⟨x, he⟩
    · cases he
    · cases he
    · cases he; rfl
    · cases he

/-- C2 on the envelope of the specification: service key "p1", payload
"videotestsrc ! fakesink", type pipeline_raw. -/
theorem router_pipeline_raw_witness :
    facadeCalls (_mlrs_process_remote_service env_no_bus
      (envelope "videotestsrc ! fakesink" "pipeline_raw" "p1")).trace =
      [.call (.ml_service_set_pipeline (some "p1") (some "videotestsrc ! fakesink"))] :=
  (router_pipeline_raw env_no_bus (envelope "videotestsrc ! fakesink" "pipeline_raw" "p1")
    "videotestsrc ! fakesink" "pipeline_raw" "p1" rfl (by decide) (by decide)
    (by decide)).2.1

/-- C1, refuted as stated. On the envelope tagged "pipeline_url" (key "p1", payload a
URL) the router calls `ml_service_set_pipeline ("p1", URL)`, which probes both buses,
and it reports no unsupported-service-type error; on the envelope tagged "model_raw"
it reports nothing at all and returns success. -/
theorem router_unimplemented_counterexample :
    _mlrs_process_remote_service env_no_bus
        (envelope "https://example.com/p.txt" "pipeline_url" "p1") =
      ⟨NNS_EDGE_ERROR_NONE,
        [.call (.ml_service_set_pipeline (some "p1") (some "https://example.com/p.txt")),
         .probe .ML_AGENT_DBUS_SERVICE_PIPELINE .G_BUS_TYPE_SYSTEM,
         .probe .ML_AGENT_DBUS_SERVICE_PIPELINE .G_BUS_TYPE_SESSION,
         .report "Failed to invoke the method set_pipeline (%s)."
           [.str (some "session bus unreachable")]]⟩ ∧
    _mlrs_process_remote_service env_no_bus (envelope "model bytes" "model_raw" "m1") =
      ⟨NNS_EDGE_ERROR_NONE, []⟩ := by
  constructor <;> decide

/-- C1 as amended. On an envelope whose payload, service type and service key are
readable: for the type model_raw or model_url (any letter case) the router
returns success with an empty trace (no facade call, no report); for the type
pipeline_url (any letter case) it takes the pipeline_raw branch, so its trace is
one `ml_service_set_pipeline (service_key, payload)` call followed by that call's
effects, and no unsupported-service-type error is reported. -/
theorem router_unimplemented_types (env : Env) (data_h : nns_edge_data_h)
    (payload service_str service_key : String)
    (h0 : data_h.nns_edge_data_get 0 = (NNS_EDGE_ERROR_NONE, some payload))
    (h1 : data_h.nns_edge_data_get_info "service-type" =
      (NNS_EDGE_ERROR_NONE, some service_str))
    (h2 : data_h.nns_edge_data_get_info "service-key" =
      (NNS_EDGE_ERROR_NONE, some service_key))
    (ht : AsciiCaseEq service_str "model_raw" ∨ AsciiCaseEq service_str "model_url" ∨
      AsciiCaseEq service_str "pipeline_url") :
    ((AsciiCaseEq service_str "model_raw" ∨ AsciiCaseEq service_str "model_url") →
      _mlrs_process_remote_service env data_h = ⟨NNS_EDGE_ERROR_NONE, []⟩) ∧
    (AsciiCaseEq service_str "pipeline_url" →
      _mlrs_process_remote_service env data_h =
        ⟨NNS_EDGE_ERROR_NONE,
          .call (.ml_service_set_pipeline (some service_key) (some payload)) ::
            (ml_service_set_pipeline env (some service_key) (some payload)).trace⟩ ∧
      facadeCalls (_mlrs_process_remote_service env data_h).trace =
        [.call (.ml_service_set_pipeline (some service_key) (some payload))]) ∧
    (∀ t, unsupported_report t ∉ (_mlrs_process_remote_service env data_h).trace) := by
  have hc : IsCString service_str := by
    rcases ht with h | h | h <;> exact isCString_of_caseEq _ _ h (by decide)
  obtain ⟨a1, a2, _, a4, _⟩ := service_type_of_name service_str hc
  have hnu : ∀ t, unsupported_report t ∉
      (ml_service_set_pipeline env (some service_key) (some payload)).trace := by
    intro t hmem
    rcases set_pipeline_trace env service_key payload _ hmem with
      ⟨f, a, he, hf⟩ | ⟨b, he⟩ | ⟨x, he⟩ | ⟨x, he⟩
    · simp only [unsupported_report, Event.report.injEq] at he
      rcases hf with hf | hf <;> rw [hf] at he <;> exact absurd he.1 (by decide)
    · simp [unsupported_report] at he
    · simp [unsupported_report] at he
    · simp [unsupported_report] at he
  rw [router_readable env data_h _ _ _ h0 h1 h2]
  refine ⟨?_, ?_, ?_⟩
  · rintro (h | h)
    · rw [a1 h]
    · rw [a2 h]
  · intro h
    rw [a4 h]
    refine ⟨by simp, ?_⟩
    have := set_pipeline_no_facade_call env service_key payload
    simp only [facadeCalls] at this ⊢
    simp [List.filter_cons, this]
  · intro t
    rcases ht with h | h | h
    · rw [a1 h]; simp
    · rw [a2 h]; simp
    · rw [a4 h]
      simp only [List.nil_append, List.mem_cons, not_or]
      exact ⟨by simp [unsupported_report], hnu t⟩

/-- C1 as amended, on the envelope tagged "Model_Url": success and an empty trace. -/
theorem router_unimplemented_types_witness :
    _mlrs_process_remote_service env_no_bus (envelope "model bytes" "Model_Url" "m1") =
      ⟨NNS_EDGE_ERROR_NONE, []⟩ :=
  (router_unimplemented_types env_no_bus (envelope "model bytes" "Model_Url" "m1")
    "model bytes" "Model_Url" "m1" rfl (by decide) (by decide)
    (Or.inr (Or.inl (by decide)))).1 (Or.inr (by decide))

/-- C3. On an envelope whose payload is readable and whose service-type tag is a
string that is none of model_raw, model_url, pipeline_raw, pipeline_url under ASCII
case-insensitive comparison, the router makes no facade call, no probe and no
request, and reports the invalid service type; when the service key is readable
as well, its trace is exactly that report followed by the unknown-or-unsupported
report for the type UNKNOWN. -/
theorem router_unknown_type (env : Env) (data_h : nns_edge_data_h) (service_str : String)
    (h0 : (data_h.nns_edge_data_get 0).1 = NNS_EDGE_ERROR_NONE)
    (h1 : data_h.nns_edge_data_get_info "service-type" =
      (NNS_EDGE_ERROR_NONE, some service_str))
    (hc : IsCString service_str)
    (n1 : ¬ AsciiCaseEq service_str "model_raw") (n2 : ¬ AsciiCaseEq service_str "model_url")
    (n3 : ¬ AsciiCaseEq service_str "pipeline_raw")
    (n4 : ¬ AsciiCaseEq service_str "pipeline_url") :
    rpcEvents (_mlrs_process_remote_service env data_h).trace = [] ∧
    invalid_type_report service_str ∈ (_mlrs_process_remote_service env data_h).trace ∧
    ((data_h.nns_edge_data_get_info "service-key").1 = NNS_EDGE_ERROR_NONE →
      (_mlrs_process_remote_service env data_h).trace =
        [invalid_type_report service_str,
         unsupported_report ML_REMOTE_SERVICE_TYPE_UNKNOWN]) := by
  have hr := (service_type_of_name service_str hc).2.2.2.2 n1 n2 n3 n4
  by_cases hk : (data_h.nns_edge_data_get_info "service-key").1 = NNS_EDGE_ERROR_NONE
  · have h2 : data_h.nns_edge_data_get_info "service-key" =
        (NNS_EDGE_ERROR_NONE, (data_h.nns_edge_data_get_info "service-key").2) := by
      rw [← hk]
    have h0b : data_h.nns_edge_data_get 0 =
        (NNS_EDGE_ERROR_NONE, (data_h.nns_edge_data_get 0).2) := by
      rw [← h0]
    rw [router_readable env data_h _ _ _ h0b h1 h2, hr]
    simp [rpcEvents, Event.isRpc, invalid_type_report, unsupported_report]
  · simp only [_mlrs_process_remote_service, h0, h1, hr, hk, ne_eq, not_true_eq_false,
      not_false_eq_true, if_true, if_false]
    simp [rpcEvents, Event.isRpc, invalid_type_report, hk]

/-- C3 on the envelope tagged "bogus" of the specification. -/
theorem router_unknown_type_witness :
    rpcEvents (_mlrs_process_remote_service env_no_bus
      (envelope "payload" "bogus" "k")).trace = [] ∧
    (_mlrs_process_remote_service env_no_bus (envelope "payload" "bogus" "k")).trace =
      [invalid_type_report "bogus", unsupported_report ML_REMOTE_SERVICE_TYPE_UNKNOWN] :=
  have h := router_unknown_type env_no_bus (envelope "payload" "bogus" "k") "bogus" rfl
    (by decide) (by decide) (by decide) (by decide) (by decide) (by decide)
  ⟨h.1, h.2.2 (by decide)⟩

/-! ## The D-Bus interface -/

/-- The status check returns 0 exactly when the status variable holds 0, whatever
the transport flag is. -/
theorem status_return_eq_zero_iff (c : CallOutcome) : status_return c = 0 ↔ c.status = 0 := by
  unfold status_return
  split
  · rename_i h
    simp [h.1]
  · exact Iff.rfl

/-- C5, the code at the failing input. With a reachable bus, a method call that fails
in transport and a status variable holding 0, each of the fourteen operations that
read a daemon status returns 0 (success). -/
theorem status_calls_succeed_on_transport_failure :
    (ml_agent_dbus_interface_get_pipeline env_transport_failure (some "p1") true).ret = 0 ∧
    (ml_agent_dbus_interface_delete_pipeline env_transport_failure (some "p1")).ret = 0 ∧
    (ml_agent_dbus_interface_launch_pipeline env_transport_failure (some "p1")).ret = 0 ∧
    (ml_agent_dbus_interface_start_pipeline env_transport_failure 7).ret = 0 ∧
    (ml_agent_dbus_interface_stop_pipeline env_transport_failure 7).ret = 0 ∧
    (ml_agent_dbus_interface_destroy_pipeline env_transport_failure 7).ret = 0 ∧
    (ml_agent_dbus_interface_get_pipeline_state env_transport_failure 7).ret = 0 ∧
    (ml_agent_dbus_interface_model_register env_transport_failure (some "m1")
      (some "/tmp/m1.tflite") true none).ret = 0 ∧
    (ml_agent_dbus_interface_model_update_description env_transport_failure (some "m1") 1
      (some "d")).ret = 0 ∧
    (ml_agent_dbus_interface_model_activate env_transport_failure (some "m1") 1).ret = 0 ∧
    (ml_agent_dbus_interface_model_get env_transport_failure (some "m1") 1).ret = 0 ∧
    (ml_agent_dbus_interface_model_get_activated env_transport_failure (some "m1")).ret = 0 ∧
    (ml_agent_dbus_interface_model_get_all env_transport_failure (some "m1")).ret = 0 ∧
    (ml_agent_dbus_interface_model_delete env_transport_failure (some "m1") 1).ret = 0 ∧
    (env_transport_failure.call_sync 1 (.get_pipeline "p1")).result = false := by
  decide

/-- C6, the code at the failing input. With a reachable bus and a daemon that answers
the set-pipeline call with the status `-EINVAL`, `ml_agent_dbus_interface_set_pipeline`
returns 0 and `ml_service_set_pipeline` returns `ML_ERROR_NONE` without a report. -/
theorem set_pipeline_ignores_daemon_status :
    (env_daemon_rejects.call_sync 1 (.set_pipeline "p1" "videotestsrc ! fakesink")).status
      = - EINVAL ∧
    (ml_agent_dbus_interface_set_pipeline env_daemon_rejects (some "p1")
      (some "videotestsrc ! fakesink")).ret = 0 ∧
    ml_service_set_pipeline env_daemon_rejects (some "p1") (some "videotestsrc ! fakesink") =
      ⟨ML_ERROR_NONE,
        [.probe .ML_AGENT_DBUS_SERVICE_PIPELINE .G_BUS_TYPE_SYSTEM,
         .request 1 (.set_pipeline "p1" "videotestsrc ! fakesink"), .unref 1]⟩ := by
  decide

/-- An operation whose discovery finds no proxy returns `-EIO` with the discovery
error and the discovery trace. -/
theorem operations_without_proxy (env : Env) (name desc : String)
    (path description : Option String) (id : Int) (version : Nat) (activate : Bool) :
    ∀ o ∈ all_operations env name desc path description id version activate,
      (_get_proxy_new_for_bus_sync env o.1).proxy = none →
      o.2 = ⟨- EIO, none, none, (_get_proxy_new_for_bus_sync env o.1).err,
        (_get_proxy_new_for_bus_sync env o.1).trace⟩ := by
  intro o ho hp
  simp only [all_operations, List.mem_cons, List.mem_singleton, List.not_mem_nil,
    or_false] at ho
  rcases ho with h | h | h | h | h | h | h | h | h | h | h | h | h | h | h <;>
    subst h <;>
    simp only [ml_agent_dbus_interface_set_pipeline, ml_agent_dbus_interface_get_pipeline,
      ml_agent_dbus_interface_delete_pipeline, ml_agent_dbus_interface_launch_pipeline,
      ml_agent_dbus_interface_start_pipeline, ml_agent_dbus_interface_stop_pipeline,
      ml_agent_dbus_interface_destroy_pipeline, ml_agent_dbus_interface_get_pipeline_state,
      ml_agent_dbus_interface_model_register, ml_agent_dbus_interface_model_update_description,
      ml_agent_dbus_interface_model_activate, ml_agent_dbus_interface_model_get,
      ml_agent_dbus_interface_model_get_activated, ml_agent_dbus_interface_model_get_all,
      ml_agent_dbus_interface_model_delete] at hp ⊢ <;>
    simp only [hp]

/-- C7. Endpoint discovery for the pipeline or the model service probes the system
scope first and the session scope only after the system probe failed; it returns
the proxy of the first scope whose probe succeeds and then writes no error (the
error of a failed system probe is dropped); it returns no proxy exactly when
both probes fail, and then the error written is the one of the session probe;
and every operation of the D-Bus interface whose discovery returns no proxy
returns `-EIO` with that error, its trace being the two probes and no request. -/
theorem endpoint_discovery (env : Env) (type : ml_agent_dbus_service_type_e)
    (htype : type ≠ .ML_AGENT_DBUS_SERVICE_END) :
    (match env.proxy_new_for_bus_sync type .G_BUS_TYPE_SYSTEM,
        env.proxy_new_for_bus_sync type .G_BUS_TYPE_SESSION with
      | .ok p, _ =>
        _get_proxy_new_for_bus_sync env type = ⟨some p, none, [.probe type .G_BUS_TYPE_SYSTEM]⟩
      | .error _, .ok p =>
        _get_proxy_new_for_bus_sync env type =
          ⟨some p, none, [.probe type .G_BUS_TYPE_SYSTEM, .probe type .G_BUS_TYPE_SESSION]⟩
      | .error _, .error e =>
        _get_proxy_new_for_bus_sync env type =
          ⟨none, some e, [.probe type .G_BUS_TYPE_SYSTEM, .probe type .G_BUS_TYPE_SESSION]⟩) ∧
    ((_get_proxy_new_for_bus_sync env type).proxy ≠ none →
      (_get_proxy_new_for_bus_sync env type).err = none) ∧
    ((_get_proxy_new_for_bus_sync env type).proxy = none ↔
      ∀ bus, ∃ e, env.proxy_new_for_bus_sync type bus = .error e) ∧
    (∀ (name desc : String) (path description : Option String) (id : Int) (version : Nat)
        (activate : Bool),
      ∀ o ∈ all_operations env name desc path description id version activate,
        o.1 = type → (_get_proxy_new_for_bus_sync env type).proxy = none →
        o.2.ret = - EIO ∧ o.2.err = (_get_proxy_new_for_bus_sync env type).err ∧
        o.2.trace = [.probe type .G_BUS_TYPE_SYSTEM, .probe type .G_BUS_TYPE_SESSION] ∧
        ∀ p q, Event.request p q ∉ o.2.trace) := by
  have hshape : _get_proxy_new_for_bus_sync env type = probe_loop env type bus_types none := by
    cases type with
    | ML_AGENT_DBUS_SERVICE_PIPELINE => rfl
    | ML_AGENT_DBUS_SERVICE_MODEL => rfl
    | ML_AGENT_DBUS_SERVICE_END => exact absurd rfl htype
  have hall : (∀ bus, ∃ e, env.proxy_new_for_bus_sync type bus = .error e) ↔
      (∃ e, env.proxy_new_for_bus_sync type .G_BUS_TYPE_SYSTEM = .error e) ∧
      (∃ e, env.proxy_new_for_bus_sync type .G_BUS_TYPE_SESSION = .error e) := by
    constructor
    · intro h
      exact ⟨h _, h _⟩
    · rintro ⟨h1, h2⟩ bus
      cases bus
      · exact h1
      · exact h2
  rw [hall]
  have hops : ∀ (name desc : String) (path description : Option String) (id : Int)
      (version : Nat) (activate : Bool),
      ∀ o ∈ all_operations env name desc path description id version activate,
        o.1 = type → (_get_proxy_new_for_bus_sync env type).proxy = none →
        o.2 = ⟨- EIO, none, none, (_get_proxy_new_for_bus_sync env type).err,
          (_get_proxy_new_for_bus_sync env type).trace⟩ := by
    intro name desc path description id version activate o ho ht hp
    subst ht
    exact operations_without_proxy env name desc path description id version activate o ho hp
  rw [hshape] at hops ⊢
  simp only [bus_types, probe_loop] at hops ⊢
  cases h1 : env.proxy_new_for_bus_sync type .G_BUS_TYPE_SYSTEM with
  | ok p =>
    simp only [h1] at hops ⊢
    simp
  | error e1 =>
    cases h2 : env.proxy_new_for_bus_sync type .G_BUS_TYPE_SESSION with
    | ok p =>
      simp only [h1, h2] at hops ⊢
      simp
    | error e2 =>
      simp only [h1, h2] at hops ⊢
      refine ⟨trivial, by simp, by simp, ?_⟩
      intro name desc path description id version activate o ho ht _
      rw [hops name desc path description id version activate o ho ht trivial]
      simp

/-- C7 for the pipeline service when only the session bus is reachable: the session
proxy is returned after both probes and no error is written. -/
theorem endpoint_discovery_witness :
    _get_proxy_new_for_bus_sync env_session_only .ML_AGENT_DBUS_SERVICE_PIPELINE =
      ⟨some 2, none,
        [.probe .ML_AGENT_DBUS_SERVICE_PIPELINE .G_BUS_TYPE_SYSTEM,
         .probe .ML_AGENT_DBUS_SERVICE_PIPELINE .G_BUS_TYPE_SESSION]⟩ :=
  (endpoint_discovery env_session_only .ML_AGENT_DBUS_SERVICE_PIPELINE (by decide)).1

/-! ## JSON decoding -/

theorem lookup_string_member (f : String → JsonNode) (l : List (String × String))
    (hnd : (l.map Prod.fst).Nodup) (k v : String) (hm : (k, v) ∈ l) :
    List.lookup k (l.map (fun m => (m.1, f m.2))) = some (f v) := by
  induction l with
  | nil => cases hm
  | cons a l ih =>
    obtain ⟨k1, v1⟩ := a
    simp only [List.map_cons, List.nodup_cons] at hnd
    simp only [List.map_cons, List.lookup_cons]
    rcases List.mem_cons.1 hm with h | h
    · cases h
      simp
    · have hne : k ≠ k1 := by
        rintro rfl
        exact hnd.1 (List.mem_map_of_mem Prod.fst h)
      have : (k == k1) = false := by simpa using hne
      rw [this]
      exact ih hnd.2 h

theorem ml_option_set_new (o : ml_option) (k v : String) (hk : k ∉ o.map Prod.fst) :
    (ml_option_set o k (some v)).2 = o ++ [(k, v)] := by
  simp only [ml_option_set, hk, if_false]

/-- Decoding the members `rest` of an object of string members with distinct
names appends them, in order, to a store that holds none of their names. -/
theorem decode_fold (full : List (String × String)) (hnd : (full.map Prod.fst).Nodup) :
    ∀ (rest : List (String × String)) (acc : ml_option),
      (∀ m ∈ rest, m ∈ full) → (rest.map Prod.fst).Nodup →
      (∀ m ∈ rest, m.1 ∉ acc.map Prod.fst) →
      (rest.map Prod.fst).foldl
        (fun o member_name =>
          (ml_option_set o member_name
            (json_object_get_string_member
              (some (full.map (fun m => (m.1, JsonNode.value (.string m.2)))))
              member_name)).2) acc = acc ++ rest := by
  intro rest
  induction rest with
  | nil => intro acc _ _ _; simp
  | cons a rest ih =>
    intro acc hsub hnd2 hdis
    obtain ⟨k, v⟩ := a
    simp only [List.map_cons, List.nodup_cons] at hnd2
    have hl := lookup_string_member (fun x => JsonNode.value (.string x)) full hnd k v
      (hsub _ (List.mem_cons_self _ _))
    have hstep : json_object_get_string_member
        (some (full.map (fun m => (m.1, JsonNode.value (.string m.2))))) k = some v := by
      simp only [json_object_get_string_member]
      rw [hl]
    simp only [List.map_cons, List.foldl_cons, hstep]
    rw [ml_option_set_new acc k v (hdis (k, v) (List.mem_cons_self _ _))]
    rw [ih (acc ++ [(k, v)]) (fun m hm => hsub m (List.mem_cons_of_mem _ hm)) hnd2.2]
    · simp
    · intro m hm
      simp only [List.map_append, List.map_cons, List.map_nil, List.mem_append,
        List.mem_singleton, not_or]
      refine ⟨hdis m (List.mem_cons_of_mem _ hm), ?_⟩
      rintro h
      exact hnd2.1 (h ▸ List.mem_map_of_mem Prod.fst hm)

/-- Decoding an object of string members with distinct names into an empty store
gives the members themselves, in order. -/
theorem decode_string_object (members : List (String × String))
    (hnd : (members.map Prod.fst).Nodup) :
    decode_members
      (some (members.map (fun m => (m.1, JsonNode.value (.string m.2))))) [] = members := by
  have h := decode_fold members hnd members [] (fun _ h => h) hnd (by simp)
  simpa [decode_members, json_object_iter_ordered, Function.comp_def] using h

/-- When the `ml_option_create` of every round succeeds, the element loop over the
remaining objects `rest` of an array of string-member objects appends their
members. -/
theorem element_loop_records (env : Env) :
    ∀ (rest pre : List (List (String × String))) (list : List ml_option) (tr : List Event),
      (∀ k, k < pre.length + rest.length → env.ml_option_create k = ML_ERROR_NONE) →
      (∀ r ∈ rest, (r.map Prod.fst).Nodup) →
      (element_loop env ((pre ++ rest).map json_string_object) rest.length pre.length
          list tr).failed = none ∧
      (element_loop env ((pre ++ rest).map json_string_object) rest.length pre.length
          list tr).list = list ++ rest := by
  intro rest
  induction rest with
  | nil => intro pre list tr _ _; simp [element_loop]
  | cons r rest ih =>
    intro pre list tr hcreate hnd
    have hget : json_array_get_object_element ((pre ++ r :: rest).map json_string_object)
        pre.length = some (r.map (fun m => (m.1, JsonNode.value (.string m.2)))) := by
      have h1 : ((pre ++ r :: rest).map json_string_object).get? pre.length =
          some (json_string_object r) := by
        rw [List.get?_eq_getElem?, List.map_append,
          List.getElem?_append_right (by simp)]
        simp
      simp only [json_array_get_object_element, h1, json_string_object]
    have hc0 : env.ml_option_create pre.length = ML_ERROR_NONE :=
      hcreate pre.length (by simp)
    have hrec := ih (pre ++ [r])
      (list ++ [decode_members (json_array_get_object_element
        ((pre ++ r :: rest).map json_string_object) pre.length) []])
      (tr ++ [.option_create pre.length])
      (by
        intro k hk
        apply hcreate
        simp only [List.length_append, List.length_singleton, List.length_cons,
          List.length_nil] at hk ⊢
        omega)
      (fun x hx => hnd x (List.mem_cons_of_mem _ hx))
    simp only [List.append_assoc, List.singleton_append, List.length_append,
      List.length_singleton] at hrec
    simp only [List.length_cons, element_loop, hc0, ne_eq, not_true_eq_false, if_false]
    rw [hget, decode_string_object r (hnd r (List.mem_cons_self _ _))] at hrec
    rw [hget, decode_string_object r (hnd r (List.mem_cons_self _ _))]
    exact hrec

/-- The decoder after a D-Bus answer of status 0 whose description parses to an
object of string members with distinct names. -/
theorem model_get_decode_object (env : Env) (r : RpcResult) (d : String)
    (members : List (String × String))
    (hparser : env.json_parser_new = true)
    (hcreate : env.ml_option_create 0 = ML_ERROR_NONE)
    (h1 : r.ret = 0) (h2 : r.out_str = some d)
    (h3 : env.json_parser_load_from_data d = .ok (some (json_string_object members)))
    (h4 : (members.map Prod.fst).Nodup) :
    model_get_decode env r = ⟨ML_ERROR_NONE, some members, r.trace ++ [.option_create 0]⟩ := by
  simp only [model_get_decode, h1, h2, h3, hparser, hcreate, ML_ERROR_NONE, lt_self_iff_false,
    ne_eq, not_true_eq_false, if_false, Bool.true_eq_false, json_string_object,
    json_node_get_object, decode_string_object members h4]

/-- C8. Each of the three decodings, under its own conditions. For
`ml_service_model_get` (every version) and for `ml_service_model_get_activated`: with
the service feature enabled, the option store and the parser allocated, when the
daemon answers the call with status 0 and a text that parses to an object of
string members (a JSON object holds one member per name), the call succeeds and
the store written to `*info` holds exactly the members, name and string, in
member order. For `ml_service_model_get_all`: with the feature enabled, the parser,
the list and one option store per element allocated, when the daemon answers
with status 0 and a text that parses to an array of `n >= 1` such objects, the
call succeeds with count `n` and the list written holds, in array order, the
decoding of each element. No part depends on the answers to the other calls. -/
theorem model_decoding (env : Env) (name : String) :
    (∀ (version : Nat) (d : String) (members : List (String × String)),
      env.check_feature_state .ML_FEATURE_SERVICE = ML_ERROR_NONE →
      env.json_parser_new = true →
      env.ml_option_create 0 = ML_ERROR_NONE →
      (ml_agent_dbus_interface_model_get env (some name) version).ret = 0 →
      (ml_agent_dbus_interface_model_get env (some name) version).out_str = some d →
      env.json_parser_load_from_data d = .ok (some (json_string_object members)) →
      (members.map Prod.fst).Nodup →
      (ml_service_model_get env (some name) version true).ret = ML_ERROR_NONE ∧
      (ml_service_model_get env (some name) version true).info = some members) ∧
    (∀ (d : String) (members : List (String × String)),
      env.check_feature_state .ML_FEATURE_SERVICE = ML_ERROR_NONE →
      env.json_parser_new = true →
      env.ml_option_create 0 = ML_ERROR_NONE →
      (ml_agent_dbus_interface_model_get_activated env (some name)).ret = 0 →
      (ml_agent_dbus_interface_model_get_activated env (some name)).out_str = some d →
      env.json_parser_load_from_data d = .ok (some (json_string_object members)) →
      (members.map Prod.fst).Nodup →
      (ml_service_model_get_activated env (some name) true).ret = ML_ERROR_NONE ∧
      (ml_service_model_get_activated env (some name) true).info = some members) ∧
    (∀ (d : String) (records : List (List (String × String))),
      env.check_feature_state .ML_FEATURE_SERVICE = ML_ERROR_NONE →
      env.json_parser_new = true →
      env.g_new0 records.length = true →
      (∀ k, k < records.length → env.ml_option_create k = ML_ERROR_NONE) →
      (ml_agent_dbus_interface_model_get_all env (some name)).ret = 0 →
      (ml_agent_dbus_interface_model_get_all env (some name)).out_str = some d →
      env.json_parser_load_from_data d =
        .ok (some (.array (records.map json_string_object))) →
      (∀ r ∈ records, (r.map Prod.fst).Nodup) →
      1 ≤ records.length →
      (ml_service_model_get_all env (some name) true true).ret = ML_ERROR_NONE ∧
      (ml_service_model_get_all env (some name) true true).num = some records.length ∧
      (ml_service_model_get_all env (some name) true true).info_list = some records) := by
  refine ⟨?_, ?_, ?_⟩
  · intro version d members hf hparser hcreate hg1 hg2 hg3 hg4
    simp only [ml_service_model_get, hf, ne_eq, not_true_eq_false, if_false, reduceCtorEq,
      Bool.true_eq_false]
    rw [model_get_decode_object env _ d members hparser hcreate hg1 hg2 hg3 hg4]
    exact ⟨rfl, rfl⟩
  · intro d members hf hparser hcreate hc1 hc2 hc3 hc4
    simp only [ml_service_model_get_activated, hf, ne_eq, not_true_eq_false, if_false,
      reduceCtorEq, Bool.true_eq_false]
    rw [model_get_decode_object env _ d members hparser hcreate hc1 hc2 hc3 hc4]
    exact ⟨rfl, rfl⟩
  · intro d records hf hparser halloc hcreate ha1 ha2 ha3 ha4 ha5
    have hl := element_loop_records env records []
      [] (ml_agent_dbus_interface_model_get_all env (some name)).trace
      (by
        intro k hk
        apply hcreate
        simpa using hk)
      ha4
    simp only [List.nil_append, List.length_nil] at hl
    have hlen : records.length ≠ 0 := by omega
    simp only [ml_service_model_get_all, hf, ne_eq, not_true_eq_false, if_false, reduceCtorEq,
      Bool.true_eq_false, ha1, ha2, ha3, hparser, halloc, ML_ERROR_NONE, lt_self_iff_false,
      json_node_get_array, List.length_map, hlen, hl.1, hl.2]
    refine ⟨?_, ?_, ?_⟩ <;> trivial

/-- C8 on the texts of the specification: the object with a = "1", b = "2" gives the
two entries in that order, for get and for getActivated, and the array of three
objects gives three stores in array order. With a daemon that answers get only
(every other call fails in transport), get still decodes the object. -/
theorem model_decoding_witness :
    (ml_service_model_get env_registry (some "m1") 1 true).info =
      some [("a", "1"), ("b", "2")] ∧
    (ml_service_model_get_activated env_registry (some "m1") true).info =
      some [("a", "1"), ("b", "2")] ∧
    (ml_service_model_get_all env_registry (some "m1") true true).num = some 3 ∧
    (ml_service_model_get_all env_registry (some "m1") true true).info_list =
      some [[("a", "1"), ("b", "2")], [("c", "3")], [("b", "5"), ("a", "4")]] ∧
    (ml_agent_dbus_interface_model_get_all env_get_only (some "m1")).ret ≠ 0 ∧
    (ml_service_model_get env_get_only (some "m1") 1 true).ret = ML_ERROR_NONE ∧
    (ml_service_model_get env_get_only (some "m1") 1 true).info =
      some [("a", "1"), ("b", "2")] :=
  have hg := (model_decoding env_registry "m1").1 1 text_ab [("a", "1"), ("b", "2")]
    rfl rfl rfl (by decide) (by decide) rfl (by decide)
  have hc := (model_decoding env_registry "m1").2.1 text_ab [("a", "1"), ("b", "2")]
    rfl rfl rfl (by decide) (by decide) rfl (by decide)
  have ha := (model_decoding env_registry "m1").2.2 text_three
    [[("a", "1"), ("b", "2")], [("c", "3")], [("b", "5"), ("a", "4")]]
    rfl rfl rfl (fun _ _ => rfl) (by decide) (by decide) rfl (by decide) (by decide)
  have ho := (model_decoding env_get_only "m1").1 1 text_ab [("a", "1"), ("b", "2")]
    rfl rfl rfl (by decide) (by decide) rfl (by decide)
  ⟨hg.2, hc.2, ha.2.1, ha.2.2, by decide, ho.1, ho.2⟩

/-- C9. With the service feature enabled and the parser allocated: when the daemon
answers getAll with status 0 and a text that parses to the empty array,
`ml_service_model_get_all` returns `ML_ERROR_INVALID_PARAMETER` (not success) after
reporting the missing array, the count written is 0, the list is not written,
and no option store is created. -/
theorem model_get_all_empty_array (env : Env) (name d : String)
    (hf : env.check_feature_state .ML_FEATURE_SERVICE = ML_ERROR_NONE)
    (hparser : env.json_parser_new = true)
    (h1 : (ml_agent_dbus_interface_model_get_all env (some name)).ret = 0)
    (h2 : (ml_agent_dbus_interface_model_get_all env (some name)).out_str = some d)
    (h3 : env.json_parser_load_from_data d = .ok (some (.array []))) :
    (ml_service_model_get_all env (some name) true true).ret = ML_ERROR_INVALID_PARAMETER ∧
    (ml_service_model_get_all env (some name) true true).ret ≠ ML_ERROR_NONE ∧
    (ml_service_model_get_all env (some name) true true).num = some 0 ∧
    (ml_service_model_get_all env (some name) true true).info_list = none ∧
    (ml_service_model_get_all env (some name) true true).trace =
      (ml_agent_dbus_interface_model_get_all env (some name)).trace ++
        [.report "Failed to get array from json string." []] ∧
    (∀ k, Event.option_create k ∉ (ml_service_model_get_all env (some name) true true).trace) := by
  have hr : ml_service_model_get_all env (some name) true true =
      ⟨ML_ERROR_INVALID_PARAMETER, none, some 0,
        (ml_agent_dbus_interface_model_get_all env (some name)).trace ++
          [.report "Failed to get array from json string." []]⟩ := by
    simp only [ml_service_model_get_all, hf, ne_eq, not_true_eq_false, if_false, reduceCtorEq,
      Bool.true_eq_false, h1, h2, h3, hparser, ML_ERROR_NONE, lt_self_iff_false,
      json_node_get_array, List.length_nil, if_true]
  rw [hr]
  refine ⟨rfl, ?_, rfl, rfl, rfl, ?_⟩
  · show ML_ERROR_INVALID_PARAMETER ≠ ML_ERROR_NONE
    decide
  intro k hk
  simp only [List.mem_append, List.mem_singleton, reduceCtorEq, or_false] at hk
  simp only [ml_agent_dbus_interface_model_get_all] at hk
  have hp := get_proxy_trace env .ML_AGENT_DBUS_SERVICE_MODEL
  split at hk
  · obtain ⟨b, hb⟩ := hp _ hk
    cases hb
  · simp only [List.mem_append, List.mem_cons, reduceCtorEq, List.not_mem_nil, or_false] at hk
    obtain ⟨b, hb⟩ := hp _ hk
    cases hb

/-- C9 for the answer "[]": an error, count 0, no list, and the trace is the probe,
the request, the unref and the report. -/
theorem model_get_all_empty_array_witness :
    ml_service_model_get_all (env_answer "[]" (.array [])) (some "m1") true true =
      ⟨ML_ERROR_INVALID_PARAMETER, none, some 0,
        [.probe .ML_AGENT_DBUS_SERVICE_MODEL .G_BUS_TYPE_SYSTEM,
         .request 1 (.model_get_all (some "m1")), .unref 1,
         .report "Failed to get array from json string." []]⟩ := by
  have h := model_get_all_empty_array (env_answer "[]" (.array [])) "m1" "[]" rfl rfl
    (by decide) (by decide) rfl
  rcases hr : ml_service_model_get_all (env_answer "[]" (.array [])) (some "m1") true true with
    ⟨ret, info_list, num, trace⟩
  rw [hr] at h
  obtain ⟨h1, _, h3, h4, h5, _⟩ := h
  simp only at h1 h3 h4 h5
  rw [h1, h3, h4, h5]
  rfl

/-- C10, the code at the failing inputs. When the daemon answers get or getActivated
with a text whose root is an array, a string, a number or null, both functions
return `ML_ERROR_NONE` and write an empty option store to `*info`. -/
theorem model_get_non_object_root :
    (∀ root ∈ [JsonNode.array [], .value (.string "x"), .value (.int 1), .null],
      json_node_get_object root = none) ∧
    ml_service_model_get (env_answer "[]" (.array [])) (some "m1") 1 true =
      ⟨ML_ERROR_NONE, some [],
        [.probe .ML_AGENT_DBUS_SERVICE_MODEL .G_BUS_TYPE_SYSTEM,
         .request 1 (.model_get (some "m1") 1), .unref 1, .option_create 0]⟩ ∧
    ml_service_model_get_activated (env_answer "[]" (.array [])) (some "m1") true =
      ⟨ML_ERROR_NONE, some [],
        [.probe .ML_AGENT_DBUS_SERVICE_MODEL .G_BUS_TYPE_SYSTEM,
         .request 1 (.model_get_activated (some "m1")), .unref 1, .option_create 0]⟩ ∧
    (ml_service_model_get (env_answer "\"x\"" (.value (.string "x"))) (some "m1") 1 true).ret =
      ML_ERROR_NONE ∧
    (ml_service_model_get (env_answer "\"x\"" (.value (.string "x"))) (some "m1") 1 true).info =
      some [] ∧
    (ml_service_model_get (env_answer "1" (.value (.int 1))) (some "m1") 1 true).ret =
      ML_ERROR_NONE ∧
    (ml_service_model_get (env_answer "1" (.value (.int 1))) (some "m1") 1 true).info = some [] ∧
    (ml_service_model_get (env_answer "null" .null) (some "m1") 1 true).ret = ML_ERROR_NONE ∧
    (ml_service_model_get (env_answer "null" .null) (some "m1") 1 true).info = some [] ∧
    (ml_service_model_get_activated (env_answer "null" .null) (some "m1") true).info =
      some [] := by
  refine ⟨?_, by decide, by decide, by decide, by decide, by decide, by decide, by decide,
    by decide, by decide⟩
  intro root hroot
  simp only [List.mem_cons, List.mem_singleton, List.not_mem_nil, or_false] at hroot
  rcases hroot with h | h | h | h <;> subst h <;> rfl

/-! ## Cleanup of `ml_service_model_get_all` -/

theorem createdStores_append (a b : List Event) :
    createdStores (a ++ b) = createdStores a ++ createdStores b := by
  simp [createdStores, List.filterMap_append]

theorem destroyedStores_append (a b : List Event) :
    destroyedStores (a ++ b) = destroyedStores a ++ destroyedStores b := by
  simp [destroyedStores, List.filterMap_append]

theorem stores_of_probes (type : ml_agent_dbus_service_type_e) (tr : List Event)
    (h : ∀ e ∈ tr, ∃ b, e = .probe type b) :
    createdStores tr = [] ∧ destroyedStores tr = [] := by
  induction tr with
  | nil => exact ⟨rfl, rfl⟩
  | cons e tr ih =>
    obtain ⟨b, hb⟩ := h e (List.mem_cons_self _ _)
    have := ih (fun x hx => h x (List.mem_cons_of_mem _ hx))
    subst hb
    simpa [createdStores, destroyedStores] using this

/-- The D-Bus call of getAll creates and destroys no option store. -/
theorem model_get_all_rpc_stores (env : Env) (name : Option String) :
    createdStores (ml_agent_dbus_interface_model_get_all env name).trace = [] ∧
    destroyedStores (ml_agent_dbus_interface_model_get_all env name).trace = [] := by
  have hp := stores_of_probes _ _ (get_proxy_trace env .ML_AGENT_DBUS_SERVICE_MODEL)
  simp only [ml_agent_dbus_interface_model_get_all]
  split
  · exact hp
  · simp only [createdStores_append, destroyedStores_append, hp.1, hp.2]
    exact ⟨rfl, rfl⟩

/-- When the element loop stops at a failed creation `j`, it has created the stores
`i .. j-1` and destroyed none. -/
theorem element_loop_failed (env : Env) (array : List JsonNode) :
    ∀ (k i : Nat) (list : List ml_option) (tr : List Event) (j : Nat),
      (element_loop env array k i list tr).failed = some j →
      i ≤ j ∧
      createdStores (element_loop env array k i list tr).trace =
        createdStores tr ++ List.range' i (j - i) ∧
      destroyedStores (element_loop env array k i list tr).trace = destroyedStores tr := by
  intro k
  induction k with
  | zero => intro i list tr j h; simp [element_loop] at h
  | succ k ih =>
    intro i list tr j h
    unfold element_loop at h ⊢
    by_cases hc : env.ml_option_create i ≠ ML_ERROR_NONE
    · rw [if_pos hc] at h ⊢
      simp only [Option.some.injEq] at h
      subst h
      simp [createdStores_append, destroyedStores_append, createdStores, destroyedStores]
    · rw [if_neg hc] at h ⊢
      obtain ⟨h1, h2, h3⟩ := ih (i + 1) _ _ j h
      refine ⟨by omega, ?_, ?_⟩
      · rw [h2, createdStores_append]
        have : j - i = (j - (i + 1)) + 1 := by omega
        rw [this, List.range'_succ]
        simp [createdStores]
      · rw [h3, destroyedStores_append]
        simp [destroyedStores]

theorem destroy_list_stores (n : Nat) :
    createdStores (destroy_list n) = [] ∧ destroyedStores (destroy_list n) = List.range n := by
  unfold destroy_list createdStores destroyedStores
  constructor
  · simp [List.filterMap_map, Function.comp_def]
  · simp [List.filterMap_map, Function.comp_def]

/-- The stores of a trace made of the getAll D-Bus trace and one report. -/
theorem stores_rpc_report (env : Env) (name : Option String) (f : String) (a : List ReportArg) :
    createdStores ((ml_agent_dbus_interface_model_get_all env name).trace ++ [.report f a]) =
      List.range 0 ∧
    destroyedStores ((ml_agent_dbus_interface_model_get_all env name).trace ++ [.report f a]) =
      List.range 0 := by
  obtain ⟨h1, h2⟩ := model_get_all_rpc_stores env name
  rw [createdStores_append, destroyedStores_append, h1, h2]
  exact ⟨rfl, rfl⟩

/-- C11. Every call of `ml_service_model_get_all` that returns a status other than
`ML_ERROR_NONE` leaves `*info_list` unwritten and never writes a count other than
0; when the entry guards passed (feature enabled, no `NULL` argument) the count
written is 0; and the stores it created are `0 .. i-1` for some `i`, each
destroyed once, in the same order. -/
theorem model_get_all_failure (env : Env) (name : Option String) (info_list num : Bool)
    (hfail : (ml_service_model_get_all env name info_list num).ret ≠ ML_ERROR_NONE) :
    (ml_service_model_get_all env name info_list num).info_list = none ∧
    (∀ k, (ml_service_model_get_all env name info_list num).num = some k → k = 0) ∧
    (env.check_feature_state .ML_FEATURE_SERVICE = ML_ERROR_NONE → name ≠ none →
      info_list = true → num = true →
      (ml_service_model_get_all env name info_list num).num = some 0) ∧
    ∃ i, createdStores (ml_service_model_get_all env name info_list num).trace = List.range i ∧
      destroyedStores (ml_service_model_get_all env name info_list num).trace = List.range i := by
  have hrpc := model_get_all_rpc_stores env name
  have hrep := stores_rpc_report env name
  generalize hres : ml_service_model_get_all env name info_list num = res at *
  unfold ml_service_model_get_all at hres
  dsimp only at hres
  repeat' split at hres
  all_goals subst hres
  all_goals first
    | exact ⟨rfl, by simp, fun _ _ _ _ => rfl, 0, (hrep _ _).1, (hrep _ _).2⟩
    | exact ⟨rfl, by simp, fun _ _ _ _ => rfl, 0, hrpc.1, hrpc.2⟩
    | exact absurd rfl hfail
    | (refine ⟨rfl, by simp, ?_, 0, rfl, rfl⟩
       intro h1 h2 h3 h4
       simp_all)
    | (rename_i i hl
       obtain ⟨_, h2, h3⟩ := element_loop_failed _ _ _ _ _ _ _ hl
       refine ⟨rfl, by simp, fun _ _ _ _ => rfl, i, ?_, ?_⟩
       · show createdStores (_ ++ destroy_list _) = _
         rw [createdStores_append, h2, hrpc.1, (destroy_list_stores _).1, List.range_eq_range']
         simp
       · show destroyedStores (_ ++ destroy_list _) = _
         rw [destroyedStores_append, h3, hrpc.2, (destroy_list_stores _).2]
         simp)

/-- C11 on an array of three objects when the third `ml_option_create` fails: an
out-of-memory error, no list, count 0, and the stores 0 and 1 created and
destroyed. -/
theorem model_get_all_failure_witness :
    (ml_service_model_get_all env_third_create_fails (some "m1") true true).ret =
      ML_ERROR_OUT_OF_MEMORY ∧
    (ml_service_model_get_all env_third_create_fails (some "m1") true true).info_list = none ∧
    (ml_service_model_get_all env_third_create_fails (some "m1") true true).num = some 0 ∧
    createdStores (ml_service_model_get_all env_third_create_fails (some "m1") true true).trace =
      [0, 1] ∧
    destroyedStores (ml_service_model_get_all env_third_create_fails (some "m1") true true).trace =
      [0, 1] :=
  have h := model_get_all_failure env_third_create_fails (some "m1") true true (by decide)
  ⟨by decide, h.1, h.2.2.1 rfl (by decide) rfl rfl, by decide, by decide⟩

/-! ## Model registration -/

/-- The condition under which `ml_service_model_register` rejects an existing path:
with GLib's any-of semantics the second test only asks whether the path exists. -/
theorem register_path_test (fs : FileSystem) (path : String) :
    (!g_path_is_absolute path ||
      !g_file_test fs path [.G_FILE_TEST_EXISTS, .G_FILE_TEST_IS_REGULAR] ||
      g_file_test fs path [.G_FILE_TEST_IS_SYMLINK]) = false ↔
    g_path_is_absolute path = true ∧
      (fs.file_test path .G_FILE_TEST_EXISTS = true ∨
        fs.file_test path .G_FILE_TEST_IS_REGULAR = true) ∧
      fs.file_test path .G_FILE_TEST_IS_SYMLINK = false := by
  simp only [g_file_test, List.any_cons, List.any_nil, Bool.or_false]
  cases g_path_is_absolute path <;> cases fs.file_test path .G_FILE_TEST_EXISTS <;>
    cases fs.file_test path .G_FILE_TEST_IS_REGULAR <;>
    cases fs.file_test path .G_FILE_TEST_IS_SYMLINK <;> simp

/-- C12, the code at the failing input. For the absolute path "/tmp" of an existing
directory (not a regular file, not a symbolic link, its directory "/" can be
stat'ed) `ml_service_model_register` issues the registration request and returns
the daemon's answer, here success with version 1. -/
theorem model_register_accepts_directory :
    fs_tmp_directory.file_test "/tmp" .G_FILE_TEST_IS_REGULAR = false ∧
    fs_tmp_directory.file_test "/tmp" .G_FILE_TEST_IS_DIR = true ∧
    ml_service_model_register (env_number 1) fs_tmp_directory (some "m1") (some "/tmp") true
        none true =
      ⟨ML_ERROR_NONE, some 1,
        [.probe .ML_AGENT_DBUS_SERVICE_MODEL .G_BUS_TYPE_SYSTEM,
         .request 1 (.model_register (some "m1") (some "/tmp") true ""), .unref 1]⟩ := by
  decide

/-! ## Registering on a remote service -/

/-- The modelled `ml_option_get` answers a set key with `ML_ERROR_NONE` and its value
and every other key with the invalid-parameter error and no value. -/
theorem ml_option_get_cases (option : ml_option_bag) (key : String) :
    (∃ v, option.lookup key = some v ∧ ml_option_get option key = (ML_ERROR_NONE, some v)) ∨
    (option.lookup key = none ∧
      ml_option_get option key = (ML_ERROR_INVALID_PARAMETER, none)) := by
  unfold ml_option_get
  cases h : option.lookup key with
  | none => exact Or.inr ⟨rfl, rfl⟩
  | some v => exact Or.inl ⟨v, rfl, rfl⟩

/-- C13, refuted as stated. With a remote service handle, the service key set to the
empty string, a payload of 23 bytes and a transport in which every step succeeds,
`ml_remote_service_register` creates the envelope, sends it and returns success. -/
theorem register_empty_key_counterexample :
    ml_remote_service_register env_no_bus edge_ok casts_first_member
        (some ⟨.ML_SERVICE_TYPE_REMOTE, .remote ⟨1, NNS_EDGE_NODE_TYPE_PUB⟩⟩)
        (some [("service-type", string_value "pipeline_raw"), ("service-key", string_value "")])
        (some "videotestsrc ! fakesink") 23 =
      ⟨NNS_EDGE_ERROR_NONE,
        [.edge .nns_edge_data_create,
         .edge (.nns_edge_data_set_info "service-type" "pipeline_raw"),
         .edge (.nns_edge_data_set_info "service-key" ""),
         .edge (.nns_edge_data_add "videotestsrc ! fakesink" 23),
         .edge (.nns_edge_send 1)]⟩ := by
  decide

/-- C13 as amended. With the two features enabled, `ml_remote_service_register`
returns the invalid-parameter error and makes no call into the transport (no
envelope is created, nothing is sent) whenever the handle is `NULL`, or the option
bag is `NULL`, or the payload pointer is `NULL`, or the payload length is 0, or
the service key is not set in the bag. -/
theorem register_rejects_invalid (env : Env) (edge : Transport) (casts : Casts)
    (handle : Option ml_service_s) (option : Option ml_option_bag) (data : Option String)
    (data_len : Nat)
    (hf1 : env.check_feature_state .ML_FEATURE_SERVICE = ML_ERROR_NONE)
    (hf2 : env.check_feature_state .ML_FEATURE_INFERENCE = ML_ERROR_NONE)
    (hbad : handle = none ∨ option = none ∨ data = none ∨ data_len = 0 ∨
      ∃ bag, option = some bag ∧ bag.lookup "service-key" = none) :
    (ml_remote_service_register env edge casts handle option data data_len).ret =
      ML_ERROR_INVALID_PARAMETER ∧
    edgeCalls (ml_remote_service_register env edge casts handle option data data_len).trace =
      [] := by
  unfold ml_remote_service_register
  simp only [hf1, hf2, ne_eq, not_true_eq_false, if_false]
  cases handle with
  | none => exact ⟨rfl, rfl⟩
  | some mls =>
    cases option with
    | none => exact ⟨rfl, rfl⟩
    | some bag =>
      cases data with
      | none => exact ⟨rfl, rfl⟩
      | some d =>
        dsimp only
        by_cases hlen : data_len ≤ 0
        · rw [if_pos hlen]
          exact ⟨rfl, rfl⟩
        · rw [if_neg hlen]
          have hkey : bag.lookup "service-key" = none := by
            rcases hbad with h | h | h | h | ⟨b, hb, hl⟩
            · cases h
            · cases h
            · cases h
            · omega
            · cases hb
              exact hl
          have hk : ml_option_get bag "service-key" = (ML_ERROR_INVALID_PARAMETER, none) := by
            simp only [ml_option_get, hkey]
          rw [hk]
          rcases ml_option_get_cases bag "service-type" with ⟨v, _, ht⟩ | ⟨_, ht⟩
          · rw [ht]
            exact ⟨rfl, rfl⟩
          · rw [ht]
            exact ⟨rfl, rfl⟩

/-- C13 as amended, for a bag without service key: the invalid-parameter error and
no call into the transport. -/
theorem register_rejects_invalid_witness :
    (ml_remote_service_register env_no_bus edge_ok casts_first_member
      (some ⟨.ML_SERVICE_TYPE_REMOTE, .remote ⟨1, NNS_EDGE_NODE_TYPE_PUB⟩⟩)
      (some [("service-type", string_value "pipeline_raw")])
      (some "videotestsrc ! fakesink") 23).ret = ML_ERROR_INVALID_PARAMETER ∧
    edgeCalls (ml_remote_service_register env_no_bus edge_ok casts_first_member
      (some ⟨.ML_SERVICE_TYPE_REMOTE, .remote ⟨1, NNS_EDGE_NODE_TYPE_PUB⟩⟩)
      (some [("service-type", string_value "pipeline_raw")])
      (some "videotestsrc ! fakesink") 23).trace = [] :=
  register_rejects_invalid env_no_bus edge_ok casts_first_member _ _ _ 23 rfl rfl
    (Or.inr (Or.inr (Or.inr (Or.inr ⟨_, rfl, by decide⟩))))

/-! ## The connection descriptor -/

/-- C14, the code at the failing input. Built from the empty option bag, the
descriptor has host and destination host "localhost", both ports 0, no topic and
the connection kind UNKNOWN, but its node type is the zero value left by `g_new0`,
`NNS_EDGE_NODE_TYPE_QUERY_CLIENT`, which is not `NNS_EDGE_NODE_TYPE_UNKNOWN`; and
`ml_remote_service_create` asks the transport for a handle of that node type. -/
theorem descriptor_of_empty_bag :
    _mlrs_get_edge_info [] edge_info_defaults =
      (⟨some "localhost", 0, none, some "localhost", 0, NNS_EDGE_CONNECT_TYPE_UNKNOWN,
        NNS_EDGE_NODE_TYPE_QUERY_CLIENT⟩, []) ∧
    (_mlrs_get_edge_info [] edge_info_defaults).1.node_type ≠ NNS_EDGE_NODE_TYPE_UNKNOWN ∧
    edgeCalls (ml_remote_service_create env_no_bus edge_strict (some []) true).trace =
      [.nns_edge_create_handle none NNS_EDGE_CONNECT_TYPE_UNKNOWN
        NNS_EDGE_NODE_TYPE_QUERY_CLIENT] := by
  decide

theorem edgeCalls_append (a b : List Event) :
    edgeCalls (a ++ b) = edgeCalls a ++ edgeCalls b := by
  simp [edgeCalls, List.filterMap_append]

/-- `_mlrs_get_edge_info` makes no call into the transport. -/
theorem get_edge_info_no_edge_call (option : ml_option_bag) (edge_info : edge_info_s) :
    edgeCalls (_mlrs_get_edge_info option edge_info).2 = [] := by
  unfold _mlrs_get_edge_info
  dsimp only
  split
  · simp only [_mlrs_get_node_type]
    split_ifs <;> rfl
  · rfl

/-- The first call of `_mlrs_create_edge_handle` into the transport asks for a handle
with the topic, connection kind and node type of the descriptor; when that is
refused, it is the only call. -/
theorem create_edge_handle_first_call (edge : Transport) (edge_info : edge_info_s) :
    (edgeCalls (_mlrs_create_edge_handle edge edge_info).trace).head? =
      some (.nns_edge_create_handle edge_info.topic edge_info.conn_type edge_info.node_type) ∧
    ((edge.nns_edge_create_handle edge_info.topic edge_info.conn_type edge_info.node_type).1
        ≠ NNS_EDGE_ERROR_NONE →
      _mlrs_create_edge_handle edge edge_info =
        ⟨(edge.nns_edge_create_handle edge_info.topic edge_info.conn_type
            edge_info.node_type).1, none,
          [.edge (.nns_edge_create_handle edge_info.topic edge_info.conn_type
            edge_info.node_type),
           .report "nns_edge_create_handle failed." []], false⟩) := by
  constructor
  · unfold _mlrs_create_edge_handle
    dsimp only
    split_ifs <;> simp [edgeCalls]
  · intro h
    unfold _mlrs_create_edge_handle
    dsimp only
    rw [if_pos h]
    rfl

/-- C15, refuted as stated. For the bag that sets only the node type
"remote_sender" the descriptor has the connection kind UNKNOWN, and
`ml_remote_service_create` asks the transport to create a handle of kind UNKNOWN;
the transport refuses here and no service handle is written. -/
theorem create_unknown_kind_counterexample :
    (_mlrs_get_edge_info [("node-type", string_value "remote_sender")]
      edge_info_defaults).1.conn_type = NNS_EDGE_CONNECT_TYPE_UNKNOWN ∧
    ml_remote_service_create env_no_bus edge_strict
        (some [("node-type", string_value "remote_sender")]) true =
      ⟨ML_ERROR_INVALID_PARAMETER, none,
        [.edge (.nns_edge_create_handle none NNS_EDGE_CONNECT_TYPE_UNKNOWN
          NNS_EDGE_NODE_TYPE_PUB),
         .report "nns_edge_create_handle failed." []], false⟩ := by
  decide

/-- C15 as amended. With the two features enabled, `ml_remote_service_create` on
every option bag first asks the transport to create a handle with the topic,
connection kind and node type of the resolved descriptor, whatever they are;
when the transport refuses that creation, this is the only call into the
transport, the refusal is returned and no service handle is written. -/
theorem create_asks_transport (env : Env) (edge : Transport) (option : ml_option_bag)
    (hf1 : env.check_feature_state .ML_FEATURE_SERVICE = ML_ERROR_NONE)
    (hf2 : env.check_feature_state .ML_FEATURE_INFERENCE = ML_ERROR_NONE) :
    (edgeCalls (ml_remote_service_create env edge (some option) true).trace).head? =
      some (.nns_edge_create_handle (_mlrs_get_edge_info option edge_info_defaults).1.topic
        (_mlrs_get_edge_info option edge_info_defaults).1.conn_type
        (_mlrs_get_edge_info option edge_info_defaults).1.node_type) ∧
    ((edge.nns_edge_create_handle (_mlrs_get_edge_info option edge_info_defaults).1.topic
        (_mlrs_get_edge_info option edge_info_defaults).1.conn_type
        (_mlrs_get_edge_info option edge_info_defaults).1.node_type).1
        ≠ NNS_EDGE_ERROR_NONE →
      (ml_remote_service_create env edge (some option) true).handle = none ∧
      (ml_remote_service_create env edge (some option) true).ret =
        (edge.nns_edge_create_handle (_mlrs_get_edge_info option edge_info_defaults).1.topic
          (_mlrs_get_edge_info option edge_info_defaults).1.conn_type
          (_mlrs_get_edge_info option edge_info_defaults).1.node_type).1 ∧
      edgeCalls (ml_remote_service_create env edge (some option) true).trace =
        [.nns_edge_create_handle (_mlrs_get_edge_info option edge_info_defaults).1.topic
          (_mlrs_get_edge_info option edge_info_defaults).1.conn_type
          (_mlrs_get_edge_info option edge_info_defaults).1.node_type]) := by
  have hg := get_edge_info_no_edge_call option edge_info_defaults
  obtain ⟨hfirst, hrefuse⟩ :=
    create_edge_handle_first_call edge (_mlrs_get_edge_info option edge_info_defaults).1
  have hcat : ∀ x : List Event,
      edgeCalls ((_mlrs_get_edge_info option edge_info_defaults).2 ++ x) = edgeCalls x := by
    intro x
    rw [edgeCalls_append, hg]
    rfl
  have htrace : edgeCalls (ml_remote_service_create env edge (some option) true).trace =
      edgeCalls
        (_mlrs_create_edge_handle edge (_mlrs_get_edge_info option edge_info_defaults).1).trace := by
    unfold ml_remote_service_create
    simp only [hf1, hf2, ne_eq, not_true_eq_false, if_false, Bool.true_eq_false]
    split_ifs <;> first | exact hcat _ | (split <;> exact hcat _)
  refine ⟨by rw [htrace]; exact hfirst, ?_⟩
  intro h
  have hc := hrefuse h
  refine ⟨?_, ?_, ?_⟩
  · unfold ml_remote_service_create
    simp only [hf1, hf2, ne_eq, not_true_eq_false, if_false, Bool.true_eq_false, hc,
      Bool.false_eq_true]
    split_ifs <;> rfl
  · unfold ml_remote_service_create
    simp only [hf1, hf2, ne_eq, not_true_eq_false, if_false, Bool.true_eq_false, hc,
      Bool.false_eq_true]
    split_ifs <;> rfl
  · rw [htrace, hc]
    rfl

/-- C15 as amended, for the bag that sets only the node type: the one call into the
transport asks for a handle of kind UNKNOWN and no service handle is written. -/
theorem create_asks_transport_witness :
    (ml_remote_service_create env_no_bus edge_strict
      (some [("node-type", string_value "remote_sender")]) true).handle = none ∧
    edgeCalls (ml_remote_service_create env_no_bus edge_strict
      (some [("node-type", string_value "remote_sender")]) true).trace =
      [.nns_edge_create_handle none NNS_EDGE_CONNECT_TYPE_UNKNOWN NNS_EDGE_NODE_TYPE_PUB] :=
  have h := (create_asks_transport env_no_bus edge_strict
    [("node-type", string_value "remote_sender")] rfl rfl).2 (by decide)
  ⟨h.1, h.2.2⟩

/-! ## Connection kind and node type -/

theorem zero_eq_strcasecmp_iff (s t : String) (hs : IsCString s) (ht : IsCString t) :
    0 = g_ascii_strcasecmp s t ↔ AsciiCaseEq s t := by
  rw [eq_comm]
  exact strcasecmp_eq_zero_iff s t hs ht

/-- The if-chain of `_mlrs_get_conn_type` in terms of case-insensitive equality. -/
theorem get_conn_type_some (s : String) (hs : IsCString s) :
    _mlrs_get_conn_type (some s) =
      if AsciiCaseEq s "TCP" then NNS_EDGE_CONNECT_TYPE_TCP
      else if AsciiCaseEq s "HYBRID" then NNS_EDGE_CONNECT_TYPE_HYBRID
      else if AsciiCaseEq s "MQTT" then NNS_EDGE_CONNECT_TYPE_MQTT
      else if AsciiCaseEq s "AITT" then NNS_EDGE_CONNECT_TYPE_AITT
      else NNS_EDGE_CONNECT_TYPE_UNKNOWN := by
  simp only [_mlrs_get_conn_type,
    zero_eq_strcasecmp_iff s "TCP" hs (by decide),
    zero_eq_strcasecmp_iff s "HYBRID" hs (by decide),
    zero_eq_strcasecmp_iff s "MQTT" hs (by decide),
    zero_eq_strcasecmp_iff s "AITT" hs (by decide)]

/-- The four connection kind names are pairwise different up to letter case. -/
theorem conn_names_exclusive (s : String) :
    ¬ (AsciiCaseEq s "TCP" ∧ AsciiCaseEq s "HYBRID") ∧
    ¬ (AsciiCaseEq s "TCP" ∧ AsciiCaseEq s "MQTT") ∧
    ¬ (AsciiCaseEq s "TCP" ∧ AsciiCaseEq s "AITT") ∧
    ¬ (AsciiCaseEq s "HYBRID" ∧ AsciiCaseEq s "MQTT") ∧
    ¬ (AsciiCaseEq s "HYBRID" ∧ AsciiCaseEq s "AITT") ∧
    ¬ (AsciiCaseEq s "MQTT" ∧ AsciiCaseEq s "AITT") := by
  refine ⟨?_, ?_, ?_, ?_, ?_, ?_⟩ <;> rintro ⟨ha, hb⟩ <;>
    exact absurd (caseEq_exclusive s _ _ ha hb) (by decide)

/-- C16. On every C string (and on `NULL`) `_mlrs_get_conn_type` returns TCP, HYBRID,
MQTT, AITT exactly when the string equals "TCP", "HYBRID", "MQTT", "AITT" under ASCII
case-insensitive comparison, and UNKNOWN exactly for every other string and for
`NULL`. -/
theorem get_conn_type_characterisation (value : Option String)
    (hs : ∀ s, value = some s → IsCString s) :
    (_mlrs_get_conn_type value = NNS_EDGE_CONNECT_TYPE_TCP ↔
      ∃ s, value = some s ∧ AsciiCaseEq s "TCP") ∧
    (_mlrs_get_conn_type value = NNS_EDGE_CONNECT_TYPE_HYBRID ↔
      ∃ s, value = some s ∧ AsciiCaseEq s "HYBRID") ∧
    (_mlrs_get_conn_type value = NNS_EDGE_CONNECT_TYPE_MQTT ↔
      ∃ s, value = some s ∧ AsciiCaseEq s "MQTT") ∧
    (_mlrs_get_conn_type value = NNS_EDGE_CONNECT_TYPE_AITT ↔
      ∃ s, value = some s ∧ AsciiCaseEq s "AITT") ∧
    (_mlrs_get_conn_type value = NNS_EDGE_CONNECT_TYPE_UNKNOWN ↔
      ∀ s, value = some s →
        ¬ AsciiCaseEq s "TCP" ∧ ¬ AsciiCaseEq s "HYBRID" ∧
        ¬ AsciiCaseEq s "MQTT" ∧ ¬ AsciiCaseEq s "AITT") := by
  cases value with
  | none => simp [_mlrs_get_conn_type]
  | some s =>
    have hc := hs s rfl
    obtain ⟨e1, e2, e3, e4, e5, e6⟩ := conn_names_exclusive s
    simp only [not_and] at e1 e2 e3 e4 e5 e6
    simp only [Option.some.injEq, exists_eq_left', forall_eq']
    rw [get_conn_type_some s hc]
    by_cases h1 : AsciiCaseEq s "TCP"
    · simp [h1, e1 h1, e2 h1, e3 h1]
    by_cases h2 : AsciiCaseEq s "HYBRID"
    · simp [h1, h2, e4 h2, e5 h2]
    by_cases h3 : AsciiCaseEq s "MQTT"
    · simp [h1, h2, h3, e6 h3]
    by_cases h4 : AsciiCaseEq s "AITT"
    · simp [h1, h2, h3, h4]
    · simp [h1, h2, h3, h4]

/-- C16 on the three spellings of the specification: "tcp", "TCP" and "Tcp" resolve
to TCP. -/
theorem get_conn_type_characterisation_witness :
    _mlrs_get_conn_type (some "tcp") = NNS_EDGE_CONNECT_TYPE_TCP ∧
    _mlrs_get_conn_type (some "TCP") = NNS_EDGE_CONNECT_TYPE_TCP ∧
    _mlrs_get_conn_type (some "Tcp") = NNS_EDGE_CONNECT_TYPE_TCP :=
  ⟨(get_conn_type_characterisation (some "tcp") (by intro s h; cases h; decide)).1.2
      ⟨"tcp", rfl, by decide⟩,
   (get_conn_type_characterisation (some "TCP") (by intro s h; cases h; decide)).1.2
      ⟨"TCP", rfl, by decide⟩,
   (get_conn_type_characterisation (some "Tcp") (by intro s h; cases h; decide)).1.2
      ⟨"Tcp", rfl, by decide⟩⟩

/-- C17, the code at the failing input. For the bag that sets the connect type to the
unrecognized string "bogus" the descriptor is the default one (connection kind
UNKNOWN) and no error is reported, exactly as for the empty bag; the bag that sets
the node type to "bogus" does get its report. -/
theorem unrecognized_connect_type_not_reported :
    _mlrs_get_conn_type (some "bogus") = NNS_EDGE_CONNECT_TYPE_UNKNOWN ∧
    _mlrs_get_edge_info [("connect-type", string_value "bogus")] edge_info_defaults =
      (edge_info_defaults, []) ∧
    _mlrs_get_edge_info [] edge_info_defaults = (edge_info_defaults, []) ∧
    (_mlrs_get_edge_info [("node-type", string_value "bogus")] edge_info_defaults).2 =
      [.report "Invalid node type: %s, Please check ml_option." [.str (some "bogus")]] := by
  decide

/-- The if-chain of `_mlrs_get_node_type` in terms of case-insensitive equality. -/
theorem get_node_type_some (s : String) (hs : IsCString s) :
    _mlrs_get_node_type (some s) =
      if AsciiCaseEq s "remote_sender" then (NNS_EDGE_NODE_TYPE_PUB, [])
      else if AsciiCaseEq s "remote_receiver" then (NNS_EDGE_NODE_TYPE_SUB, [])
      else (NNS_EDGE_NODE_TYPE_UNKNOWN,
        [.report "Invalid node type: %s, Please check ml_option." [.str (some s)]]) := by
  simp only [_mlrs_get_node_type,
    strcasecmp_eq_zero_iff s "remote_sender" hs (by decide),
    strcasecmp_eq_zero_iff s "remote_receiver" hs (by decide)]

/-- C18, refuted as stated. The string "REMOTE_SENDER" is not the string
"remote_sender", yet `_mlrs_get_node_type` maps it to the sender role
(`NNS_EDGE_NODE_TYPE_PUB`) without a report; likewise "Remote_Receiver" is mapped
to the receiver role. -/
theorem node_type_case_counterexample :
    "REMOTE_SENDER" ≠ "remote_sender" ∧
    _mlrs_get_node_type (some "REMOTE_SENDER") = (NNS_EDGE_NODE_TYPE_PUB, []) ∧
    "Remote_Receiver" ≠ "remote_receiver" ∧
    _mlrs_get_node_type (some "Remote_Receiver") = (NNS_EDGE_NODE_TYPE_SUB, []) := by
  decide

/-- C18 as amended. On a C string `_mlrs_get_node_type` returns the sender role
(`NNS_EDGE_NODE_TYPE_PUB`) without a report when the string equals "remote_sender"
under ASCII case-insensitive comparison, the receiver role (`NNS_EDGE_NODE_TYPE_SUB`)
without a report when it equals "remote_receiver" in that sense, and for every
other string UNKNOWN together with the report naming the string. -/
theorem get_node_type_characterisation (value : String) (hs : IsCString value) :
    (AsciiCaseEq value "remote_sender" →
      _mlrs_get_node_type (some value) = (NNS_EDGE_NODE_TYPE_PUB, [])) ∧
    (AsciiCaseEq value "remote_receiver" →
      _mlrs_get_node_type (some value) = (NNS_EDGE_NODE_TYPE_SUB, [])) ∧
    (¬ AsciiCaseEq value "remote_sender" → ¬ AsciiCaseEq value "remote_receiver" →
      _mlrs_get_node_type (some value) =
        (NNS_EDGE_NODE_TYPE_UNKNOWN,
          [.report "Invalid node type: %s, Please check ml_option." [.str (some value)]])) := by
  rw [get_node_type_some value hs]
  refine ⟨?_, ?_, ?_⟩
  · intro h
    simp [h]
  · intro h
    have hn : ¬ AsciiCaseEq value "remote_sender" := fun h1 =>
      absurd (caseEq_exclusive value _ _ h1 h) (by decide)
    simp [h, hn]
  · intro h1 h2
    simp [h1, h2]

/-- C18 as amended, on "Remote_Sender" (sender role) and on "sender" (UNKNOWN with a
report). -/
theorem get_node_type_characterisation_witness :
    _mlrs_get_node_type (some "Remote_Sender") = (NNS_EDGE_NODE_TYPE_PUB, []) ∧
    _mlrs_get_node_type (some "sender") =
      (NNS_EDGE_NODE_TYPE_UNKNOWN,
        [.report "Invalid node type: %s, Please check ml_option." [.str (some "sender")]]) :=
  ⟨(get_node_type_characterisation "Remote_Sender" (by decide)).1 (by decide),
   (get_node_type_characterisation "sender" (by decide)).2.2 (by decide) (by decide)⟩

/-! ## Handles of the wrong variant and the pipeline state -/

/-- C19, refuted as stated. `ml_service_start_pipeline`, `ml_service_stop_pipeline` and
`ml_service_get_pipeline_state` on a remote service handle (edge handle 5) issue their
D-Bus request, with the id the cast reads, and return the daemon's answer; and
`ml_remote_service_register` on a pipeline server handle (id 7) builds the envelope
and calls `nns_edge_send` on the edge handle the cast reads. -/
theorem wrong_variant_counterexample :
    ml_service_start_pipeline (env_number 4) casts_first_member
        (some ⟨.ML_SERVICE_TYPE_REMOTE, .remote ⟨5, NNS_EDGE_NODE_TYPE_PUB⟩⟩) =
      ⟨ML_ERROR_NONE,
        [.probe .ML_AGENT_DBUS_SERVICE_PIPELINE .G_BUS_TYPE_SYSTEM,
         .request 1 (.start_pipeline 5), .unref 1]⟩ ∧
    ml_service_stop_pipeline (env_number 4) casts_first_member
        (some ⟨.ML_SERVICE_TYPE_REMOTE, .remote ⟨5, NNS_EDGE_NODE_TYPE_PUB⟩⟩) =
      ⟨ML_ERROR_NONE,
        [.probe .ML_AGENT_DBUS_SERVICE_PIPELINE .G_BUS_TYPE_SYSTEM,
         .request 1 (.stop_pipeline 5), .unref 1]⟩ ∧
    ml_service_get_pipeline_state (env_number 4) casts_first_member
        (some ⟨.ML_SERVICE_TYPE_REMOTE, .remote ⟨5, NNS_EDGE_NODE_TYPE_PUB⟩⟩) true =
      ⟨ML_ERROR_NONE, some ML_PIPELINE_STATE_PLAYING,
        [.probe .ML_AGENT_DBUS_SERVICE_PIPELINE .G_BUS_TYPE_SYSTEM,
         .request 1 (.get_state 5), .unref 1]⟩ ∧
    ml_remote_service_register env_no_bus edge_ok casts_first_member
        (some ⟨.ML_SERVICE_TYPE_SERVER_PIPELINE, .server ⟨7, some "p1"⟩⟩)
        (some [("service-type", string_value "pipeline_raw"),
          ("service-key", string_value "p1")])
        (some "videotestsrc ! fakesink") 23 =
      ⟨NNS_EDGE_ERROR_NONE,
        [.edge .nns_edge_data_create,
         .edge (.nns_edge_data_set_info "service-type" "pipeline_raw"),
         .edge (.nns_edge_data_set_info "service-key" "p1"),
         .edge (.nns_edge_data_add "videotestsrc ! fakesink" 23),
         .edge (.nns_edge_send 7)]⟩ := by
  decide

/-- C19 as amended. None of the four operations reads the variant tag of the handle:
changing the tag changes no result. With the features enabled, on every non-null
handle of either variant, start, stop and get-state issue their D-Bus request on
the proxy found, with the id read from the private data, and register (valid
arguments, both keys set, envelope created) calls `nns_edge_send` on the edge handle
read from the private data. Only a `NULL` handle is rejected: the
invalid-parameter error, no D-Bus event and no call into the transport. -/
theorem handle_variant_not_inspected (env : Env) (edge : Transport) (casts : Casts)
    (mls : ml_service_s) (p : ml_agent_dbus_proxy_h) (option : ml_option_bag) (data : String)
    (data_len : Nat)
    (hf1 : env.check_feature_state .ML_FEATURE_SERVICE = ML_ERROR_NONE)
    (hf2 : env.check_feature_state .ML_FEATURE_INFERENCE = ML_ERROR_NONE)
    (hp : (_get_proxy_new_for_bus_sync env .ML_AGENT_DBUS_SERVICE_PIPELINE).proxy = some p)
    (hlen : 0 < data_len)
    (ht : option.lookup "service-type" ≠ none) (hk : option.lookup "service-key" ≠ none)
    (hc : edge.nns_edge_data_create = NNS_EDGE_ERROR_NONE) :
    (∀ t : ml_service_type_e,
      ml_service_start_pipeline env casts (some ⟨t, mls.priv⟩) =
        ml_service_start_pipeline env casts (some mls) ∧
      ml_service_stop_pipeline env casts (some ⟨t, mls.priv⟩) =
        ml_service_stop_pipeline env casts (some mls) ∧
      ml_service_get_pipeline_state env casts (some ⟨t, mls.priv⟩) true =
        ml_service_get_pipeline_state env casts (some mls) true ∧
      ml_remote_service_register env edge casts (some ⟨t, mls.priv⟩) (some option) (some data)
          data_len =
        ml_remote_service_register env edge casts (some mls) (some option) (some data)
          data_len) ∧
    Event.request p (.start_pipeline (server_id casts mls)) ∈
      (ml_service_start_pipeline env casts (some mls)).trace ∧
    Event.request p (.stop_pipeline (server_id casts mls)) ∈
      (ml_service_stop_pipeline env casts (some mls)).trace ∧
    Event.request p (.get_state (server_id casts mls)) ∈
      (ml_service_get_pipeline_state env casts (some mls) true).trace ∧
    Event.edge (.nns_edge_send (remote_edge_h casts mls)) ∈
      (ml_remote_service_register env edge casts (some mls) (some option) (some data)
        data_len).trace ∧
    ml_service_start_pipeline env casts none =
      ⟨ML_ERROR_INVALID_PARAMETER,
        [.report "The parameter, 'h' is NULL. It should be a valid ml_service_h" []]⟩ ∧
    ml_service_stop_pipeline env casts none =
      ⟨ML_ERROR_INVALID_PARAMETER,
        [.report "The parameter, 'h' is NULL. It should be a valid ml_service_h" []]⟩ ∧
    ml_service_get_pipeline_state env casts none true =
      ⟨ML_ERROR_INVALID_PARAMETER, none,
        [.report "The parameter, 'h' is NULL. It should be a valid ml_service_h" []]⟩ ∧
    ml_remote_service_register env edge casts none (some option) (some data) data_len =
      ⟨ML_ERROR_INVALID_PARAMETER,
        [.report "The parameter, 'handle' is NULL. It should be a valid ml_service_h." []]⟩ := by
  refine ⟨fun t => ⟨rfl, rfl, rfl, rfl⟩, ?_, ?_, ?_, ?_, ?_, ?_, ?_, ?_⟩
  · simp only [ml_service_start_pipeline, hf1, ne_eq, not_true_eq_false, if_false,
      ml_agent_dbus_interface_start_pipeline, hp]
    split_ifs <;> simp
  · simp only [ml_service_stop_pipeline, hf1, ne_eq, not_true_eq_false, if_false,
      ml_agent_dbus_interface_stop_pipeline, hp]
    split_ifs <;> simp
  · simp only [ml_service_get_pipeline_state, hf1, ne_eq, not_true_eq_false, if_false,
      ml_agent_dbus_interface_get_pipeline_state, hp, Bool.true_eq_false]
    split_ifs <;> simp
  · have hnl : ¬ data_len ≤ 0 := by omega
    rcases ml_option_get_cases option "service-type" with ⟨v, _, hv⟩ | ⟨h, _⟩
    · rcases ml_option_get_cases option "service-key" with ⟨w, _, hw⟩ | ⟨h, _⟩
      · simp only [ml_remote_service_register, hf1, hf2, ne_eq, not_true_eq_false, if_false,
          hnl, hv, hw, hc, ML_ERROR_NONE]
        split_ifs <;> simp
      · exact absurd h hk
    · exact absurd h ht
  · simp only [ml_service_start_pipeline, hf1, ne_eq, not_true_eq_false, if_false]
  · simp only [ml_service_stop_pipeline, hf1, ne_eq, not_true_eq_false, if_false]
  · simp only [ml_service_get_pipeline_state, hf1, ne_eq, not_true_eq_false, if_false]
  · simp only [ml_remote_service_register, hf1, hf2, ne_eq, not_true_eq_false, if_false]

/-- C19 as amended, on a remote service handle given to `ml_service_start_pipeline`:
the start request is issued with the id 5 the cast reads. -/
theorem handle_variant_not_inspected_witness :
    Event.request 1 (.start_pipeline 5) ∈
      (ml_service_start_pipeline (env_number 4) casts_first_member
        (some ⟨.ML_SERVICE_TYPE_REMOTE, .remote ⟨5, NNS_EDGE_NODE_TYPE_PUB⟩⟩)).trace :=
  (handle_variant_not_inspected (env_number 4) edge_ok casts_first_member
    ⟨.ML_SERVICE_TYPE_REMOTE, .remote ⟨5, NNS_EDGE_NODE_TYPE_PUB⟩⟩ 1
    [("service-type", string_value "pipeline_raw"), ("service-key", string_value "p1")]
    "videotestsrc ! fakesink" 23 rfl rfl (by decide) (by decide) (by decide) (by decide)
    rfl).2.1

/-- C20, refuted as stated. When the daemon answers get-state with the code 42, which
is the value of no member of `ml_pipeline_state_e`, `ml_service_get_pipeline_state`
returns success and writes 42 to `*state`, not `ML_PIPELINE_STATE_UNKNOWN`. -/
theorem pipeline_state_counterexample :
    (42 : Int) ∉ ml_pipeline_state_members ∧
    ml_service_get_pipeline_state (env_number 42) casts_first_member
        (some ⟨.ML_SERVICE_TYPE_SERVER_PIPELINE, .server ⟨7, some "p1"⟩⟩) true =
      ⟨ML_ERROR_NONE, some 42,
        [.probe .ML_AGENT_DBUS_SERVICE_PIPELINE .G_BUS_TYPE_SYSTEM,
         .request 1 (.get_state 7), .unref 1]⟩ ∧
    (42 : Int) ≠ ML_PIPELINE_STATE_UNKNOWN := by
  decide

/-- C20 as amended. With the service feature enabled, on a non-null handle and a
non-null state pointer: the state written by `ml_service_get_pipeline_state` is the
integer code the D-Bus call wrote, for every code (so the matching member when
the code is the value of a member, and the code itself otherwise); and when the
call wrote no code, the state written is `ML_PIPELINE_STATE_UNKNOWN`. In terms of
the collaborators: when a proxy is found and the get-state call succeeds, the
state written is the number the daemon answered; when a proxy is found and the
call fails in transport, or when no proxy is found, the state written is
`ML_PIPELINE_STATE_UNKNOWN`. -/
theorem pipeline_state_is_daemon_code (env : Env) (casts : Casts) (mls : ml_service_s)
    (hf : env.check_feature_state .ML_FEATURE_SERVICE = ML_ERROR_NONE) :
    (∀ code : Int,
      (ml_agent_dbus_interface_get_pipeline_state env (server_id casts mls)).out_num =
        some code →
      (ml_service_get_pipeline_state env casts (some mls) true).state = some code) ∧
    ((ml_agent_dbus_interface_get_pipeline_state env (server_id casts mls)).out_num = none →
      (ml_service_get_pipeline_state env casts (some mls) true).state =
        some ML_PIPELINE_STATE_UNKNOWN) ∧
    (∀ proxy : ml_agent_dbus_proxy_h,
      (_get_proxy_new_for_bus_sync env .ML_AGENT_DBUS_SERVICE_PIPELINE).proxy = some proxy →
      (env.call_sync proxy (.get_state (server_id casts mls))).result = true →
      (ml_service_get_pipeline_state env casts (some mls) true).state =
        some (env.call_sync proxy (.get_state (server_id casts mls))).out_num) ∧
    (∀ proxy : ml_agent_dbus_proxy_h,
      (_get_proxy_new_for_bus_sync env .ML_AGENT_DBUS_SERVICE_PIPELINE).proxy = some proxy →
      (env.call_sync proxy (.get_state (server_id casts mls))).result = false →
      (ml_service_get_pipeline_state env casts (some mls) true).state =
        some ML_PIPELINE_STATE_UNKNOWN) ∧
    ((_get_proxy_new_for_bus_sync env .ML_AGENT_DBUS_SERVICE_PIPELINE).proxy = none →
      (ml_service_get_pipeline_state env casts (some mls) true).state =
        some ML_PIPELINE_STATE_UNKNOWN) := by
  have hsome : ∀ code : Int,
      (ml_agent_dbus_interface_get_pipeline_state env (server_id casts mls)).out_num =
        some code →
      (ml_service_get_pipeline_state env casts (some mls) true).state = some code := by
    intro code hcode
    simp only [ml_service_get_pipeline_state, hf, ne_eq, not_true_eq_false, if_false,
      Bool.true_eq_false, hcode, Option.getD_some]
    split_ifs <;> rfl
  have hnone :
      (ml_agent_dbus_interface_get_pipeline_state env (server_id casts mls)).out_num = none →
      (ml_service_get_pipeline_state env casts (some mls) true).state =
        some ML_PIPELINE_STATE_UNKNOWN := by
    intro hnone
    simp only [ml_service_get_pipeline_state, hf, ne_eq, not_true_eq_false, if_false,
      Bool.true_eq_false, hnone, Option.getD_none]
    split_ifs <;> rfl
  refine ⟨hsome, hnone, ?_, ?_, ?_⟩
  · intro proxy hp hr
    apply hsome
    simp only [ml_agent_dbus_interface_get_pipeline_state, hp, hr, if_true]
  · intro proxy hp hr
    apply hnone
    simp only [ml_agent_dbus_interface_get_pipeline_state, hp, hr, Bool.false_eq_true, if_false]
  · intro hp
    apply hnone
    simp only [ml_agent_dbus_interface_get_pipeline_state, hp]

/-- C20 as amended, for the daemon codes 3 (PAUSED) and 42, and for a get-state call
that fails in transport (state `ML_PIPELINE_STATE_UNKNOWN`). -/
theorem pipeline_state_is_daemon_code_witness :
    (ml_service_get_pipeline_state (env_number 3) casts_first_member
      (some ⟨.ML_SERVICE_TYPE_SERVER_PIPELINE, .server ⟨7, some "p1"⟩⟩) true).state =
      some ML_PIPELINE_STATE_PAUSED ∧
    (ml_service_get_pipeline_state (env_number 42) casts_first_member
      (some ⟨.ML_SERVICE_TYPE_SERVER_PIPELINE, .server ⟨7, some "p1"⟩⟩) true).state =
      some 42 ∧
    (ml_service_get_pipeline_state (env_call_fails 42) casts_first_member
      (some ⟨.ML_SERVICE_TYPE_SERVER_PIPELINE, .server ⟨7, some "p1"⟩⟩) true).state =
      some ML_PIPELINE_STATE_UNKNOWN :=
  ⟨(pipeline_state_is_daemon_code (env_number 3) casts_first_member
      ⟨.ML_SERVICE_TYPE_SERVER_PIPELINE, .server ⟨7, some "p1"⟩⟩ rfl).1 3 (by decide),
   (pipeline_state_is_daemon_code (env_number 42) casts_first_member
      ⟨.ML_SERVICE_TYPE_SERVER_PIPELINE, .server ⟨7, some "p1"⟩⟩ rfl).1 42 (by decide),
   (pipeline_state_is_daemon_code (env_call_fails 42) casts_first_member
      ⟨.ML_SERVICE_TYPE_SERVER_PIPELINE, .server ⟨7, some "p1"⟩⟩ rfl).2.2.2.1 1
      (by decide) (by decide)⟩

/-! ## The event dispatcher -/

/-- `_mlrs_get_service_type` makes no facade call, probe or request and no call into
the transport. -/
theorem get_service_type_trace (service_str : Option String) :
    rpcEvents (_mlrs_get_service_type service_str).2 = [] ∧
    edgeCalls (_mlrs_get_service_type service_str).2 = [] := by
  unfold _mlrs_get_service_type
  split
  · exact ⟨rfl, rfl⟩
  · split_ifs <;> exact ⟨rfl, rfl⟩

/-- The router on a data handle one of whose three reads fails: it returns the code
of the first failing read (payload, then service type, then service key) and
makes no facade call, probe, request or call into the transport. -/
theorem router_unreadable (env : Env) (data_h : nns_edge_data_h) :
    ((data_h.nns_edge_data_get 0).1 ≠ NNS_EDGE_ERROR_NONE →
      (_mlrs_process_remote_service env data_h).ret = (data_h.nns_edge_data_get 0).1) ∧
    ((data_h.nns_edge_data_get 0).1 = NNS_EDGE_ERROR_NONE →
      (data_h.nns_edge_data_get_info "service-type").1 ≠ NNS_EDGE_ERROR_NONE →
      (_mlrs_process_remote_service env data_h).ret =
        (data_h.nns_edge_data_get_info "service-type").1) ∧
    ((data_h.nns_edge_data_get 0).1 = NNS_EDGE_ERROR_NONE →
      (data_h.nns_edge_data_get_info "service-type").1 = NNS_EDGE_ERROR_NONE →
      (data_h.nns_edge_data_get_info "service-key").1 ≠ NNS_EDGE_ERROR_NONE →
      (_mlrs_process_remote_service env data_h).ret =
        (data_h.nns_edge_data_get_info "service-key").1) ∧
    (((data_h.nns_edge_data_get 0).1 ≠ NNS_EDGE_ERROR_NONE ∨
        (data_h.nns_edge_data_get_info "service-type").1 ≠ NNS_EDGE_ERROR_NONE ∨
        (data_h.nns_edge_data_get_info "service-key").1 ≠ NNS_EDGE_ERROR_NONE) →
      (_mlrs_process_remote_service env data_h).ret ≠ NNS_EDGE_ERROR_NONE ∧
      rpcEvents (_mlrs_process_remote_service env data_h).trace = [] ∧
      edgeCalls (_mlrs_process_remote_service env data_h).trace = []) := by
  have hst := get_service_type_trace (data_h.nns_edge_data_get_info "service-type").2
  by_cases h0 : (data_h.nns_edge_data_get 0).1 ≠ NNS_EDGE_ERROR_NONE
  · have hr : _mlrs_process_remote_service env data_h =
        ⟨(data_h.nns_edge_data_get 0).1,
          [.report "Failed to get data while processing the ml-remote service." []]⟩ := by
      unfold _mlrs_process_remote_service
      rw [if_pos h0]
    rw [hr]
    exact ⟨fun _ => rfl, fun h => absurd h h0, fun h => absurd h h0, fun _ => ⟨h0, rfl, rfl⟩⟩
  · by_cases h1 : (data_h.nns_edge_data_get_info "service-type").1 ≠ NNS_EDGE_ERROR_NONE
    · have hr : _mlrs_process_remote_service env data_h =
          ⟨(data_h.nns_edge_data_get_info "service-type").1,
            [.report "Failed to get service type while processing the ml-remote service."
              []]⟩ := by
        unfold _mlrs_process_remote_service
        rw [if_neg h0, if_pos h1]
      rw [hr]
      exact ⟨fun h => absurd h h0, fun _ _ => rfl, fun _ h => absurd h h1,
        fun _ => ⟨h1, rfl, rfl⟩⟩
    · by_cases h2 : (data_h.nns_edge_data_get_info "service-key").1 ≠ NNS_EDGE_ERROR_NONE
      · have hr : _mlrs_process_remote_service env data_h =
            ⟨(data_h.nns_edge_data_get_info "service-key").1,
              (_mlrs_get_service_type (data_h.nns_edge_data_get_info "service-type").2).2 ++
                [.report "Failed to get service key while processing the ml-remote service."
                  []]⟩ := by
          unfold _mlrs_process_remote_service
          rw [if_neg h0, if_neg h1]
          dsimp only
          rw [if_pos h2]
        rw [hr]
        refine ⟨fun h => absurd h h0, fun _ h => absurd h h1, fun _ _ _ => rfl,
          fun _ => ⟨h2, ?_, ?_⟩⟩
        · show rpcEvents (_ ++ _) = []
          unfold rpcEvents at hst ⊢
          rw [List.filter_append, hst.1]
          rfl
        · show edgeCalls (_ ++ _) = []
          rw [edgeCalls_append, hst.2]
          rfl
      · refine ⟨fun h => absurd h h0, fun _ h => absurd h h1, fun _ _ h => absurd h h2, ?_⟩
        rintro (h | h | h)
        · exact absurd h h0
        · exact absurd h h1
        · exact absurd h h2

/-- C22. For an event whose kind can be read: when it is a new-data event that parses
to a data handle of which the payload, the service type or the service key cannot
be read, `_mlrs_edge_event_cb` returns the code of that failed read (the first one
in the order payload, type, key), makes no facade call, probe or request and no
call into the transport (no release, no connect, no destroy); when the new-data
event cannot be parsed it returns the parse error with an empty trace; and when it
is not a new-data event it returns success with an empty trace, whatever the data
behind the event is. -/
theorem dispatcher_unreadable_or_other_event (env : Env) (event_h : nns_edge_event_h)
    (hget : event_h.nns_edge_event_get_type.1 = NNS_EDGE_ERROR_NONE) :
    (event_h.nns_edge_event_get_type.2 = .NNS_EDGE_EVENT_NEW_DATA_RECEIVED →
      event_h.nns_edge_event_parse_new_data.1 = NNS_EDGE_ERROR_NONE →
      ((event_h.nns_edge_event_parse_new_data.2.nns_edge_data_get 0).1 ≠ NNS_EDGE_ERROR_NONE →
        (_mlrs_edge_event_cb env event_h).ret =
          (event_h.nns_edge_event_parse_new_data.2.nns_edge_data_get 0).1) ∧
      ((event_h.nns_edge_event_parse_new_data.2.nns_edge_data_get 0).1 = NNS_EDGE_ERROR_NONE →
        (event_h.nns_edge_event_parse_new_data.2.nns_edge_data_get_info "service-type").1
          ≠ NNS_EDGE_ERROR_NONE →
        (_mlrs_edge_event_cb env event_h).ret =
          (event_h.nns_edge_event_parse_new_data.2.nns_edge_data_get_info "service-type").1) ∧
      ((event_h.nns_edge_event_parse_new_data.2.nns_edge_data_get 0).1 = NNS_EDGE_ERROR_NONE →
        (event_h.nns_edge_event_parse_new_data.2.nns_edge_data_get_info "service-type").1
          = NNS_EDGE_ERROR_NONE →
        (event_h.nns_edge_event_parse_new_data.2.nns_edge_data_get_info "service-key").1
          ≠ NNS_EDGE_ERROR_NONE →
        (_mlrs_edge_event_cb env event_h).ret =
          (event_h.nns_edge_event_parse_new_data.2.nns_edge_data_get_info "service-key").1) ∧
      (((event_h.nns_edge_event_parse_new_data.2.nns_edge_data_get 0).1 ≠ NNS_EDGE_ERROR_NONE ∨
          (event_h.nns_edge_event_parse_new_data.2.nns_edge_data_get_info "service-type").1
            ≠ NNS_EDGE_ERROR_NONE ∨
          (event_h.nns_edge_event_parse_new_data.2.nns_edge_data_get_info "service-key").1
            ≠ NNS_EDGE_ERROR_NONE) →
        (_mlrs_edge_event_cb env event_h).ret ≠ NNS_EDGE_ERROR_NONE ∧
        rpcEvents (_mlrs_edge_event_cb env event_h).trace = [] ∧
        edgeCalls (_mlrs_edge_event_cb env event_h).trace = [])) ∧
    (event_h.nns_edge_event_get_type.2 = .NNS_EDGE_EVENT_NEW_DATA_RECEIVED →
      event_h.nns_edge_event_parse_new_data.1 ≠ NNS_EDGE_ERROR_NONE →
      _mlrs_edge_event_cb env event_h = ⟨event_h.nns_edge_event_parse_new_data.1, []⟩) ∧
    (event_h.nns_edge_event_get_type.2 ≠ .NNS_EDGE_EVENT_NEW_DATA_RECEIVED →
      _mlrs_edge_event_cb env event_h = ⟨NNS_EDGE_ERROR_NONE, []⟩) := by
  have hg : ¬ event_h.nns_edge_event_get_type.1 ≠ NNS_EDGE_ERROR_NONE := by simp [hget]
  refine ⟨?_, ?_, ?_⟩
  · intro hk hp
    have hpn : ¬ event_h.nns_edge_event_parse_new_data.1 ≠ NNS_EDGE_ERROR_NONE := by
      simp [hp]
    obtain ⟨r1, r2, r3, r4⟩ :=
      router_unreadable env event_h.nns_edge_event_parse_new_data.2
    have hcb : ∀ hbad : (_mlrs_process_remote_service env
          event_h.nns_edge_event_parse_new_data.2).ret ≠ NNS_EDGE_ERROR_NONE,
        _mlrs_edge_event_cb env event_h =
          _mlrs_process_remote_service env event_h.nns_edge_event_parse_new_data.2 := by
      intro hbad
      unfold _mlrs_edge_event_cb
      rw [if_neg hg, hk]
      dsimp only
      rw [if_neg hpn, if_pos hbad]
    refine ⟨?_, ?_, ?_, ?_⟩
    · intro h
      rw [hcb (r4 (Or.inl h)).1]
      exact r1 h
    · intro h0 h
      rw [hcb (r4 (Or.inr (Or.inl h))).1]
      exact r2 h0 h
    · intro h0 h1 h
      rw [hcb (r4 (Or.inr (Or.inr h))).1]
      exact r3 h0 h1 h
    · intro h
      rw [hcb (r4 h).1]
      exact r4 h
  · intro hk hp
    unfold _mlrs_edge_event_cb
    rw [if_neg hg, hk]
    dsimp only
    rw [if_pos hp]
  · intro hk
    unfold _mlrs_edge_event_cb
    rw [if_neg hg, hget]
    cases hkind : event_h.nns_edge_event_get_type.2 <;> first | rfl | exact absurd hkind hk

/-- C22 on a new-data event whose service key cannot be read, and on a
connection-closed event. -/
theorem dispatcher_unreadable_or_other_event_witness :
    (_mlrs_edge_event_cb env_no_bus
      (new_data_event (envelope_without_key "videotestsrc ! fakesink" "pipeline_raw"))).ret =
      ML_ERROR_INVALID_PARAMETER ∧
    rpcEvents (_mlrs_edge_event_cb env_no_bus
      (new_data_event (envelope_without_key "videotestsrc ! fakesink" "pipeline_raw"))).trace =
      [] ∧
    _mlrs_edge_event_cb env_no_bus
        ⟨(NNS_EDGE_ERROR_NONE, .NNS_EDGE_EVENT_CONNECTION_CLOSED),
          (NNS_EDGE_ERROR_NONE, envelope "videotestsrc ! fakesink" "pipeline_raw" "p1")⟩ =
      ⟨NNS_EDGE_ERROR_NONE, []⟩ :=
  have h := (dispatcher_unreadable_or_other_event env_no_bus
    (new_data_event (envelope_without_key "videotestsrc ! fakesink" "pipeline_raw"))
    rfl).1 rfl rfl
  ⟨h.2.2.1 rfl (by decide) (by decide),
   (h.2.2.2 (Or.inr (Or.inr (by decide)))).2.1,
   (dispatcher_unreadable_or_other_event env_no_bus
    ⟨(NNS_EDGE_ERROR_NONE, .NNS_EDGE_EVENT_CONNECTION_CLOSED),
      (NNS_EDGE_ERROR_NONE, envelope "videotestsrc ! fakesink" "pipeline_raw" "p1")⟩
    rfl).2.2 (by decide)⟩

/-! ## The steps of the edge connection manager -/

/-- C23, the code at a failing input. With validated arguments and a transport whose
`nns_edge_data_add` fails with out-of-memory, `ml_remote_service_register` reports
the failure, destroys the envelope and still performs `nns_edge_send` on the
handle; the value returned is the result of the send. When the send fails with
invalid-parameter that code is returned (not the out-of-memory of the add) and
the envelope is destroyed a second time; when the send succeeds register returns
success although the payload add failed. -/
theorem register_sends_after_failed_add :
    (edge_add_fails ML_ERROR_INVALID_PARAMETER).nns_edge_data_add
        "videotestsrc ! fakesink" 23 = ML_ERROR_OUT_OF_MEMORY ∧
    ML_ERROR_OUT_OF_MEMORY ≠ NNS_EDGE_ERROR_NONE ∧
    ML_ERROR_OUT_OF_MEMORY ≠ ML_ERROR_INVALID_PARAMETER ∧
    ml_remote_service_register env_no_bus (edge_add_fails ML_ERROR_INVALID_PARAMETER)
        casts_first_member
        (some ⟨.ML_SERVICE_TYPE_REMOTE, .remote ⟨1, NNS_EDGE_NODE_TYPE_PUB⟩⟩)
        (some [("service-type", string_value "pipeline_raw"),
          ("service-key", string_value "p1")])
        (some "videotestsrc ! fakesink") 23 =
      ⟨ML_ERROR_INVALID_PARAMETER,
        [.edge .nns_edge_data_create,
         .edge (.nns_edge_data_set_info "service-type" "pipeline_raw"),
         .edge (.nns_edge_data_set_info "service-key" "p1"),
         .edge (.nns_edge_data_add "videotestsrc ! fakesink" 23),
         .report "Failed to add camera data to the edge data.\n" [],
         .edge .nns_edge_data_destroy,
         .edge (.nns_edge_send 1),
         .report "Failed to publish the data to register the remote service." [],
         .edge .nns_edge_data_destroy]⟩ ∧
    ml_remote_service_register env_no_bus (edge_add_fails NNS_EDGE_ERROR_NONE)
        casts_first_member
        (some ⟨.ML_SERVICE_TYPE_REMOTE, .remote ⟨1, NNS_EDGE_NODE_TYPE_PUB⟩⟩)
        (some [("service-type", string_value "pipeline_raw"),
          ("service-key", string_value "p1")])
        (some "videotestsrc ! fakesink") 23 =
      ⟨ML_ERROR_NONE,
        [.edge .nns_edge_data_create,
         .edge (.nns_edge_data_set_info "service-type" "pipeline_raw"),
         .edge (.nns_edge_data_set_info "service-key" "p1"),
         .edge (.nns_edge_data_add "videotestsrc ! fakesink" 23),
         .report "Failed to add camera data to the edge data.\n" [],
         .edge .nns_edge_data_destroy,
         .edge (.nns_edge_send 1)]⟩ := by
  decide

end MlApi
